import Mathlib

/-!
Verification of the lunar computation core (`src/lib/lunar.js`) of the astro
repository against its natural-language specification.

The JavaScript source is shallowly embedded: numeric values are modelled as
exact real numbers (`ℝ`), calendar/phase arithmetic as exact integers and
rationals, and the JavaScript `NaN` sentinel as `Option` (`none` = NaN, which
is how every comparison and propagation step in the source treats it).
External collaborators of `lunar.js` that are not part of the source tree
(`julian.js`, `sidereal.js`) are modelled from the specification and marked as
such in their doc comments.

Set-up options raise the recursion/heartbeat limits needed by the larger
numeric proofs.
-/

set_option maxHeartbeats 1600000
set_option maxRecDepth 4000
set_option linter.unusedVariables false

namespace Lunar

/-! ### Calendar and phase model (integer/rational part of `lunar.js`)

`_phaseNumber` reads calendar fields from a JavaScript `Date`. The fields
(`getFullYear`, `getMonth`+1, `getDate`) are modelled with the standard
civil-from-days calendar algorithm over `ℤ` (days are obtained from the
millisecond timestamp by floor division; the host timezone is taken to be
UTC). JavaScript's `%` on numbers is a truncated remainder (the sign follows
the dividend); for a positive modulus it is `jsRem` below. -/

/-- JavaScript `a % b` for integer values and positive modulus `b`:
remainder with the sign of the dividend. -/
def jsRem (a b : ℤ) : ℤ := if 0 ≤ a then a % b else -((-a) % b)

/-- Modelled from the spec: the calendar fields `(getFullYear, getMonth + 1,
getDate)` of a JavaScript `Date` holding the given day count since the Unix
epoch (UTC). Standard proleptic-Gregorian civil-from-days computation. -/
def civilFromDays (z0 : ℤ) : ℤ × ℤ × ℤ :=
  let z := z0 + 719468
  let era := Int.fdiv z 146097
  let doe := z - era * 146097
  let yoe := Int.fdiv (doe - Int.fdiv doe 1460 + Int.fdiv doe 36524 - Int.fdiv doe 146096) 365
  let y := yoe + era * 400
  let doy := doe - (365 * yoe + Int.fdiv yoe 4 - Int.fdiv yoe 100)
  let mp := Int.fdiv (5 * doy + 2) 153
  let d := doy - Int.fdiv (153 * mp + 2) 5 + 1
  let m := mp + (if mp < 10 then 3 else -9)
  (if m ≤ 2 then y + 1 else y, m, d)

/-- `_phaseNumber(ts)` from `lunar.js` (ben-daglish closed-form synodic phase
approximation). `ts` is a millisecond timestamp; the intermediate value is
rational because of the `8.3` literal; `Math.floor(r + 0.5)` is `⌊r + 1/2⌋`.
The JavaScript `%` steps are `jsRem` (all moduli are positive; the float
values being reduced are integral at those points). -/
def _phaseNumber (ts : ℤ) : ℤ :=
  let ymd := civilFromDays (Int.fdiv ts 86400000)
  let year := ymd.1
  let month := ymd.2.1
  let day := ymd.2.2
  let r1 := jsRem year 100
  let r2 := jsRem r1 19
  let r3 := if 9 < r2 then r2 - 19 else r2
  let r4 : ℚ := ((jsRem (r3 * 11) 30 + month + day : ℤ) : ℚ)
  let r5 := if month < 3 then r4 + 2 else r4
  let r6 := r5 - (if year < 2000 then (4 : ℚ) else 8.3)
  let r7 := jsRem ⌊r6 + 1 / 2⌋ 30
  if r7 < 0 then r7 + 30 else r7

/-- The nine phase labels returned by `_phaseString` in `lunar.js`,
one constructor per string literal of the source (in source order:
`"new-moon"`, `"Waxing-crescent"`, `"first-quarter"`, `"waxing-gibbous"`,
`"full-moon"`, `"waning-gibbous"`, `"last-quarter"`, `"waning-crescent"`).
`none` models the `null` initialization that survives when no `switch` case
matches. -/
inductive PhaseLabel where
  | newMoon
  | waxingCrescent
  | firstQuarter
  | waxingGibbous
  | fullMoon
  | waningGibbous
  | lastQuarter
  | waningCrescent
deriving DecidableEq, Repr

/-- `_phaseString(phaseNumber)` from `lunar.js`: `Math.round` (= `⌊x + 1/2⌋`
on numbers), then the sequential `switch (true)` range match. The
`console.log` in the source is a side effect with no influence on the
returned value and is not modelled. -/
def _phaseString (phaseNumber : ℚ) : Option PhaseLabel :=
  let p := ⌊phaseNumber + 1 / 2⌋
  if p = 0 then some PhaseLabel.newMoon
  else if 0 < p ∧ p < 8 then some PhaseLabel.waxingCrescent
  else if p = 8 then some PhaseLabel.firstQuarter
  else if 8 < p ∧ p < 15 then some PhaseLabel.waxingGibbous
  else if p = 15 then some PhaseLabel.fullMoon
  else if 15 < p ∧ p < 22 then some PhaseLabel.waningGibbous
  else if p = 22 then some PhaseLabel.lastQuarter
  else if 22 < p ∧ p < 31 then some PhaseLabel.waningCrescent
  else none

/-- `phase(ms)` from `lunar.js`: the pair `{number, string}`. -/
def phase (ms : ℤ) : ℤ × Option PhaseLabel :=
  (_phaseNumber ms, _phaseString ((_phaseNumber ms : ℚ)))

theorem jsRem_nonneg_of_nonneg {a b : ℤ} (ha : 0 ≤ a) (hb : 0 < b) :
    0 ≤ jsRem a b := by
  simp only [jsRem, if_pos ha]
  exact Int.emod_nonneg a (ne_of_gt hb)

theorem jsRem_bounds (a : ℤ) {b : ℤ} (hb : 0 < b) :
    -b < jsRem a b ∧ jsRem a b < b := by
  unfold jsRem
  by_cases ha : 0 ≤ a
  · rw [if_pos ha]
    constructor
    · linarith [Int.emod_nonneg a (ne_of_gt hb)]
    · exact Int.emod_lt_of_pos a hb
  · rw [if_neg ha]
    constructor
    · simp only [neg_lt_neg_iff]
      exact Int.emod_lt_of_pos (-a) hb
    · have := Int.emod_nonneg (-a) (ne_of_gt hb)
      linarith

/-- Claim C7: for every timestamp, the synodic phase number returned by the
phase query is an integer in the range [0, 30), i.e. one of 0 through 29.
(The result type `ℤ` witnesses integrality; the final
`jsRem ⌊r + 1/2⌋ 30` followed by the negative fix-up forces the range,
whatever the calendar fields are.) -/
theorem phaseNumber_mem_range (ts : ℤ) :
    0 ≤ Lunar._phaseNumber ts ∧ Lunar._phaseNumber ts < 30 ∧
      (Lunar.phase ts).1 = Lunar._phaseNumber ts := by
  have key : ∀ x : ℤ,
      (0 ≤ if Lunar.jsRem x 30 < 0 then Lunar.jsRem x 30 + 30 else Lunar.jsRem x 30) ∧
        ((if Lunar.jsRem x 30 < 0 then Lunar.jsRem x 30 + 30 else Lunar.jsRem x 30) < 30) := by
    intro x
    obtain ⟨hlo, hhi⟩ := Lunar.jsRem_bounds x (b := 30) (by norm_num)
    constructor <;> split <;> omega
  refine ⟨?_, ?_, rfl⟩
  · simpa only [Lunar._phaseNumber] using (key _).1
  · simpa only [Lunar._phaseNumber] using (key _).2

/-- Claim C6 counterexample: applying the phase-label mapping to the exact
boundary value 30 does *not* yield a missing label — the final `switch` case
of `_phaseString` accepts every value strictly between 22 and 31, so 30 maps
to the waning-crescent label. -/
theorem phaseString_at_thirty :
    ¬ Lunar._phaseString 30 = none := by
  simp only [Lunar._phaseString]
  norm_num
  exact fun h => Option.noConfusion h

/-- Claim C6 (amended): the phase-label mapping maps the boundary value 30 to
the waning-crescent label (its final case covers 22 < n < 31); the first
out-of-range values with no matching case — yielding the missing/undefined
label — are 31 and the negative values, e.g. -1. -/
theorem phaseString_boundary :
    Lunar._phaseString 30 = some Lunar.PhaseLabel.waningCrescent ∧
      Lunar._phaseString 31 = none ∧ Lunar._phaseString (-1) = none := by
  refine ⟨?_, ?_, ?_⟩ <;> · simp only [Lunar._phaseString]; norm_num

/-! ### Real-valued model of the positional and event code of `lunar.js`

JavaScript floating-point arithmetic is modelled by exact real arithmetic.
`NaN` results are modelled by `Option ℝ` (`none` = NaN): every place the
source tests `isNaN`, compares against a possibly-NaN value (false for NaN),
or propagates NaN through arithmetic is translated accordingly and noted. -/

noncomputable section

/-- `RAD` from `lunar.js`: degree-to-radian factor. -/
def RAD : ℝ := Real.pi / 180

/-- `AU` from `lunar.js`: kilometre-to-astronomical-unit factor. -/
def AU : ℝ := 1 / 149597870.7

/-- `limit_angle(radians)` from `lunar.js`: reduce an angle to [0, 2π) by
subtracting `Math.floor(x / 2π) * 2π`. -/
def limit_angle (x : ℝ) : ℝ := x - ⌊x / (2 * Real.pi)⌋ * (2 * Real.pi)

def Q0 : ℝ := 218.316 * RAD
def Q1 : ℝ := 13.176396 * RAD
def M0 : ℝ := 134.963 * RAD
def M1 : ℝ := 13.064993 * RAD
def F0 : ℝ := 93.272 * RAD
def F1 : ℝ := 13.22935 * RAD
def L0 : ℝ := 6.289 * RAD
def L1 : ℝ := 5.128 * RAD
def E0 : ℝ := 23.439 * RAD
def E1 : ℝ := -0.00000036 * RAD
def D0 : ℝ := 385001 * AU
def D1 : ℝ := -20905 * AU

/-- `_ecliptic_equinox_longitude(t)` from `lunar.js`. -/
def _ecliptic_equinox_longitude (t : ℝ) : ℝ := Q0 + Q1 * t

/-- `_mean_anomaly(t)` from `lunar.js`. -/
def _mean_anomaly (t : ℝ) : ℝ := M0 + M1 * t

/-- `_mean_distance(t)` from `lunar.js`. -/
def _mean_distance (t : ℝ) : ℝ := F0 + F1 * t

/-- `_longitude(t)` from `lunar.js` (ecliptic longitude; no reduction). -/
def _longitude (t : ℝ) : ℝ :=
  _ecliptic_equinox_longitude t + L0 * Real.sin (_mean_anomaly t)

/-- `_latitude(t)` from `lunar.js` (ecliptic latitude). -/
def _latitude (t : ℝ) : ℝ := L1 * Real.sin (_mean_distance t)

/-- `_obliquity(t)` from `lunar.js`. -/
def _obliquity (t : ℝ) : ℝ := E0 + E1 * t

/-- `_distance(t)` from `lunar.js` (distance in AU). -/
def _distance (t : ℝ) : ℝ := D0 + D1 * Real.cos (_mean_anomaly t)

/-- JavaScript `Math.atan2(y, x)` (full-quadrant arctangent) for finite
arguments. -/
def atan2 (y x : ℝ) : ℝ :=
  if 0 < x then Real.arctan (y / x)
  else if x < 0 then
    (if 0 ≤ y then Real.arctan (y / x) + Real.pi else Real.arctan (y / x) - Real.pi)
  else if 0 < y then Real.pi / 2
  else if y < 0 then -(Real.pi / 2)
  else 0

/-- `_right_ascension_direct(lat, lon, obl)` from `lunar.js`. -/
def _right_ascension_direct (lat lon obl : ℝ) : ℝ :=
  atan2 (Real.sin lon * Real.cos obl - Real.tan lat * Real.sin obl) (Real.cos lon)

/-- `_right_ascension(t)` from `lunar.js`. -/
def _right_ascension (t : ℝ) : ℝ :=
  _right_ascension_direct (_latitude t) (_longitude t) (_obliquity t)

/-- `_declination_direct(lat, lon, obl)` from `lunar.js`. (`Math.asin` never
sees an out-of-range argument here: the operand is a convex combination of
`sin (lat - obl)` and `sin (lat + obl)`, so `Real.arcsin`'s clamping never
fires and the JavaScript NaN case cannot occur.) -/
def _declination_direct (lat lon obl : ℝ) : ℝ :=
  Real.arcsin
    (Real.sin lat * Real.cos obl + Real.cos lat * Real.sin obl * Real.sin lon)

/-- `_declination(t)` from `lunar.js`. -/
def _declination (t : ℝ) : ℝ :=
  _declination_direct (_latitude t) (_longitude t) (_obliquity t)

/-- `_hour_angle_direct(lst, ra)` from `lunar.js`. -/
def _hour_angle_direct (lst ra : ℝ) : ℝ := limit_angle lst - limit_angle ra

/-- `_transit_direct(t, ha)` from `lunar.js`. -/
def _transit_direct (t ha : ℝ) : ℝ := t - ha * (12 / Real.pi / 24)

/-- Modelled from the spec: `sidereal.local(t, lon)` of the missing
`sidereal.js` — local sidereal time as `greenwich_sidereal(t) + longitude`,
normalized to [0, 2π). The spec fixes only the linear form of the Greenwich
polynomial; the coefficients used here are the standard linear sidereal-time
approximation (280.1470° + 360.9856235°/day), with `t` in days since the
J2000 epoch as required by the day-based arithmetic of `lunar.js`
(`_hours_later(t, hrs) = t + hrs/24`). -/
def siderealLocal (t lon : ℝ) : ℝ :=
  limit_angle ((280.1470 + 360.9856235 * t) * RAD + lon)

/-- `_hour_angle(t, lon)` from `lunar.js`. -/
def _hour_angle (t lon : ℝ) : ℝ :=
  _hour_angle_direct (siderealLocal t lon) (_right_ascension t)

/-- `_hour_angle_iterative(t, lon, ha0)` from `lunar.js`: walk back in time
by the current hour-angle estimate, recompute, accumulate. -/
def _hour_angle_iterative (t lon ha0 : ℝ) : ℝ :=
  _hour_angle (_transit_direct t ha0) lon + ha0

/-- `_hour_angle_refined(t, lon)` from `lunar.js`: the initial estimate
followed by exactly four unconditional improvement steps. -/
def _hour_angle_refined (t lon : ℝ) : ℝ :=
  _hour_angle_iterative t lon
    (_hour_angle_iterative t lon
      (_hour_angle_iterative t lon
        (_hour_angle_iterative t lon (_hour_angle t lon))))

/-- `_hours_later(t, hrs)` from `lunar.js` (`t` in days). -/
def _hours_later (t hrs : ℝ) : ℝ := t + hrs / 24

/-- `_transit(t, lat, lon)` from `lunar.js`. The two `return` paths are the
two `some` branches; the final `return NaN` is `none`. The source's
acceptance tests are exactly `result <= later_t` (first, backward search)
and `result >= t` (fallback, forward search). -/
def _transit (t lat lon : ℝ) : Option ℝ :=
  let later_t := _hours_later t 24
  let result := _transit_direct later_t (_hour_angle_refined later_t lon)
  if result ≤ later_t then some result
  else
    let result2 := _transit_direct t (_hour_angle_refined t lon)
    if t ≤ result2 then some result2 else none

/-- `_elevation(t, lat, lon)` from `lunar.js`. (As with declination, the
`Math.asin` operand is a cosine of a spherical angle and lies in [-1, 1], so
clamping/NaN never arises.) -/
def _elevation (t lat lon : ℝ) : ℝ :=
  Real.arcsin
    (Real.sin lat * Real.sin (_declination t) +
      Real.cos lat * Real.cos (_declination t) * Real.cos (_hour_angle t lon))

/-- `PARALLAX` from `lunar.js`. -/
def PARALLAX : ℝ := 0.0023212879051524586

/-! #### The `_rise_and_set` sweep

The loop body of `_rise_and_set` fits the parabola through the sampled
elevations `h0, h1, h2` (at segment-local abscissae -1, 0, 1) and classifies
its roots. The intermediate quantities `a, b, xe, ye, d, dx, x1, x2` and the
root count are named `seg_*` below, exactly as computed in the source.

Two floating-point points need care. (1) When `a = 0`, the JavaScript
divisions produce non-finite `xe`/`dx`, hence non-finite `x1`/`x2`, and both
range tests `Math.abs(x) <= 1` are false — so the root count is 0. Exact
real division would instead return 0 and wrongly count roots, so the root
count below guards on `a ≠ 0`. (2) `moonrise`/`moonset` start as `NaN` and
are modelled as `Option ℝ`: `isNaN m` is `m = none`, and the loop-exit test
`m < 24` (false for NaN) tests the value under `some`. -/

def seg_a (h0 h1 h2 : ℝ) : ℝ := (h2 + h0) / 2 - h1

def seg_b (h0 h1 h2 : ℝ) : ℝ := (h2 - h0) / 2

def seg_xe (h0 h1 h2 : ℝ) : ℝ := -seg_b h0 h1 h2 / (2 * seg_a h0 h1 h2)

def seg_ye (h0 h1 h2 : ℝ) : ℝ :=
  (seg_a h0 h1 h2 * seg_xe h0 h1 h2 + seg_b h0 h1 h2) * seg_xe h0 h1 h2 + h1

def seg_d (h0 h1 h2 : ℝ) : ℝ := seg_b h0 h1 h2 ^ 2 - 4 * seg_a h0 h1 h2 * h1

def seg_dx (h0 h1 h2 : ℝ) : ℝ := Real.sqrt (seg_d h0 h1 h2) / (|seg_a h0 h1 h2| * 2)

def seg_x1 (h0 h1 h2 : ℝ) : ℝ := seg_xe h0 h1 h2 - seg_dx h0 h1 h2

def seg_x2 (h0 h1 h2 : ℝ) : ℝ := seg_xe h0 h1 h2 + seg_dx h0 h1 h2

/-- The number of in-segment roots counted by the source (`roots`): only
when `d >= 0`, count `|x1| <= 1` and `|x2| <= 1`. The extra `a ≠ 0` guard
renders the JavaScript behaviour at `a = 0` exactly (see above). -/
def seg_roots (h0 h1 h2 : ℝ) : ℕ :=
  if 0 ≤ seg_d h0 h1 h2 ∧ seg_a h0 h1 h2 ≠ 0 then
    (if |seg_x1 h0 h1 h2| ≤ 1 then 1 else 0) + (if |seg_x2 h0 h1 h2| ≤ 1 then 1 else 0)
  else 0

/-- The source's `if (x1 < -1) x1 = x2` rebinding of `x1`. -/
def seg_x1f (h0 h1 h2 : ℝ) : ℝ :=
  if seg_x1 h0 h1 h2 < -1 then seg_x2 h0 h1 h2 else seg_x1 h0 h1 h2

/-- One pass of the classification block of `_rise_and_set`'s loop for
segment base hour `i` with samples `h0 h1 h2`, acting on the current
`(moonrise, moonset)` state. -/
def riseSetBody (i : ℝ) (h0 h1 h2 : ℝ) (mrise mset : Option ℝ) :
    Option ℝ × Option ℝ :=
  if seg_roots h0 h1 h2 = 1 then
    if h0 < 0 ∧ mrise = none then (some (i + seg_x1f h0 h1 h2), mset)
    else if mset = none then (mrise, some (i + seg_x1f h0 h1 h2))
    else (mrise, mset)
  else if seg_roots h0 h1 h2 = 2 then
    ((if mrise = none then
        some (i + (if seg_ye h0 h1 h2 < 0 then seg_x2 h0 h1 h2 else seg_x1 h0 h1 h2))
      else mrise),
     (if mset = none then
        some (i + (if seg_ye h0 h1 h2 < 0 then seg_x1 h0 h1 h2 else seg_x2 h0 h1 h2))
      else mset))
  else (mrise, mset)

/-- The loop-exit test `moonrise < 24 && moonset < 24` (false when either is
the NaN sentinel). -/
def bothFound (mrise mset : Option ℝ) : Prop :=
  (∃ v, mrise = some v ∧ v < 24) ∧ ∃ v, mset = some v ∧ v < 24

instance (mrise mset : Option ℝ) : Decidable (bothFound mrise mset) := by
  unfold bothFound
  cases mrise <;> cases mset <;> simp <;> infer_instance

/-- The `for (let i = 0; i <= 24; i += 2)` sweep of `_rise_and_set`,
recursing over the remaining segment base hours. State: the carried sample
`h0` (updated to `h2` after each pass) and the `(moonrise, moonset)`
options. At `i = 0` the source has `h1 = h0` (both are the elevation at
`t`); afterwards `h1` is sampled at `t + i` hours and `h2` at `t + i + 1`
hours. -/
def riseSetGo (t lat lon : ℝ) : List ℕ → ℝ → Option ℝ → Option ℝ → Option ℝ × Option ℝ
  | [], _, mrise, mset => (mrise, mset)
  | i :: rest, h0, mrise, mset =>
    let h := -PARALLAX
    let h1 := if i = 0 then h0 else _elevation (_hours_later t i) lat lon - h
    let h2 := _elevation (_hours_later t (i + 1)) lat lon - h
    let s := riseSetBody i h0 h1 h2 mrise mset
    if bothFound s.1 s.2 then s
    else riseSetGo t lat lon rest h2 s.1 s.2

/-- The segment base hours visited by the sweep: `i = 0, 2, ..., 24`. -/
def sweepHours : List ℕ := [0, 2, 4, 6, 8, 10, 12, 14, 16, 18, 20, 22, 24]

/-- `_rise_and_set(t, lat, lon)` from `lunar.js`: run the sweep from the
initial elevation sample, then convert the found segment-relative hours with
`_hours_later` (NaN propagates through `_hours_later`, hence `Option.map`).
Returns `(moonrise, moonset)`. -/
def _rise_and_set (t lat lon : ℝ) : Option ℝ × Option ℝ :=
  let h := -PARALLAX
  let h0 := _elevation t lat lon - h
  let s := riseSetGo t lat lon sweepHours h0 none none
  (s.1.map fun x => _hours_later t x, s.2.map fun x => _hours_later t x)

/-! #### Time-scale conversion and the public (millisecond) surface -/

/-- Modelled from the spec: `julian.to(ms)` of the missing `julian.js` — the
spec gives `julian_date(ms) = ms/86400000 + 2440587.5` and a fixed reference
epoch (J2000, Julian Date 2451545). The lunar series argument is measured in
*days* from that epoch (the source treats `t + 1` as "24 hours later" and
the spec §4.5 projects `t` by fractions of a day), so `julian.to` is the day
count since J2000. -/
def julianTo (ms : ℝ) : ℝ := ms / 86400000 + 2440587.5 - 2451545

/-- Modelled from the spec: `julian.from(d)` — the inverse mapping back to
epoch milliseconds. -/
def julianFrom (d : ℝ) : ℝ := (d - (2440587.5 - 2451545)) * 86400000

/-- `latitude(ms)` from `lunar.js`. -/
def latitude (ms : ℝ) : ℝ := _latitude (julianTo ms)

/-- `longitude(ms)` from `lunar.js` (public Moon ecliptic longitude). -/
def longitude (ms : ℝ) : ℝ := _longitude (julianTo ms)

/-- `obliquity(ms)` from `lunar.js`. -/
def obliquity (ms : ℝ) : ℝ := _obliquity (julianTo ms)

/-- `distance(ms)` from `lunar.js` (public Moon distance). -/
def distance (ms : ℝ) : ℝ := _distance (julianTo ms)

/-- `declination(ms)` from `lunar.js`. -/
def declination (ms : ℝ) : ℝ := _declination (julianTo ms)

/-- `right_ascension(ms)` from `lunar.js`. -/
def right_ascension (ms : ℝ) : ℝ := _right_ascension (julianTo ms)

/-- `elevation(ms, lat, lon)` from `lunar.js` (degrees in, radians used). -/
def elevation (ms lat lon : ℝ) : ℝ := _elevation (julianTo ms) (lat * RAD) (lon * RAD)

/-- `transit(ms, lat, lon)` from `lunar.js` (NaN propagates through
`julian.from`, hence `Option.map`). -/
def transit (ms lat lon : ℝ) : Option ℝ :=
  (_transit (julianTo ms) (lat * RAD) (lon * RAD)).map julianFrom

/-- `rise(ms, lat, lon)` from `lunar.js`. -/
def rise (ms lat lon : ℝ) : Option ℝ :=
  (_rise_and_set (julianTo ms) (lat * RAD) (lon * RAD)).1.map julianFrom

/-- `set(ms, lat, lon)` from `lunar.js`. -/
def set (ms lat lon : ℝ) : Option ℝ :=
  (_rise_and_set (julianTo ms) (lat * RAD) (lon * RAD)).2.map julianFrom

/-- `rise_and_set(ms, lat, lon)` from `lunar.js`: both events from one
sweep. -/
def rise_and_set (ms lat lon : ℝ) : Option ℝ × Option ℝ :=
  let x := _rise_and_set (julianTo ms) (lat * RAD) (lon * RAD)
  (x.1.map julianFrom, x.2.map julianFrom)

/-! ### Basic lemmas about `limit_angle` -/

theorem two_pi_pos : (0 : ℝ) < 2 * Real.pi := by positivity

theorem limit_angle_mem (x : ℝ) : 0 ≤ limit_angle x ∧ limit_angle x < 2 * Real.pi := by
  unfold limit_angle
  constructor
  · have h := Int.floor_le (x / (2 * Real.pi))
    have := (mul_le_mul_right two_pi_pos).mpr h
    rw [div_mul_cancel₀ x (ne_of_gt two_pi_pos)] at this
    linarith
  · have h := Int.lt_floor_add_one (x / (2 * Real.pi))
    have := (mul_lt_mul_right two_pi_pos).mpr h
    rw [div_mul_cancel₀ x (ne_of_gt two_pi_pos), add_mul, one_mul] at this
    linarith

theorem limit_angle_add_int_mul (x : ℝ) (j : ℤ) :
    limit_angle (x + 2 * Real.pi * j) = limit_angle x := by
  unfold limit_angle
  have harg : (x + 2 * Real.pi * j) / (2 * Real.pi) = x / (2 * Real.pi) + j := by
    field_simp
    ring
  rw [harg, Int.floor_add_int]
  push_cast
  ring

theorem limit_angle_eq_self {x : ℝ} (h0 : 0 ≤ x) (h1 : x < 2 * Real.pi) :
    limit_angle x = x := by
  unfold limit_angle
  have : ⌊x / (2 * Real.pi)⌋ = 0 := by
    rw [Int.floor_eq_zero_iff]
    constructor
    · positivity
    · rw [div_lt_one two_pi_pos] at *
      exact h1
  rw [this]
  push_cast
  ring

end

end Lunar

/-- Claim C8: the hour-angle function subtracts the reductions
`limit_angle lst - limit_angle ra` (both operands reduced modulo a full
turn, each reduction landing in [0, 2π)), and is consequently invariant
under adding any integer multiple of 2π to either input. -/
theorem hourAngle_wrap_invariant (lst ra : ℝ) (j k : ℤ) :
    Lunar._hour_angle_direct (lst + 2 * Real.pi * j) (ra + 2 * Real.pi * k) =
        Lunar._hour_angle_direct lst ra ∧
      Lunar._hour_angle_direct lst ra = Lunar.limit_angle lst - Lunar.limit_angle ra ∧
      (0 ≤ Lunar.limit_angle lst ∧ Lunar.limit_angle lst < 2 * Real.pi) := by
  refine ⟨?_, rfl, Lunar.limit_angle_mem lst⟩
  unfold Lunar._hour_angle_direct
  rw [Lunar.limit_angle_add_int_mul, Lunar.limit_angle_add_int_mul]

/-- Claim C4: the transit hour-angle refinement is exactly four unconditional
iterations of the improvement step — each step projects the time backward by
`ha * (12/π/24)` days (which equals `ha / (2π)`, i.e. `hour_angle/(2π)·24h`),
recomputes the hour angle at the projected instant, and adds it to the
estimate — starting from the direct estimate; there is no convergence or
tolerance condition in the recursion. -/
theorem hourAngleRefined_four_iterations (t lon : ℝ) :
    Lunar._hour_angle_refined t lon =
        (fun ha => Lunar._hour_angle (Lunar._transit_direct t ha) lon + ha)^[4]
          (Lunar._hour_angle t lon) ∧
      (∀ u ha, Lunar._transit_direct u ha = u - ha / (2 * Real.pi)) ∧
      (∀ u lo ha0, Lunar._hour_angle_iterative u lo ha0 =
        Lunar._hour_angle (Lunar._transit_direct u ha0) lo + ha0) := by
  refine ⟨rfl, ?_, fun _ _ _ => rfl⟩
  intro u ha
  unfold Lunar._transit_direct
  have hpi := Real.pi_ne_zero
  field_simp
  ring

/-- Claim C9: for every (timestamp, latitude, longitude) the standalone
`rise` query is the `moonrise` field of the combined `rise_and_set` query
and the standalone `set` query is its `moonset` field — both recompute the
same pure sweep, so they agree exactly (including the NaN sentinel,
modelled as `none`). -/
theorem rise_set_agree_with_combined (ms lat lon : ℝ) :
    Lunar.rise ms lat lon = (Lunar.rise_and_set ms lat lon).1 ∧
      Lunar.set ms lat lon = (Lunar.rise_and_set ms lat lon).2 :=
  ⟨rfl, rfl⟩

/-- The public Moon longitude at millisecond timestamp 8.64·10¹² (10⁵ days
after the Unix epoch) exceeds 360: no modulo reduction is applied anywhere
between the series and the public result. -/
theorem longitude_exceeds_360_at_sample : 360 < Lunar.longitude 8640000000000 := by
  have hms : Lunar.julianTo 8640000000000 = 89042.5 := by
    unfold Lunar.julianTo
    norm_num
  unfold Lunar.longitude Lunar._longitude Lunar._ecliptic_equinox_longitude
  rw [hms]
  have hs : -1 ≤ Real.sin (Lunar._mean_anomaly 89042.5) := Real.neg_one_le_sin _
  have hpi3 : (3 : ℝ) < Real.pi := Real.pi_gt_three
  simp only [Lunar.Q0, Lunar.Q1, Lunar.L0, Lunar.RAD]
  nlinarith [mul_le_mul_of_nonneg_left hs
    (show (0 : ℝ) ≤ 6.289 * (Real.pi / 180) by positivity)]

/-- Claim C1 counterexample: the public Moon ecliptic longitude is *not*
normalized into [0, 360): at the millisecond timestamp 8.64·10¹² the
returned value (the raw, unreduced series value) exceeds 360. -/
theorem longitude_not_normalized :
    ¬ (0 ≤ Lunar.longitude 8640000000000 ∧ Lunar.longitude 8640000000000 < 360) := by
  rintro ⟨-, hub⟩
  exact absurd hub (not_lt.mpr (le_of_lt longitude_exceeds_360_at_sample))

/-- Claim C1 (amended): the Moon position query returns a strictly positive
distance for every timestamp, but the ecliptic longitude is returned as the
raw series value `Q0 + Q1·t + L0·sin(mean anomaly)` with no modulo-360
reduction — for large timestamps it exceeds 360. -/
theorem distance_pos_longitude_unreduced :
    (∀ ms : ℝ, 0 < Lunar.distance ms) ∧
      (∀ ms : ℝ, Lunar.longitude ms =
        Lunar._ecliptic_equinox_longitude (Lunar.julianTo ms) +
          Lunar.L0 * Real.sin (Lunar._mean_anomaly (Lunar.julianTo ms))) ∧
      (∃ ms : ℝ, 360 < Lunar.longitude ms) := by
  refine ⟨?_, fun _ => rfl, ⟨8640000000000, ?_⟩⟩
  · intro ms
    simp only [Lunar.distance, Lunar._distance, Lunar.D0, Lunar.D1, Lunar.AU]
    have hc := Real.cos_le_one (Lunar._mean_anomaly (Lunar.julianTo ms))
    have hc' := Real.neg_one_le_cos (Lunar._mean_anomaly (Lunar.julianTo ms))
    nlinarith
  · exact longitude_exceeds_360_at_sample

/-- `seg_x1 ≤ seg_x2` always (`dx` is a square root over a nonnegative
divisor). -/
theorem seg_x1_le_seg_x2 (h0 h1 h2 : ℝ) : Lunar.seg_x1 h0 h1 h2 ≤ Lunar.seg_x2 h0 h1 h2 := by
  unfold Lunar.seg_x1 Lunar.seg_x2
  have : 0 ≤ Lunar.seg_dx h0 h1 h2 := by
    unfold Lunar.seg_dx
    positivity
  linarith

/-- Claim C3: in the rise/set sweep's classification block — with both events
still unresolved — a segment with exactly one in-segment root classifies the
crossing as a rise exactly when the elevation-minus-threshold at the segment
start (`h0`) is negative, and as a set otherwise; a segment with two
in-segment roots takes the earlier root (`x1 ≤ x2`) as the set and the later
as the rise exactly when the parabola's vertex value `ye` is negative, and
conversely otherwise; and an already-resolved rise or set is never
overwritten (so the earliest assignment is kept across the sweep). -/
theorem riseSetBody_classification (i h0 h1 h2 : ℝ) :
    (Lunar.seg_roots h0 h1 h2 = 1 →
        Lunar.riseSetBody i h0 h1 h2 none none =
          (if h0 < 0 then (some (i + Lunar.seg_x1f h0 h1 h2), none)
           else (none, some (i + Lunar.seg_x1f h0 h1 h2)))) ∧
      (Lunar.seg_roots h0 h1 h2 = 2 →
        (Lunar.riseSetBody i h0 h1 h2 none none =
          (if Lunar.seg_ye h0 h1 h2 < 0 then
            (some (i + Lunar.seg_x2 h0 h1 h2), some (i + Lunar.seg_x1 h0 h1 h2))
           else
            (some (i + Lunar.seg_x1 h0 h1 h2), some (i + Lunar.seg_x2 h0 h1 h2)))) ∧
          Lunar.seg_x1 h0 h1 h2 ≤ Lunar.seg_x2 h0 h1 h2) ∧
      (∀ mrise mset, mrise ≠ none → (Lunar.riseSetBody i h0 h1 h2 mrise mset).1 = mrise) ∧
      (∀ mrise mset, mset ≠ none → (Lunar.riseSetBody i h0 h1 h2 mrise mset).2 = mset) := by
  refine ⟨?_, ?_, ?_, ?_⟩
  · intro hr
    simp only [Lunar.riseSetBody, hr, if_true]
    norm_num
  · intro hr
    refine ⟨?_, seg_x1_le_seg_x2 h0 h1 h2⟩
    simp only [Lunar.riseSetBody, hr]
    norm_num
    by_cases hy : Lunar.seg_ye h0 h1 h2 < 0 <;> simp [hy]
  · intro mrise mset hm
    unfold Lunar.riseSetBody
    split_ifs <;> simp_all
  · intro mrise mset hm
    unfold Lunar.riseSetBody
    split_ifs <;> simp_all

/-- Claim C3 witness: two concrete segments. With samples
`(-3/2, -1, 3/2)` the parabola `x² + (3/2)x - 1` has roots -2 and 1/2, so
exactly one root is in-segment and `h0 < 0` classifies it as a rise at
`x = 1/2`. With samples `(3/4, -1/4, 3/4)` the parabola `x² - 1/4` has both
roots `±1/2` in-segment and vertex value `-1/4 < 0`, so the earlier root is
the set and the later the rise. -/
theorem riseSetBody_classification_witness :
    Lunar.seg_roots (-(3/2)) (-1) (3/2) = 1 ∧
      Lunar.riseSetBody 0 (-(3/2)) (-1) (3/2) none none = (some (0 + (1/2 : ℝ)), none) ∧
      Lunar.seg_roots (3/4) (-(1/4)) (3/4) = 2 ∧
      Lunar.riseSetBody 0 (3/4) (-(1/4)) (3/4) none none =
        (some (0 + (1/2 : ℝ)), some (0 + (-(1/2) : ℝ))) := by
  have sqrt254 : Real.sqrt (25/4) = 5/2 := by
    rw [show (25/4 : ℝ) = (5/2)^2 by norm_num]
    exact Real.sqrt_sq (by norm_num)
  have sqrt1 : Real.sqrt 1 = 1 := Real.sqrt_one
  have ha1 : Lunar.seg_a (-(3/2)) (-1) (3/2) = 1 := by unfold Lunar.seg_a; norm_num
  have hb1 : Lunar.seg_b (-(3/2)) (-1) (3/2) = 3/2 := by unfold Lunar.seg_b; norm_num
  have hd1 : Lunar.seg_d (-(3/2)) (-1) (3/2) = 25/4 := by
    unfold Lunar.seg_d; rw [ha1, hb1]; norm_num
  have hxe1 : Lunar.seg_xe (-(3/2)) (-1) (3/2) = -(3/4) := by
    unfold Lunar.seg_xe; rw [ha1, hb1]; norm_num
  have hdx1 : Lunar.seg_dx (-(3/2)) (-1) (3/2) = 5/4 := by
    unfold Lunar.seg_dx; rw [ha1, hd1, sqrt254]; norm_num
  have hx11 : Lunar.seg_x1 (-(3/2)) (-1) (3/2) = -2 := by
    unfold Lunar.seg_x1; rw [hxe1, hdx1]; norm_num
  have hx21 : Lunar.seg_x2 (-(3/2)) (-1) (3/2) = 1/2 := by
    unfold Lunar.seg_x2; rw [hxe1, hdx1]; norm_num
  have hr1 : Lunar.seg_roots (-(3/2)) (-1) (3/2) = 1 := by
    unfold Lunar.seg_roots
    rw [ha1, hd1, hx11, hx21]
    rw [show |(-2 : ℝ)| = 2 by norm_num, show |(1/2 : ℝ)| = 1/2 by norm_num]
    norm_num
  have hx1f1 : Lunar.seg_x1f (-(3/2)) (-1) (3/2) = 1/2 := by
    unfold Lunar.seg_x1f; rw [hx11, hx21]; norm_num
  have ha2 : Lunar.seg_a (3/4) (-(1/4)) (3/4) = 1 := by unfold Lunar.seg_a; norm_num
  have hb2 : Lunar.seg_b (3/4) (-(1/4)) (3/4) = 0 := by unfold Lunar.seg_b; norm_num
  have hd2 : Lunar.seg_d (3/4) (-(1/4)) (3/4) = 1 := by
    unfold Lunar.seg_d; rw [ha2, hb2]; norm_num
  have hxe2 : Lunar.seg_xe (3/4) (-(1/4)) (3/4) = 0 := by
    unfold Lunar.seg_xe; rw [ha2, hb2]; norm_num
  have hdx2 : Lunar.seg_dx (3/4) (-(1/4)) (3/4) = 1/2 := by
    unfold Lunar.seg_dx; rw [ha2, hd2, sqrt1]; norm_num
  have hx12 : Lunar.seg_x1 (3/4) (-(1/4)) (3/4) = -(1/2) := by
    unfold Lunar.seg_x1; rw [hxe2, hdx2]; norm_num
  have hx22 : Lunar.seg_x2 (3/4) (-(1/4)) (3/4) = 1/2 := by
    unfold Lunar.seg_x2; rw [hxe2, hdx2]; norm_num
  have hr2 : Lunar.seg_roots (3/4) (-(1/4)) (3/4) = 2 := by
    unfold Lunar.seg_roots
    rw [ha2, hd2, hx12, hx22]
    rw [show |(-(1/2) : ℝ)| = 1/2 by norm_num, show |(1/2 : ℝ)| = 1/2 by norm_num]
    norm_num
  have hy2 : Lunar.seg_ye (3/4) (-(1/4)) (3/4) = -(1/4) := by
    unfold Lunar.seg_ye; rw [ha2, hb2, hxe2]; norm_num
  have e1 := (riseSetBody_classification 0 (-(3/2)) (-1) (3/2)).1 hr1
  rw [if_pos (by norm_num : (-(3/2) : ℝ) < 0), hx1f1] at e1
  have e2 := ((riseSetBody_classification 0 (3/4) (-(1/4)) (3/4)).2.1 hr2).1
  rw [if_pos (by rw [hy2]; norm_num), hx12, hx22] at e2
  exact ⟨hr1, e1, hr2, e2⟩

/-- Claim C5: the rise (resp. set) output of the public query is the NaN
sentinel (`none`) exactly when the 2-hour sweep over the day window ends
with that event unassigned — no spurious finite value can appear, since
`_hours_later` and `julian.from` only map an assigned finite value; and a
segment whose parabola has no in-segment root (root count 0 — in particular
whenever the elevation threshold is not crossed near the segment) leaves
both events unchanged. -/
theorem rise_set_sentinel (ms lat lon : ℝ) :
    (Lunar.rise ms lat lon = none ↔
        (Lunar.riseSetGo (Lunar.julianTo ms) (lat * Lunar.RAD) (lon * Lunar.RAD)
          Lunar.sweepHours
          (Lunar._elevation (Lunar.julianTo ms) (lat * Lunar.RAD) (lon * Lunar.RAD) -
            -Lunar.PARALLAX) none none).1 = none) ∧
      (Lunar.set ms lat lon = none ↔
        (Lunar.riseSetGo (Lunar.julianTo ms) (lat * Lunar.RAD) (lon * Lunar.RAD)
          Lunar.sweepHours
          (Lunar._elevation (Lunar.julianTo ms) (lat * Lunar.RAD) (lon * Lunar.RAD) -
            -Lunar.PARALLAX) none none).2 = none) ∧
      (∀ (i h0 h1 h2 : ℝ) (mrise mset : Option ℝ), Lunar.seg_roots h0 h1 h2 = 0 →
        Lunar.riseSetBody i h0 h1 h2 mrise mset = (mrise, mset)) := by
  refine ⟨?_, ?_, ?_⟩
  · simp only [Lunar.rise, Lunar._rise_and_set, Option.map_eq_none', Option.map_map]
  · simp only [Lunar.set, Lunar._rise_and_set, Option.map_eq_none', Option.map_map]
  · intro i h0 h1 h2 mrise mset hr
    simp only [Lunar.riseSetBody, hr]
    norm_num

/-- Claim C5 witness: instantiating the sentinel theorem at the origin query
and its no-root conjunct at the concrete segment `(1, 1, 2)` (discriminant
`-7/4 < 0`, so the parabola never crosses and the state is untouched). -/
theorem rise_set_sentinel_witness :
    Lunar.seg_roots 1 1 2 = 0 ∧
      Lunar.riseSetBody 0 1 1 2 none none = (none, none) := by
  have hr : Lunar.seg_roots 1 1 2 = 0 := by
    have hd : Lunar.seg_d 1 1 2 = -(7/4) := by
      unfold Lunar.seg_d Lunar.seg_a Lunar.seg_b
      norm_num
    unfold Lunar.seg_roots
    rw [hd]
    norm_num
  exact ⟨hr, (rise_set_sentinel 0 0 0).2.2 0 1 1 2 none none hr⟩

namespace Lunar

/-- `optWithin o a b`: the possibly-NaN value `o` is either the NaN sentinel
or a finite value in `[a, b]`. -/
def optWithin (o : Option ℝ) (a b : ℝ) : Prop :=
  match o with
  | none => True
  | some v => a ≤ v ∧ v ≤ b

theorem optWithin_none (a b : ℝ) : optWithin none a b := trivial

theorem optWithin_some {v a b : ℝ} (h1 : a ≤ v) (h2 : v ≤ b) :
    optWithin (some v) a b := ⟨h1, h2⟩

/-- Any value assigned by one classification pass is `i + x` with `|x| ≤ 1`;
unassigned slots are carried through. -/
theorem riseSetBody_range (i h0 h1 h2 : ℝ) (mrise mset : Option ℝ) :
    ((riseSetBody i h0 h1 h2 mrise mset).1 = mrise ∨
        ∃ x, (riseSetBody i h0 h1 h2 mrise mset).1 = some (i + x) ∧ |x| ≤ 1) ∧
      ((riseSetBody i h0 h1 h2 mrise mset).2 = mset ∨
        ∃ x, (riseSetBody i h0 h1 h2 mrise mset).2 = some (i + x) ∧ |x| ≤ 1) := by
  have hx12 := seg_x1_le_seg_x2 h0 h1 h2
  by_cases hr1 : seg_roots h0 h1 h2 = 1
  · have hx1f : |seg_x1f h0 h1 h2| ≤ 1 := by
      unfold seg_roots at hr1
      by_cases hguard : 0 ≤ seg_d h0 h1 h2 ∧ seg_a h0 h1 h2 ≠ 0
      · rw [if_pos hguard] at hr1
        by_cases h1le : |seg_x1 h0 h1 h2| ≤ 1
        · have : ¬ |seg_x2 h0 h1 h2| ≤ 1 := by
            intro hc
            rw [if_pos h1le, if_pos hc] at hr1
            norm_num at hr1
          have hnot : ¬ seg_x1 h0 h1 h2 < -1 := by
            intro hc
            have := abs_le.mp h1le
            linarith
          unfold seg_x1f
          rw [if_neg hnot]
          exact h1le
        · have h2le : |seg_x2 h0 h1 h2| ≤ 1 := by
            by_contra hc
            rw [if_neg h1le, if_neg hc] at hr1
            norm_num at hr1
          have habs := abs_le.mp h2le
          have hlt : seg_x1 h0 h1 h2 < -1 := by
            rcases lt_or_le (seg_x1 h0 h1 h2) (-1) with h | h
            · exact h
            · exfalso
              apply h1le
              rw [abs_le]
              exact ⟨h, le_trans hx12 habs.2⟩
          unfold seg_x1f
          rw [if_pos hlt]
          exact h2le
      · rw [if_neg hguard] at hr1
        norm_num at hr1
    simp only [riseSetBody, hr1, if_pos]
    by_cases hc : h0 < 0 ∧ mrise = none
    · rw [if_pos hc]
      exact ⟨Or.inr ⟨_, rfl, hx1f⟩, Or.inl rfl⟩
    · rw [if_neg hc]
      by_cases hm : mset = none
      · rw [if_pos hm, hm]
        exact ⟨Or.inl rfl, Or.inr ⟨_, rfl, hx1f⟩⟩
      · rw [if_neg hm]
        exact ⟨Or.inl rfl, Or.inl rfl⟩
  · by_cases hr2 : seg_roots h0 h1 h2 = 2
    · have hboth : |seg_x1 h0 h1 h2| ≤ 1 ∧ |seg_x2 h0 h1 h2| ≤ 1 := by
        unfold seg_roots at hr2
        by_cases hguard : 0 ≤ seg_d h0 h1 h2 ∧ seg_a h0 h1 h2 ≠ 0
        · rw [if_pos hguard] at hr2
          by_cases h1le : |seg_x1 h0 h1 h2| ≤ 1 <;> by_cases h2le : |seg_x2 h0 h1 h2| ≤ 1 <;>
            simp [h1le, h2le] at hr2 ⊢
        · rw [if_neg hguard] at hr2
          norm_num at hr2
      simp only [riseSetBody, hr2]
      rw [if_neg (by norm_num : ¬ (2 : ℕ) = 1)]
      simp only [if_true]
      constructor
      · by_cases hm : mrise = none
        · rw [if_pos hm]
          by_cases hy : seg_ye h0 h1 h2 < 0 <;>
            [exact Or.inr ⟨_, by rw [if_pos hy], hboth.2⟩;
             exact Or.inr ⟨_, by rw [if_neg hy], hboth.1⟩]
        · rw [if_neg hm]
          exact Or.inl rfl
      · by_cases hm : mset = none
        · rw [if_pos hm]
          by_cases hy : seg_ye h0 h1 h2 < 0 <;>
            [exact Or.inr ⟨_, by rw [if_pos hy], hboth.1⟩;
             exact Or.inr ⟨_, by rw [if_neg hy], hboth.2⟩]
        · rw [if_neg hm]
          exact Or.inl rfl
    · simp only [riseSetBody]
      rw [if_neg hr1, if_neg hr2]
      exact ⟨Or.inl rfl, Or.inl rfl⟩

/-- Sweep invariant: starting from slots that are `none` or within
`[-1, 25]`, every slot the sweep produces is `none` or within `[-1, 25]`,
provided every visited base hour is at most 24. -/
theorem riseSetGo_range (t lat lon : ℝ) :
    ∀ (L : List ℕ), (∀ i ∈ L, i ≤ 24) → ∀ (h0 : ℝ) (mrise mset : Option ℝ),
      optWithin mrise (-1) 25 → optWithin mset (-1) 25 →
      optWithin (riseSetGo t lat lon L h0 mrise mset).1 (-1) 25 ∧
        optWithin (riseSetGo t lat lon L h0 mrise mset).2 (-1) 25 := by
  intro L
  induction L with
  | nil =>
    intro _ h0 mrise mset hr hs
    exact ⟨hr, hs⟩
  | cons i rest ih =>
    intro hL h0 mrise mset hr hs
    have hi : (i : ℝ) ≤ 24 := by
      have := hL i (List.mem_cons_self i rest)
      exact_mod_cast this
    have hstep := riseSetBody_range i h0
      (if i = 0 then h0 else _elevation (_hours_later t i) lat lon - -PARALLAX)
      (_elevation (_hours_later t (i + 1)) lat lon - -PARALLAX) mrise mset
    set s := riseSetBody i h0
      (if i = 0 then h0 else _elevation (_hours_later t i) lat lon - -PARALLAX)
      (_elevation (_hours_later t (i + 1)) lat lon - -PARALLAX) mrise mset with hsdef
    have hs1 : optWithin s.1 (-1) 25 := by
      rcases hstep.1 with h | ⟨x, hx, hxle⟩
      · rw [h]; exact hr
      · rw [hx]
        have := abs_le.mp hxle
        have hi0 : (0 : ℝ) ≤ (i : ℝ) := Nat.cast_nonneg i
        exact optWithin_some (by linarith) (by linarith)
    have hs2 : optWithin s.2 (-1) 25 := by
      rcases hstep.2 with h | ⟨x, hx, hxle⟩
      · rw [h]; exact hs
      · rw [hx]
        have := abs_le.mp hxle
        have hi0 : (0 : ℝ) ≤ (i : ℝ) := Nat.cast_nonneg i
        exact optWithin_some (by linarith) (by linarith)
    show optWithin (riseSetGo t lat lon (i :: rest) h0 mrise mset).1 (-1) 25 ∧ _
    rw [riseSetGo]
    simp only [← hsdef]
    by_cases hb : bothFound s.1 s.2
    · rw [if_pos hb]
      exact ⟨hs1, hs2⟩
    · rw [if_neg hb]
      exact ih (fun j hj => hL j (List.mem_cons_of_mem i hj)) _ s.1 s.2 hs1 hs2

end Lunar

/-! ### Certified numeric bounds toolkit

Degree-9/8 Taylor enclosures of `sin`/`cos` on [-1, 1] (derived from the
complex exponential series tail bound), interval-evaluation lemmas with
rational endpoints, and helpers for angles that are rational multiples of π.
These support the concrete-input theorems about the event solver. -/

namespace NumBounds

open Finset


theorem sin_taylor9 {x : ℝ} (hx : |x| ≤ 1) :
    |Real.sin x - (x - x^3/6 + x^5/120 - x^7/5040 + x^9/362880)| ≤ 1/3000000 := by
  set T : ℝ := x - x^3/6 + x^5/120 - x^7/5040 + x^9/362880 with hT
  have h4 : Complex.I ^ 4 = 1 := Complex.I_pow_four
  have h3 : Complex.I ^ 3 = -Complex.I := by
    rw [pow_succ, Complex.I_sq, neg_one_mul]
  have h5 : Complex.I ^ 5 = Complex.I := by
    rw [show (5 : ℕ) = 4 + 1 from rfl, pow_succ, h4, one_mul]
  have h7 : Complex.I ^ 7 = -Complex.I := by
    rw [show (7 : ℕ) = 4 + 3 from rfl, pow_add, h4, one_mul, h3]
  have h9 : Complex.I ^ 9 = Complex.I := by
    rw [show (9 : ℕ) = 4 + 4 + 1 from rfl, pow_add, pow_add, h4, one_mul, one_mul, pow_one]
  have habs : Complex.abs ((x : ℂ) * Complex.I) ≤ 1 := by simpa using hx
  have habs' : Complex.abs (-(x : ℂ) * Complex.I) ≤ 1 := by simpa using hx
  have hb1 := Complex.exp_bound habs (n := 10) (by norm_num)
  have hb2 := Complex.exp_bound habs' (n := 10) (by norm_num)
  have hsum : (∑ m ∈ range 10, (-(x:ℂ) * Complex.I) ^ m / m.factorial) -
      (∑ m ∈ range 10, ((x:ℂ) * Complex.I) ^ m / m.factorial) = -2 * (T : ℂ) * Complex.I := by
    simp only [sum_range_succ, range_zero, sum_empty, Nat.factorial, hT]
    push_cast
    ring_nf
    rw [h3, h5, h7, h9]
    ring
  have key : ((Real.sin x : ℝ) : ℂ) - (T : ℂ) =
      ((Complex.exp (-(x:ℂ) * Complex.I) - ∑ m ∈ range 10, (-(x:ℂ) * Complex.I) ^ m / m.factorial) -
        (Complex.exp ((x:ℂ) * Complex.I) - ∑ m ∈ range 10, ((x:ℂ) * Complex.I) ^ m / m.factorial)) *
          Complex.I / 2 := by
    rw [Complex.ofReal_sin, Complex.sin]
    rw [sub_sub_sub_comm, sub_mul, sub_div, hsum]
    ring_nf
    rw [Complex.I_sq]
    ring
  have habs2 : |Real.sin x - T| = Complex.abs (((Real.sin x - T : ℝ) : ℂ)) :=
    (Complex.abs_ofReal _).symm
  rw [habs2, Complex.ofReal_sub, key]
  set A : ℂ := Complex.exp (-(x:ℂ) * Complex.I) - ∑ m ∈ range 10, (-(x:ℂ) * Complex.I) ^ m / m.factorial
  set B : ℂ := Complex.exp ((x:ℂ) * Complex.I) - ∑ m ∈ range 10, ((x:ℂ) * Complex.I) ^ m / m.factorial
  have hAB : Complex.abs ((A - B) * Complex.I / 2) ≤ (Complex.abs A + Complex.abs B) / 2 := by
    rw [map_div₀, map_mul, Complex.abs_I, mul_one, Complex.abs_two]
    have h := Complex.abs.add_le A (-B)
    rw [← sub_eq_add_neg, Complex.abs.map_neg] at h
    linarith
  refine le_trans hAB ?_
  have hc : ((Nat.factorial 10 : ℝ) * ((10 : ℕ) : ℝ))⁻¹ = 1 / 36288000 := by
    norm_num [Nat.factorial]
  have e1 : Complex.abs A ≤ 1 * ((Nat.succ 10 : ℝ) * (1 / 36288000)) := by
    refine le_trans hb2 ?_
    rw [hc] at hb2 ⊢
    gcongr
    exact pow_le_one₀ (Complex.abs.nonneg _) habs'
  have e2 : Complex.abs B ≤ 1 * ((Nat.succ 10 : ℝ) * (1 / 36288000)) := by
    refine le_trans hb1 ?_
    rw [hc] at hb1 ⊢
    gcongr
    exact pow_le_one₀ (Complex.abs.nonneg _) habs
  have : (1 : ℝ) * ((Nat.succ 10 : ℝ) * (1 / 36288000)) = 11 / 36288000 := by
    norm_num
  rw [this] at e1 e2
  linarith

theorem cos_taylor8 {x : ℝ} (hx : |x| ≤ 1) :
    |Real.cos x - (1 - x^2/2 + x^4/24 - x^6/720 + x^8/40320)| ≤ 1/3000000 := by
  set T : ℝ := 1 - x^2/2 + x^4/24 - x^6/720 + x^8/40320 with hT
  have h4 : Complex.I ^ 4 = 1 := Complex.I_pow_four
  have h6 : Complex.I ^ 6 = -1 := by
    rw [show (6 : ℕ) = 4 + 2 from rfl, pow_add, h4, one_mul, Complex.I_sq]
  have h8 : Complex.I ^ 8 = 1 := by
    rw [show (8 : ℕ) = 4 + 4 from rfl, pow_add, h4, one_mul]
  have habs : Complex.abs ((x : ℂ) * Complex.I) ≤ 1 := by simpa using hx
  have habs' : Complex.abs (-(x : ℂ) * Complex.I) ≤ 1 := by simpa using hx
  have hb1 := Complex.exp_bound habs (n := 10) (by norm_num)
  have hb2 := Complex.exp_bound habs' (n := 10) (by norm_num)
  have hsum : (∑ m ∈ range 10, ((x:ℂ) * Complex.I) ^ m / m.factorial) +
      (∑ m ∈ range 10, (-(x:ℂ) * Complex.I) ^ m / m.factorial) = 2 * (T : ℂ) := by
    simp only [sum_range_succ, range_zero, sum_empty, Nat.factorial, hT]
    push_cast
    ring_nf
    rw [Complex.I_sq, h4, h6, h8]
    ring
  have key : ((Real.cos x : ℝ) : ℂ) - (T : ℂ) =
      ((Complex.exp ((x:ℂ) * Complex.I) - ∑ m ∈ range 10, ((x:ℂ) * Complex.I) ^ m / m.factorial) +
        (Complex.exp (-(x:ℂ) * Complex.I) - ∑ m ∈ range 10, (-(x:ℂ) * Complex.I) ^ m / m.factorial)) / 2 := by
    rw [Complex.ofReal_cos, Complex.cos]
    linear_combination hsum / 2
  have habs2 : |Real.cos x - T| = Complex.abs (((Real.cos x - T : ℝ) : ℂ)) :=
    (Complex.abs_ofReal _).symm
  rw [habs2, Complex.ofReal_sub, key]
  set A : ℂ := Complex.exp ((x:ℂ) * Complex.I) - ∑ m ∈ range 10, ((x:ℂ) * Complex.I) ^ m / m.factorial
  set B : ℂ := Complex.exp (-(x:ℂ) * Complex.I) - ∑ m ∈ range 10, (-(x:ℂ) * Complex.I) ^ m / m.factorial
  have hAB : Complex.abs ((A + B) / 2) ≤ (Complex.abs A + Complex.abs B) / 2 := by
    rw [map_div₀, Complex.abs_two]
    have h := Complex.abs.add_le A B
    linarith
  refine le_trans hAB ?_
  have hc : ((Nat.factorial 10 : ℝ) * ((10 : ℕ) : ℝ))⁻¹ = 1 / 36288000 := by
    norm_num [Nat.factorial]
  have e1 : Complex.abs A ≤ 1 * ((Nat.succ 10 : ℝ) * (1 / 36288000)) := by
    refine le_trans hb1 ?_
    rw [hc]
    gcongr
    exact pow_le_one₀ (Complex.abs.nonneg _) habs
  have e2 : Complex.abs B ≤ 1 * ((Nat.succ 10 : ℝ) * (1 / 36288000)) := by
    refine le_trans hb2 ?_
    rw [hc]
    gcongr
    exact pow_le_one₀ (Complex.abs.nonneg _) habs'
  have hval : (1 : ℝ) * ((Nat.succ 10 : ℝ) * (1 / 36288000)) = 11 / 36288000 := by
    norm_num
  rw [hval] at e1 e2
  linarith


theorem odd_pow_le {a x : ℝ} (n : ℕ) (hn : Odd n) (h : a ≤ x) : a^n ≤ x^n :=
  (Odd.strictMono_pow (R := ℝ) hn).le_iff_le.mpr h

/-- Interval evaluation of `sin` on `[a, b] ⊆ [-1, 1]` with rational
endpoints: all Taylor monomials are odd, hence monotone. -/
theorem sin_poly_mem (lo hi : ℝ) {x a b : ℝ} (h1 : a ≤ x) (h2 : x ≤ b)
    (h3 : -1 ≤ a) (h4 : b ≤ 1)
    (hlo : lo ≤ a - b^3/6 + a^5/120 - b^7/5040 + a^9/362880 - 1/3000000)
    (hhi : b - a^3/6 + b^5/120 - a^7/5040 + b^9/362880 + 1/3000000 ≤ hi) :
    lo ≤ Real.sin x ∧ Real.sin x ≤ hi := by
  have hx : |x| ≤ 1 := abs_le.mpr ⟨by linarith, by linarith⟩
  have ht := abs_le.mp (sin_taylor9 hx)
  have p3a := odd_pow_le 3 (by decide) h1
  have p3b := odd_pow_le 3 (by decide) h2
  have p5a := odd_pow_le 5 (by decide) h1
  have p5b := odd_pow_le 5 (by decide) h2
  have p7a := odd_pow_le 7 (by decide) h1
  have p7b := odd_pow_le 7 (by decide) h2
  have p9a := odd_pow_le 9 (by decide) h1
  have p9b := odd_pow_le 9 (by decide) h2
  constructor <;> linarith

/-- Interval evaluation of `cos` on `[a, b] ⊆ [-1, 1]`: all Taylor
monomials are even powers, bounded through `d ≤ |x| ≤ c` where the caller
supplies `d`, `c` and a side condition placing `d` below the interval's
distance from zero. -/
theorem cos_poly_mem (lo hi d c : ℝ) {x a b : ℝ} (h1 : a ≤ x) (h2 : x ≤ b)
    (h3 : -1 ≤ a) (h4 : b ≤ 1) (hd1 : 0 ≤ d)
    (hd2 : d ≤ a ∨ b ≤ -d ∨ d = 0) (hc1 : -c ≤ a) (hc2 : b ≤ c)
    (hlo : lo ≤ 1 - c^2/2 + d^4/24 - c^6/720 + d^8/40320 - 1/3000000)
    (hhi : 1 - d^2/2 + c^4/24 - d^6/720 + c^8/40320 + 1/3000000 ≤ hi) :
    lo ≤ Real.cos x ∧ Real.cos x ≤ hi := by
  have hx : |x| ≤ 1 := abs_le.mpr ⟨by linarith, by linarith⟩
  have hcx1 : d^2 ≤ x^2 := by
    rcases hd2 with hda | hdb | hd0
    · nlinarith
    · nlinarith
    · rw [hd0]
      nlinarith [sq_nonneg x]
  have hcx2 : x^2 ≤ c^2 := by nlinarith
  have h1 := hcx1
  have h2 := hcx2
  have ht := abs_le.mp (cos_taylor8 hx)
  have hd2 : (0:ℝ) ≤ d^2 := sq_nonneg d
  have hx2 : (0:ℝ) ≤ x^2 := sq_nonneg x
  have sq_pow : ∀ (u v : ℝ), 0 ≤ u^2 → u^2 ≤ v^2 → ∀ k : ℕ, (u^2)^k ≤ (v^2)^k :=
    fun u v hu huv k => pow_le_pow_left₀ hu huv k
  have p4a : d^4 ≤ x^4 := by
    have h := sq_pow d x hd2 h1 2
    calc d^4 = (d^2)^2 := by ring
      _ ≤ (x^2)^2 := h
      _ = x^4 := by ring
  have p4b : x^4 ≤ c^4 := by
    have h := sq_pow x c hx2 h2 2
    calc x^4 = (x^2)^2 := by ring
      _ ≤ (c^2)^2 := h
      _ = c^4 := by ring
  have p6a : d^6 ≤ x^6 := by
    have h := sq_pow d x hd2 h1 3
    calc d^6 = (d^2)^3 := by ring
      _ ≤ (x^2)^3 := h
      _ = x^6 := by ring
  have p6b : x^6 ≤ c^6 := by
    have h := sq_pow x c hx2 h2 3
    calc x^6 = (x^2)^3 := by ring
      _ ≤ (c^2)^3 := h
      _ = c^6 := by ring
  have p8a : d^8 ≤ x^8 := by
    have h := sq_pow d x hd2 h1 4
    calc d^8 = (d^2)^4 := by ring
      _ ≤ (x^2)^4 := h
      _ = x^8 := by ring
  have p8b : x^8 ≤ c^8 := by
    have h := sq_pow x c hx2 h2 4
    calc x^8 = (x^2)^4 := by ring
      _ ≤ (c^2)^4 := h
      _ = c^8 := by ring
  constructor <;> linarith

end NumBounds

namespace NumBounds

theorem sin_reduce (y : ℝ) (k : ℤ) : Real.sin y = Real.sin (y - k * (2 * Real.pi)) := by
  rw [show y - k * (2 * Real.pi) = y + (-k : ℤ) * (2 * Real.pi) by push_cast; ring,
    Real.sin_add_int_mul_two_pi]

theorem cos_reduce (y : ℝ) (k : ℤ) : Real.cos y = Real.cos (y - k * (2 * Real.pi)) := by
  rw [show y - k * (2 * Real.pi) = y + (-k : ℤ) * (2 * Real.pi) by push_cast; ring,
    Real.cos_add_int_mul_two_pi]

theorem sin_shift1 (y : ℝ) : Real.sin y = Real.cos (y - Real.pi / 2) :=
  (Real.cos_sub_pi_div_two y).symm

theorem sin_shift2 (y : ℝ) : Real.sin y = -Real.sin (y - Real.pi) := by
  rw [Real.sin_sub_pi]
  ring

theorem sin_shift3 (y : ℝ) : Real.sin y = -Real.cos (y - 3 * Real.pi / 2) := by
  have h := Real.cos_sub_pi_div_two (y - Real.pi)
  rw [Real.sin_sub_pi] at h
  rw [show y - 3 * Real.pi / 2 = y - Real.pi - Real.pi / 2 by ring]
  linarith

theorem cos_shift1 (y : ℝ) : Real.cos y = -Real.sin (y - Real.pi / 2) := by
  rw [Real.sin_sub_pi_div_two]
  ring

theorem cos_shift2 (y : ℝ) : Real.cos y = -Real.cos (y - Real.pi) := by
  rw [Real.cos_sub_pi]
  ring

theorem cos_shift3 (y : ℝ) : Real.cos y = Real.sin (y - 3 * Real.pi / 2) := by
  have h := cos_shift1 (y - Real.pi)
  rw [Real.cos_sub_pi] at h
  rw [show y - 3 * Real.pi / 2 = y - Real.pi - Real.pi / 2 by ring]
  linarith

/-- Corner-product interval bound for a product of two bounded reals. -/
theorem mul_mem (lo hi : ℝ) {x y xl xu yl yu : ℝ}
    (hx1 : xl ≤ x) (hx2 : x ≤ xu) (hy1 : yl ≤ y) (hy2 : y ≤ yu)
    (h1 : lo ≤ xl * yl) (h2 : lo ≤ xl * yu) (h3 : lo ≤ xu * yl) (h4 : lo ≤ xu * yu)
    (h5 : xl * yl ≤ hi) (h6 : xl * yu ≤ hi) (h7 : xu * yl ≤ hi) (h8 : xu * yu ≤ hi) :
    lo ≤ x * y ∧ x * y ≤ hi := by
  constructor
  · rcases le_or_lt 0 y with hy | hy
    · rcases le_or_lt 0 xl with hxl | hxl
      · nlinarith [mul_nonneg (sub_nonneg.2 hx1) hy, mul_nonneg hxl (sub_nonneg.2 hy1)]
      · nlinarith [mul_nonneg (sub_nonneg.2 hx1) hy,
          mul_nonneg (neg_nonneg.2 hxl.le) (sub_nonneg.2 hy2)]
    · rcases le_or_lt 0 xu with hxu | hxu
      · nlinarith [mul_nonneg (sub_nonneg.2 hx2) (neg_nonneg.2 hy.le),
          mul_nonneg hxu (sub_nonneg.2 hy1)]
      · nlinarith [mul_nonneg (sub_nonneg.2 hx2) (neg_nonneg.2 hy.le),
          mul_nonneg (neg_nonneg.2 hxu.le) (sub_nonneg.2 hy2)]
  · rcases le_or_lt 0 y with hy | hy
    · rcases le_or_lt 0 xu with hxu | hxu
      · nlinarith [mul_nonneg (sub_nonneg.2 hx2) hy, mul_nonneg hxu (sub_nonneg.2 hy2)]
      · nlinarith [mul_nonneg (sub_nonneg.2 hx2) hy,
          mul_nonneg (neg_nonneg.2 hxu.le) (sub_nonneg.2 hy1)]
    · rcases le_or_lt 0 xl with hxl | hxl
      · nlinarith [mul_nonneg (sub_nonneg.2 hx1) (neg_nonneg.2 hy.le),
          mul_nonneg hxl (sub_nonneg.2 hy2)]
      · nlinarith [mul_nonneg (sub_nonneg.2 hx1) (neg_nonneg.2 hy.le),
          mul_nonneg (neg_nonneg.2 hxl.le) (sub_nonneg.2 hy1)]

end NumBounds


namespace NumBounds

theorem arcsin_gt_of {X v : ℝ} (hv1 : -(Real.pi / 2) ≤ v) (hv2 : v ≤ Real.pi / 2)
    (hX1 : X ≤ 1) (h : Real.sin v < X) : v < Real.arcsin X := by
  have hs1 : -1 ≤ Real.sin v := Real.neg_one_le_sin v
  have hm := Real.strictMonoOn_arcsin ⟨hs1, Real.sin_le_one v⟩ ⟨le_trans hs1 h.le, hX1⟩ h
  rwa [Real.arcsin_sin hv1 hv2] at hm

theorem arcsin_lt_of {X v : ℝ} (hv1 : -(Real.pi / 2) ≤ v) (hv2 : v ≤ Real.pi / 2)
    (hX1 : -1 ≤ X) (h : X < Real.sin v) : Real.arcsin X < v := by
  have hs2 : Real.sin v ≤ 1 := Real.sin_le_one v
  have hm := Real.strictMonoOn_arcsin ⟨hX1, le_trans h.le hs2⟩
    ⟨Real.neg_one_le_sin v, hs2⟩ h
  rwa [Real.arcsin_sin hv1 hv2] at hm

end NumBounds

namespace Lunar

/-- Declination is the arcsine of its operand, hence within [-π/2, π/2]. -/
theorem declination_mem (t : ℝ) :
    -(Real.pi / 2) ≤ _declination t ∧ _declination t ≤ Real.pi / 2 := by
  unfold _declination _declination_direct
  exact ⟨Real.neg_pi_div_two_le_arcsin _, Real.arcsin_le_pi_div_two _⟩

/-- At the north pole (latitude π/2) the elevation equals the declination. -/
theorem elevation_at_pole (t lon : ℝ) :
    _elevation t (Real.pi / 2) lon = _declination t := by
  unfold _elevation
  rw [Real.sin_pi_div_two, Real.cos_pi_div_two, one_mul, zero_mul, zero_mul, add_zero]
  exact Real.arcsin_sin (declination_mem t).1 (declination_mem t).2

/-- Certified declination window at the concrete query day used for the
out-of-window rise/set existence result: at `t0 = 10521541/1440` days after
J2000 (the polar query instant) the lunar declination has just crossed the
parallax threshold from below, and one hour later it is far above it. -/
theorem c10_decl_bounds :
    0 < _declination ((10521541 : ℝ)/1440) + PARALLAX ∧
      _declination ((10521541 : ℝ)/1440) + PARALLAX < 3/10000 ∧
      27/10000 < _declination ((10521601 : ℝ)/1440) + PARALLAX := by
  have hvr1 : -(Real.pi / 2) ≤ (-11606439525762293/5000000000000000000 : ℝ) := by
    linarith only [Real.pi_gt_three]
  have hvr2 : (-11606439525762293/5000000000000000000 : ℝ) ≤ Real.pi / 2 := by
    linarith only [Real.pi_gt_three]
  have hvr3 : -(Real.pi / 2) ≤ (-10106439525762293/5000000000000000000 : ℝ) := by
    linarith only [Real.pi_gt_three]
  have hvr4 : (-10106439525762293/5000000000000000000 : ℝ) ≤ Real.pi / 2 := by
    linarith only [Real.pi_gt_three]
  have hvr5 : -(Real.pi / 2) ≤ (1893560474237707/5000000000000000000 : ℝ) := by
    linarith only [Real.pi_gt_three]
  have hvr6 : (1893560474237707/5000000000000000000 : ℝ) ≤ Real.pi / 2 := by
    linarith only [Real.pi_gt_three]
  have hdecl0 : _declination ((10521541 : ℝ)/1440) =
      Real.arcsin (Real.sin (Lunar._latitude ((10521541 : ℝ)/1440)) *
          Real.cos (Lunar._obliquity ((10521541 : ℝ)/1440)) +
        Real.cos (Lunar._latitude ((10521541 : ℝ)/1440)) *
          Real.sin (Lunar._obliquity ((10521541 : ℝ)/1440)) *
          Real.sin (Lunar._longitude ((10521541 : ℝ)/1440))) := rfl
  have hdecl1 : _declination ((10521601 : ℝ)/1440) =
      Real.arcsin (Real.sin (Lunar._latitude ((10521601 : ℝ)/1440)) *
          Real.cos (Lunar._obliquity ((10521601 : ℝ)/1440)) +
        Real.cos (Lunar._latitude ((10521601 : ℝ)/1440)) *
          Real.sin (Lunar._obliquity ((10521601 : ℝ)/1440)) *
          Real.sin (Lunar._longitude ((10521601 : ℝ)/1440))) := rfl
  have hFeq0 : Lunar._mean_distance (10521541/1440 : ℝ) = (2786549202167/5184000000 : ℝ) * Real.pi := by
    unfold Lunar._mean_distance Lunar.F0 Lunar.F1 Lunar.RAD
    ring
  have hUeqsF0 : Lunar._mean_distance (10521541/1440 : ℝ) - ((268 : ℤ) : ℝ) * (2 * Real.pi) - 3 * Real.pi / 2 = (149202167/5184000000 : ℝ) * Real.pi := by
    rw [hFeq0]
    push_cast
    ring
  have hUsF0 : (18083812953/200000000000 : ℝ) ≤ Lunar._mean_distance (10521541/1440 : ℝ) - ((268 : ℤ) : ℝ) * (2 * Real.pi) - 3 * Real.pi / 2 ∧ Lunar._mean_distance (10521541/1440 : ℝ) - ((268 : ℤ) : ℝ) * (2 * Real.pi) - 3 * Real.pi / 2 ≤ (45209532383/500000000000 : ℝ) := by
    rw [hUeqsF0]
    constructor <;> linarith only [Real.pi_gt_d20, Real.pi_lt_d20]
  obtain ⟨hpsF0L, hpsF0H⟩ := NumBounds.cos_poly_mem (995914647/1000000000 : ℝ) (497957657/500000000 : ℝ) (18083812953/200000000000 : ℝ) (45209532383/500000000000 : ℝ)
    hUsF0.1 hUsF0.2 (by norm_num) (by norm_num) (by norm_num)
    (Or.inl (by norm_num)) (by norm_num) (by norm_num) (by norm_num) (by norm_num)
  have hidsF0 : Real.sin (Lunar._mean_distance (10521541/1440 : ℝ)) = -Real.cos (Lunar._mean_distance (10521541/1440 : ℝ) - ((268 : ℤ) : ℝ) * (2 * Real.pi) - 3 * Real.pi / 2) := by
    rw [NumBounds.sin_reduce (Lunar._mean_distance (10521541/1440 : ℝ)) 268]
    rw [NumBounds.sin_shift3 (Lunar._mean_distance (10521541/1440 : ℝ) - ((268 : ℤ) : ℝ) * (2 * Real.pi))]
  have sF0L : (-497957657/500000000 : ℝ) ≤ Real.sin (Lunar._mean_distance (10521541/1440 : ℝ)) := by
    rw [hidsF0]
    linarith only [hpsF0L, hpsF0H]
  have sF0H : Real.sin (Lunar._mean_distance (10521541/1440 : ℝ)) ≤ (-995914647/1000000000 : ℝ) := by
    rw [hidsF0]
    linarith only [hpsF0L, hpsF0H]
  have hBeq0 : Lunar._latitude (10521541/1440 : ℝ) = (641/22500 : ℝ) * Real.pi * Real.sin (Lunar._mean_distance (10521541/1440 : ℝ)) := by
    unfold Lunar._latitude Lunar.L1 Lunar.RAD
    ring
  obtain ⟨hBp0L, hBp0H⟩ := NumBounds.mul_mem (-89134902669/1000000000000 : ℝ) (-89134842971/1000000000000 : ℝ)
    (by linarith only [Real.pi_gt_d20] : (100688044547552873292643/1125000000000000000000000 : ℝ) ≤ (641/22500 : ℝ) * Real.pi)
    (by linarith only [Real.pi_lt_d20] : (641/22500 : ℝ) * Real.pi ≤ (201376089095105746585927/2250000000000000000000000 : ℝ))
    sF0L sF0H
    (by norm_num) (by norm_num) (by norm_num) (by norm_num)
    (by norm_num) (by norm_num) (by norm_num) (by norm_num)
  have hB0L : (-89134902669/1000000000000 : ℝ) ≤ Lunar._latitude (10521541/1440 : ℝ) := by
    rw [hBeq0]
    exact hBp0L
  have hB0H : Lunar._latitude (10521541/1440 : ℝ) ≤ (-89134842971/1000000000000 : ℝ) := by
    rw [hBeq0]
    exact hBp0H
  obtain ⟨sB0L, sB0H⟩ := NumBounds.sin_poly_mem (-44508627/500000000 : ℝ) (-44508263/500000000 : ℝ)
    hB0L hB0H (by norm_num) (by norm_num) (by norm_num) (by norm_num)
  obtain ⟨cB0L, cB0H⟩ := NumBounds.cos_poly_mem (49801489/50000000 : ℝ) (996030453/1000000000 : ℝ) (89134842971/1000000000000 : ℝ) (89134902669/1000000000000 : ℝ)
    hB0L hB0H (by norm_num) (by norm_num) (by norm_num)
    (Or.inr (Or.inl (by norm_num))) (by norm_num) (by norm_num) (by norm_num) (by norm_num)
  have hEeq0 : Lunar._obliquity (10521541/1440 : ℝ) = (93745478459/720000000000 : ℝ) * Real.pi := by
    unfold Lunar._obliquity Lunar.E0 Lunar.E1 Lunar.RAD
    ring
  have hUsE0 : (409041814491/1000000000000 : ℝ) ≤ Lunar._obliquity (10521541/1440 : ℝ) ∧ Lunar._obliquity (10521541/1440 : ℝ) ≤ (102260453623/250000000000 : ℝ) := by
    rw [hEeq0]
    constructor <;> linarith only [Real.pi_gt_d20, Real.pi_lt_d20]
  obtain ⟨hpsE0L, hpsE0H⟩ := NumBounds.sin_poly_mem (397730039/1000000000 : ℝ) (397730707/1000000000 : ℝ)
    hUsE0.1 hUsE0.2 (by norm_num) (by norm_num) (by norm_num) (by norm_num)
  have sE0L : (397730039/1000000000 : ℝ) ≤ Real.sin (Lunar._obliquity (10521541/1440 : ℝ)) := hpsE0L
  have sE0H : Real.sin (Lunar._obliquity (10521541/1440 : ℝ)) ≤ (397730707/1000000000 : ℝ) := hpsE0H
  have hUcE0 : (409041814491/1000000000000 : ℝ) ≤ Lunar._obliquity (10521541/1440 : ℝ) ∧ Lunar._obliquity (10521541/1440 : ℝ) ≤ (102260453623/250000000000 : ℝ) := by
    rw [hEeq0]
    constructor <;> linarith only [Real.pi_gt_d20, Real.pi_lt_d20]
  obtain ⟨hpcE0L, hpcE0H⟩ := NumBounds.cos_poly_mem (91750201/100000000 : ℝ) (917502677/1000000000 : ℝ) (409041814491/1000000000000 : ℝ) (102260453623/250000000000 : ℝ)
    hUcE0.1 hUcE0.2 (by norm_num) (by norm_num) (by norm_num)
    (Or.inl (by norm_num)) (by norm_num) (by norm_num) (by norm_num) (by norm_num)
  have cE0L : (91750201/100000000 : ℝ) ≤ Real.cos (Lunar._obliquity (10521541/1440 : ℝ)) := hpcE0L
  have cE0H : Real.cos (Lunar._obliquity (10521541/1440 : ℝ)) ≤ (917502677/1000000000 : ℝ) := hpcE0H
  have hMeq0 : Lunar._mean_anomaly (10521541/1440 : ℝ) = (137658206234213/259200000000 : ℝ) * Real.pi := by
    unfold Lunar._mean_anomaly Lunar.M0 Lunar.M1 Lunar.RAD
    ring
  have hUeqsM0 : Lunar._mean_anomaly (10521541/1440 : ℝ) - ((265 : ℤ) : ℝ) * (2 * Real.pi) - Real.pi = (23006234213/259200000000 : ℝ) * Real.pi := by
    rw [hMeq0]
    push_cast
    ring
  have hUsM0 : (278843427431/1000000000000 : ℝ) ≤ Lunar._mean_anomaly (10521541/1440 : ℝ) - ((265 : ℤ) : ℝ) * (2 * Real.pi) - Real.pi ∧ Lunar._mean_anomaly (10521541/1440 : ℝ) - ((265 : ℤ) : ℝ) * (2 * Real.pi) - Real.pi ≤ (34855428429/125000000000 : ℝ) := by
    rw [hUeqsM0]
    constructor <;> linarith only [Real.pi_gt_d20, Real.pi_lt_d20]
  obtain ⟨hpsM0L, hpsM0H⟩ := NumBounds.sin_poly_mem (688109/2500000 : ℝ) (275244267/1000000000 : ℝ)
    hUsM0.1 hUsM0.2 (by norm_num) (by norm_num) (by norm_num) (by norm_num)
  have hidsM0 : Real.sin (Lunar._mean_anomaly (10521541/1440 : ℝ)) = -Real.sin (Lunar._mean_anomaly (10521541/1440 : ℝ) - ((265 : ℤ) : ℝ) * (2 * Real.pi) - Real.pi) := by
    rw [NumBounds.sin_reduce (Lunar._mean_anomaly (10521541/1440 : ℝ)) 265]
    rw [NumBounds.sin_shift2 (Lunar._mean_anomaly (10521541/1440 : ℝ) - ((265 : ℤ) : ℝ) * (2 * Real.pi))]
  have sM0L : (-275244267/1000000000 : ℝ) ≤ Real.sin (Lunar._mean_anomaly (10521541/1440 : ℝ)) := by
    rw [hidsM0]
    linarith only [hpsM0L, hpsM0H]
  have sM0H : Real.sin (Lunar._mean_anomaly (10521541/1440 : ℝ)) ≤ (-688109/2500000 : ℝ) := by
    rw [hidsM0]
    linarith only [hpsM0L, hpsM0H]
  have hLeq0 : Lunar._longitude (10521541/1440 : ℝ) = (3859732382951/7200000000 : ℝ) * Real.pi + (6289/180000 : ℝ) * Real.pi * Real.sin (Lunar._mean_anomaly (10521541/1440 : ℝ)) := by
    unfold Lunar._longitude Lunar._ecliptic_equinox_longitude Lunar.Q0 Lunar.Q1 Lunar.L0 Lunar.RAD
    ring
  obtain ⟨hdpsL0L, hdpsL0H⟩ := NumBounds.mul_mem (-6042368949/200000000000 : ℝ) (-7552942883/250000000000 : ℝ)
    (by linarith only [Real.pi_gt_d20] : (987873809921310483833747/9000000000000000000000000 : ℝ) ≤ (6289/180000 : ℝ) * Real.pi)
    (by linarith only [Real.pi_lt_d20] : (6289/180000 : ℝ) * Real.pi ≤ (1975747619842620967673783/18000000000000000000000000 : ℝ))
    sM0L sM0H
    (by norm_num) (by norm_num) (by norm_num) (by norm_num)
    (by norm_num) (by norm_num) (by norm_num) (by norm_num)
  have hUeqsL0 : Lunar._longitude (10521541/1440 : ℝ) - ((268 : ℤ) : ℝ) * (2 * Real.pi) = (532382951/7200000000 : ℝ) * Real.pi + (6289/180000 : ℝ) * Real.pi * Real.sin (Lunar._mean_anomaly (10521541/1440 : ℝ)) := by
    rw [hLeq0]
    push_cast
    ring
  have hUsL0 : (40416807933/200000000000 : ℝ) ≤ Lunar._longitude (10521541/1440 : ℝ) - ((268 : ℤ) : ℝ) * (2 * Real.pi) ∧ Lunar._longitude (10521541/1440 : ℝ) - ((268 : ℤ) : ℝ) * (2 * Real.pi) ≤ (202084112879/1000000000000 : ℝ) := by
    rw [hUeqsL0]
    constructor <;> linarith only [Real.pi_gt_d20, Real.pi_lt_d20, hdpsL0L, hdpsL0H]
  obtain ⟨hpsL0L, hpsL0H⟩ := NumBounds.sin_poly_mem (10035553/50000000 : ℝ) (200711803/1000000000 : ℝ)
    hUsL0.1 hUsL0.2 (by norm_num) (by norm_num) (by norm_num) (by norm_num)
  have hidsL0 : Real.sin (Lunar._longitude (10521541/1440 : ℝ)) = Real.sin (Lunar._longitude (10521541/1440 : ℝ) - ((268 : ℤ) : ℝ) * (2 * Real.pi)) := by
    rw [NumBounds.sin_reduce (Lunar._longitude (10521541/1440 : ℝ)) 268]
  have sL0L : (10035553/50000000 : ℝ) ≤ Real.sin (Lunar._longitude (10521541/1440 : ℝ)) := by
    rw [hidsL0]
    linarith only [hpsL0L, hpsL0H]
  have sL0H : Real.sin (Lunar._longitude (10521541/1440 : ℝ)) ≤ (200711803/1000000000 : ℝ) := by
    rw [hidsL0]
    linarith only [hpsL0L, hpsL0H]
  obtain ⟨p10L, p10H⟩ := NumBounds.mul_mem (-81673569/1000000000 : ℝ) (-81672841/1000000000 : ℝ)
    sB0L sB0H cE0L cE0H
    (by norm_num) (by norm_num) (by norm_num) (by norm_num)
    (by norm_num) (by norm_num) (by norm_num) (by norm_num)
  obtain ⟨p20L, p20H⟩ := NumBounds.mul_mem (396150963/1000000000 : ℝ) (396151897/1000000000 : ℝ)
    cB0L cB0H sE0L sE0H
    (by norm_num) (by norm_num) (by norm_num) (by norm_num)
    (by norm_num) (by norm_num) (by norm_num) (by norm_num)
  obtain ⟨p30L, p30H⟩ := NumBounds.mul_mem (79511879/1000000000 : ℝ) (39756181/500000000 : ℝ)
    p20L p20H sL0L sL0H
    (by norm_num) (by norm_num) (by norm_num) (by norm_num)
    (by norm_num) (by norm_num) (by norm_num) (by norm_num)
  have hX0L : (-216169/100000000 : ℝ) ≤ Real.sin (Lunar._latitude (10521541/1440 : ℝ)) * Real.cos (Lunar._obliquity (10521541/1440 : ℝ)) + Real.cos (Lunar._latitude (10521541/1440 : ℝ)) * Real.sin (Lunar._obliquity (10521541/1440 : ℝ)) * Real.sin (Lunar._longitude (10521541/1440 : ℝ)) := by
    linarith only [p10L, p30L]
  have hX0H : Real.sin (Lunar._latitude (10521541/1440 : ℝ)) * Real.cos (Lunar._obliquity (10521541/1440 : ℝ)) + Real.cos (Lunar._latitude (10521541/1440 : ℝ)) * Real.sin (Lunar._obliquity (10521541/1440 : ℝ)) * Real.sin (Lunar._longitude (10521541/1440 : ℝ)) ≤ (-2160479/1000000000 : ℝ) := by
    linarith only [p10H, p30H]
  have hFeq1 : Lunar._mean_distance (10521601/1440 : ℝ) = (2786565077387/5184000000 : ℝ) * Real.pi := by
    unfold Lunar._mean_distance Lunar.F0 Lunar.F1 Lunar.RAD
    ring
  have hUeqsF1 : Lunar._mean_distance (10521601/1440 : ℝ) - ((268 : ℤ) : ℝ) * (2 * Real.pi) - 3 * Real.pi / 2 = (165077387/5184000000 : ℝ) * Real.pi := by
    rw [hFeq1]
    push_cast
    ring
  have hUsF1 : (50019859787/500000000000 : ℝ) ≤ Lunar._mean_distance (10521601/1440 : ℝ) - ((268 : ℤ) : ℝ) * (2 * Real.pi) - 3 * Real.pi / 2 ∧ Lunar._mean_distance (10521601/1440 : ℝ) - ((268 : ℤ) : ℝ) * (2 * Real.pi) - 3 * Real.pi / 2 ≤ (4001588783/40000000000 : ℝ) := by
    rw [hUeqsF1]
    constructor <;> linarith only [Real.pi_gt_d20, Real.pi_lt_d20]
  obtain ⟨hpsF1L, hpsF1H⟩ := NumBounds.cos_poly_mem (198999973/200000000 : ℝ) (995000533/1000000000 : ℝ) (50019859787/500000000000 : ℝ) (4001588783/40000000000 : ℝ)
    hUsF1.1 hUsF1.2 (by norm_num) (by norm_num) (by norm_num)
    (Or.inl (by norm_num)) (by norm_num) (by norm_num) (by norm_num) (by norm_num)
  have hidsF1 : Real.sin (Lunar._mean_distance (10521601/1440 : ℝ)) = -Real.cos (Lunar._mean_distance (10521601/1440 : ℝ) - ((268 : ℤ) : ℝ) * (2 * Real.pi) - 3 * Real.pi / 2) := by
    rw [NumBounds.sin_reduce (Lunar._mean_distance (10521601/1440 : ℝ)) 268]
    rw [NumBounds.sin_shift3 (Lunar._mean_distance (10521601/1440 : ℝ) - ((268 : ℤ) : ℝ) * (2 * Real.pi))]
  have sF1L : (-995000533/1000000000 : ℝ) ≤ Real.sin (Lunar._mean_distance (10521601/1440 : ℝ)) := by
    rw [hidsF1]
    linarith only [hpsF1L, hpsF1H]
  have sF1H : Real.sin (Lunar._mean_distance (10521601/1440 : ℝ)) ≤ (-198999973/200000000 : ℝ) := by
    rw [hidsF1]
    linarith only [hpsF1L, hpsF1H]
  have hBeq1 : Lunar._latitude (10521601/1440 : ℝ) = (641/22500 : ℝ) * Real.pi * Real.sin (Lunar._mean_distance (10521601/1440 : ℝ)) := by
    unfold Lunar._latitude Lunar.L1 Lunar.RAD
    ring
  obtain ⟨hBp1L, hBp1H⟩ := NumBounds.mul_mem (-44526514663/500000000000 : ℝ) (-89052969539/1000000000000 : ℝ)
    (by linarith only [Real.pi_gt_d20] : (100688044547552873292643/1125000000000000000000000 : ℝ) ≤ (641/22500 : ℝ) * Real.pi)
    (by linarith only [Real.pi_lt_d20] : (641/22500 : ℝ) * Real.pi ≤ (201376089095105746585927/2250000000000000000000000 : ℝ))
    sF1L sF1H
    (by norm_num) (by norm_num) (by norm_num) (by norm_num)
    (by norm_num) (by norm_num) (by norm_num) (by norm_num)
  have hB1L : (-44526514663/500000000000 : ℝ) ≤ Lunar._latitude (10521601/1440 : ℝ) := by
    rw [hBeq1]
    exact hBp1L
  have hB1H : Lunar._latitude (10521601/1440 : ℝ) ≤ (-89052969539/1000000000000 : ℝ) := by
    rw [hBeq1]
    exact hBp1H
  obtain ⟨sB1L, sB1H⟩ := NumBounds.sin_poly_mem (-17787141/200000000 : ℝ) (-88934977/1000000000 : ℝ)
    hB1L hB1H (by norm_num) (by norm_num) (by norm_num) (by norm_num)
  obtain ⟨cB1L, cB1H⟩ := NumBounds.cos_poly_mem (199207413/200000000 : ℝ) (498018869/500000000 : ℝ) (89052969539/1000000000000 : ℝ) (44526514663/500000000000 : ℝ)
    hB1L hB1H (by norm_num) (by norm_num) (by norm_num)
    (Or.inr (Or.inl (by norm_num))) (by norm_num) (by norm_num) (by norm_num) (by norm_num)
  have hEeq1 : Lunar._obliquity (10521601/1440 : ℝ) = (93745478399/720000000000 : ℝ) * Real.pi := by
    unfold Lunar._obliquity Lunar.E0 Lunar.E1 Lunar.RAD
    ring
  have hUsE1 : (409041814229/1000000000000 : ℝ) ≤ Lunar._obliquity (10521601/1440 : ℝ) ∧ Lunar._obliquity (10521601/1440 : ℝ) ≤ (40904181423/100000000000 : ℝ) := by
    rw [hEeq1]
    constructor <;> linarith only [Real.pi_gt_d20, Real.pi_lt_d20]
  obtain ⟨hpsE1L, hpsE1H⟩ := NumBounds.sin_poly_mem (397730039/1000000000 : ℝ) (397730707/1000000000 : ℝ)
    hUsE1.1 hUsE1.2 (by norm_num) (by norm_num) (by norm_num) (by norm_num)
  have sE1L : (397730039/1000000000 : ℝ) ≤ Real.sin (Lunar._obliquity (10521601/1440 : ℝ)) := hpsE1L
  have sE1H : Real.sin (Lunar._obliquity (10521601/1440 : ℝ)) ≤ (397730707/1000000000 : ℝ) := hpsE1H
  have hUcE1 : (409041814229/1000000000000 : ℝ) ≤ Lunar._obliquity (10521601/1440 : ℝ) ∧ Lunar._obliquity (10521601/1440 : ℝ) ≤ (40904181423/100000000000 : ℝ) := by
    rw [hEeq1]
    constructor <;> linarith only [Real.pi_gt_d20, Real.pi_lt_d20]
  obtain ⟨hpcE1L, hpcE1H⟩ := NumBounds.cos_poly_mem (91750201/100000000 : ℝ) (917502677/1000000000 : ℝ) (409041814229/1000000000000 : ℝ) (40904181423/100000000000 : ℝ)
    hUcE1.1 hUcE1.2 (by norm_num) (by norm_num) (by norm_num)
    (Or.inl (by norm_num)) (by norm_num) (by norm_num) (by norm_num) (by norm_num)
  have cE1L : (91750201/100000000 : ℝ) ≤ Real.cos (Lunar._obliquity (10521601/1440 : ℝ)) := hpcE1L
  have cE1H : Real.cos (Lunar._obliquity (10521601/1440 : ℝ)) ≤ (917502677/1000000000 : ℝ) := hpcE1H
  have hMeq1 : Lunar._mean_anomaly (10521601/1440 : ℝ) = (137658990133793/259200000000 : ℝ) * Real.pi := by
    unfold Lunar._mean_anomaly Lunar.M0 Lunar.M1 Lunar.RAD
    ring
  have hUeqsM1 : Lunar._mean_anomaly (10521601/1440 : ℝ) - ((265 : ℤ) : ℝ) * (2 * Real.pi) - Real.pi = (23790133793/259200000000 : ℝ) * Real.pi := by
    rw [hMeq1]
    push_cast
    ring
  have hUsM1 : (36043069807/125000000000 : ℝ) ≤ Lunar._mean_anomaly (10521601/1440 : ℝ) - ((265 : ℤ) : ℝ) * (2 * Real.pi) - Real.pi ∧ Lunar._mean_anomaly (10521601/1440 : ℝ) - ((265 : ℤ) : ℝ) * (2 * Real.pi) - Real.pi ≤ (288344558457/1000000000000 : ℝ) := by
    rw [hUeqsM1]
    constructor <;> linarith only [Real.pi_gt_d20, Real.pi_lt_d20]
  obtain ⟨hpsM1L, hpsM1H⟩ := NumBounds.sin_poly_mem (284365183/1000000000 : ℝ) (284365851/1000000000 : ℝ)
    hUsM1.1 hUsM1.2 (by norm_num) (by norm_num) (by norm_num) (by norm_num)
  have hidsM1 : Real.sin (Lunar._mean_anomaly (10521601/1440 : ℝ)) = -Real.sin (Lunar._mean_anomaly (10521601/1440 : ℝ) - ((265 : ℤ) : ℝ) * (2 * Real.pi) - Real.pi) := by
    rw [NumBounds.sin_reduce (Lunar._mean_anomaly (10521601/1440 : ℝ)) 265]
    rw [NumBounds.sin_shift2 (Lunar._mean_anomaly (10521601/1440 : ℝ) - ((265 : ℤ) : ℝ) * (2 * Real.pi))]
  have sM1L : (-284365851/1000000000 : ℝ) ≤ Real.sin (Lunar._mean_anomaly (10521601/1440 : ℝ)) := by
    rw [hidsM1]
    linarith only [hpsM1L, hpsM1H]
  have sM1H : Real.sin (Lunar._mean_anomaly (10521601/1440 : ℝ)) ≤ (-284365183/1000000000 : ℝ) := by
    rw [hidsM1]
    linarith only [hpsM1L, hpsM1H]
  have hLeq1 : Lunar._longitude (10521601/1440 : ℝ) = (3859754343611/7200000000 : ℝ) * Real.pi + (6289/180000 : ℝ) * Real.pi * Real.sin (Lunar._mean_anomaly (10521601/1440 : ℝ)) := by
    unfold Lunar._longitude Lunar._ecliptic_equinox_longitude Lunar.Q0 Lunar.Q1 Lunar.L0 Lunar.RAD
    ring
  obtain ⟨hdpsL1L, hdpsL1H⟩ := NumBounds.mul_mem (-31213064071/1000000000000 : ℝ) (-7803247687/250000000000 : ℝ)
    (by linarith only [Real.pi_gt_d20] : (987873809921310483833747/9000000000000000000000000 : ℝ) ≤ (6289/180000 : ℝ) * Real.pi)
    (by linarith only [Real.pi_lt_d20] : (6289/180000 : ℝ) * Real.pi ≤ (1975747619842620967673783/18000000000000000000000000 : ℝ))
    sM1L sM1H
    (by norm_num) (by norm_num) (by norm_num) (by norm_num)
    (by norm_num) (by norm_num) (by norm_num) (by norm_num)
  have hUeqsL1 : Lunar._longitude (10521601/1440 : ℝ) - ((268 : ℤ) : ℝ) * (2 * Real.pi) = (554343611/7200000000 : ℝ) * Real.pi + (6289/180000 : ℝ) * Real.pi * Real.sin (Lunar._mean_anomaly (10521601/1440 : ℝ)) := by
    rw [hLeq1]
    push_cast
    ring
  have hUsL1 : (26333120739/125000000000 : ℝ) ≤ Lunar._longitude (10521601/1440 : ℝ) - ((268 : ℤ) : ℝ) * (2 * Real.pi) ∧ Lunar._longitude (10521601/1440 : ℝ) - ((268 : ℤ) : ℝ) * (2 * Real.pi) ≤ (52666259809/250000000000 : ℝ) := by
    rw [hUeqsL1]
    constructor <;> linarith only [Real.pi_gt_d20, Real.pi_lt_d20, hdpsL1L, hdpsL1H]
  obtain ⟨hpsL1L, hpsL1H⟩ := NumBounds.sin_poly_mem (1672879/8000000 : ℝ) (104555309/500000000 : ℝ)
    hUsL1.1 hUsL1.2 (by norm_num) (by norm_num) (by norm_num) (by norm_num)
  have hidsL1 : Real.sin (Lunar._longitude (10521601/1440 : ℝ)) = Real.sin (Lunar._longitude (10521601/1440 : ℝ) - ((268 : ℤ) : ℝ) * (2 * Real.pi)) := by
    rw [NumBounds.sin_reduce (Lunar._longitude (10521601/1440 : ℝ)) 268]
  have sL1L : (1672879/8000000 : ℝ) ≤ Real.sin (Lunar._longitude (10521601/1440 : ℝ)) := by
    rw [hidsL1]
    linarith only [hpsL1L, hpsL1H]
  have sL1H : Real.sin (Lunar._longitude (10521601/1440 : ℝ)) ≤ (104555309/500000000 : ℝ) := by
    rw [hidsL1]
    linarith only [hpsL1L, hpsL1H]
  obtain ⟨p11L, p11H⟩ := NumBounds.mul_mem (-20399687/250000000 : ℝ) (-4079901/50000000 : ℝ)
    sB1L sB1H cE1L cE1H
    (by norm_num) (by norm_num) (by norm_num) (by norm_num)
    (by norm_num) (by norm_num) (by norm_num) (by norm_num)
  obtain ⟨p21L, p21H⟩ := NumBounds.mul_mem (19807693/50000000 : ℝ) (198077397/500000000 : ℝ)
    cB1L cB1H sE1L sE1H
    (by norm_num) (by norm_num) (by norm_num) (by norm_num)
    (by norm_num) (by norm_num) (by norm_num) (by norm_num)
  obtain ⟨p31L, p31H⟩ := NumBounds.mul_mem (20709921/250000000 : ℝ) (41420087/500000000 : ℝ)
    p21L p21H sL1L sL1H
    (by norm_num) (by norm_num) (by norm_num) (by norm_num)
    (by norm_num) (by norm_num) (by norm_num) (by norm_num)
  have hX1L : (155117/125000000 : ℝ) ≤ Real.sin (Lunar._latitude (10521601/1440 : ℝ)) * Real.cos (Lunar._obliquity (10521601/1440 : ℝ)) + Real.cos (Lunar._latitude (10521601/1440 : ℝ)) * Real.sin (Lunar._obliquity (10521601/1440 : ℝ)) * Real.sin (Lunar._longitude (10521601/1440 : ℝ)) := by
    linarith only [p11L, p31L]
  have hX1H : Real.sin (Lunar._latitude (10521601/1440 : ℝ)) * Real.cos (Lunar._obliquity (10521601/1440 : ℝ)) + Real.cos (Lunar._latitude (10521601/1440 : ℝ)) * Real.sin (Lunar._obliquity (10521601/1440 : ℝ)) * Real.sin (Lunar._longitude (10521601/1440 : ℝ)) ≤ (621077/500000000 : ℝ) := by
    linarith only [p11H, p31H]
  obtain ⟨smPL, smPH⟩ := NumBounds.sin_poly_mem (-116081/50000000 : ℝ) (-290119/125000000 : ℝ)
    (le_refl ((-11606439525762293/5000000000000000000 : ℝ) : ℝ)) (le_refl ((-11606439525762293/5000000000000000000 : ℝ) : ℝ)) (by norm_num) (by norm_num) (by norm_num) (by norm_num)
  obtain ⟨sA0L, sA0H⟩ := NumBounds.sin_poly_mem (-101081/50000000 : ℝ) (-2020953/1000000000 : ℝ)
    (le_refl ((-10106439525762293/5000000000000000000 : ℝ) : ℝ)) (le_refl ((-10106439525762293/5000000000000000000 : ℝ) : ℝ)) (by norm_num) (by norm_num) (by norm_num) (by norm_num)
  obtain ⟨sA1L, sA1H⟩ := NumBounds.sin_poly_mem (189189/500000000 : ℝ) (189523/500000000 : ℝ)
    (le_refl ((1893560474237707/5000000000000000000 : ℝ) : ℝ)) (le_refl ((1893560474237707/5000000000000000000 : ℝ) : ℝ)) (by norm_num) (by norm_num) (by norm_num) (by norm_num)
  unfold PARALLAX
  refine ⟨?_, ?_, ?_⟩
  · have h := NumBounds.arcsin_gt_of (X := Real.sin (Lunar._latitude (10521541/1440 : ℝ)) * Real.cos (Lunar._obliquity (10521541/1440 : ℝ)) + Real.cos (Lunar._latitude (10521541/1440 : ℝ)) * Real.sin (Lunar._obliquity (10521541/1440 : ℝ)) * Real.sin (Lunar._longitude (10521541/1440 : ℝ)))
      (v := (-11606439525762293/5000000000000000000 : ℝ))
      hvr1 hvr2 (by linarith only [hX0H]) (by linarith only [smPH, hX0L])
    rw [hdecl0]
    linarith only [h]
  · have h := NumBounds.arcsin_lt_of (X := Real.sin (Lunar._latitude (10521541/1440 : ℝ)) * Real.cos (Lunar._obliquity (10521541/1440 : ℝ)) + Real.cos (Lunar._latitude (10521541/1440 : ℝ)) * Real.sin (Lunar._obliquity (10521541/1440 : ℝ)) * Real.sin (Lunar._longitude (10521541/1440 : ℝ)))
      (v := (-10106439525762293/5000000000000000000 : ℝ))
      hvr3 hvr4 (by linarith only [hX0L]) (by linarith only [sA0L, hX0H])
    rw [hdecl0]
    linarith only [h]
  · have h := NumBounds.arcsin_gt_of (X := Real.sin (Lunar._latitude (10521601/1440 : ℝ)) * Real.cos (Lunar._obliquity (10521601/1440 : ℝ)) + Real.cos (Lunar._latitude (10521601/1440 : ℝ)) * Real.sin (Lunar._obliquity (10521601/1440 : ℝ)) * Real.sin (Lunar._longitude (10521601/1440 : ℝ)))
      (v := (1893560474237707/5000000000000000000 : ℝ))
      hvr5 hvr6 (by linarith only [hX1H]) (by linarith only [sA1H, hX1L])
    rw [hdecl1]
    linarith only [h]

end Lunar
namespace Lunar

/-- Degenerate first sweep segment (`h1 = h0`): if the start elevation is
barely above threshold (`0 < h0`) and the one-hour sample is well above it
(`9·h0 < h2`), the fitted parabola has both roots in-segment at negative
abscissae with negative vertex value, so the classification assigns both the
rise and the set before the query instant. -/
theorem firstSegment_double_root {h0 h2 : ℝ} (hp : 0 < h0) (hq : 9 * h0 < h2) :
    seg_roots h0 h0 h2 = 2 ∧ seg_ye h0 h0 h2 < 0 ∧
      -1 < seg_x1 h0 h0 h2 ∧ seg_x1 h0 h0 h2 < 0 ∧
      -1 < seg_x2 h0 h0 h2 ∧ seg_x2 h0 h0 h2 < 0 ∧
      riseSetBody 0 h0 h0 h2 none none =
        (some ((0 : ℝ) + seg_x2 h0 h0 h2), some ((0 : ℝ) + seg_x1 h0 h0 h2)) := by
  have ha : seg_a h0 h0 h2 = (h2 - h0) / 2 := by
    unfold seg_a
    ring
  have hb : seg_b h0 h0 h2 = (h2 - h0) / 2 := by
    unfold seg_b
    ring
  have hapos : 0 < seg_a h0 h0 h2 := by
    rw [ha]
    linarith
  have hane : seg_a h0 h0 h2 ≠ 0 := ne_of_gt hapos
  have hne2 : h2 - h0 ≠ 0 := by
    intro hz
    apply hane
    rw [ha, hz]
    norm_num
  have hxe : seg_xe h0 h0 h2 = -(1 / 2) := by
    unfold seg_xe
    rw [hb, ha, show (2:ℝ) * ((h2 - h0) / 2) = h2 - h0 from by ring, div_eq_iff hne2]
    ring
  have hdval : seg_d h0 h0 h2 = seg_a h0 h0 h2 ^ 2 - 4 * seg_a h0 h0 h2 * h0 := by
    unfold seg_d
    rw [hb, ← ha]
  have ha4 : 4 * h0 < seg_a h0 h0 h2 := by
    rw [ha]
    linarith
  have hdpos : 0 < seg_d h0 h0 h2 := by
    rw [hdval]
    nlinarith
  have hdlt : seg_d h0 h0 h2 < seg_a h0 h0 h2 ^ 2 := by
    rw [hdval]
    nlinarith
  have hsq : Real.sqrt (seg_d h0 h0 h2) < seg_a h0 h0 h2 := by
    have h := Real.sqrt_lt_sqrt hdpos.le hdlt
    rwa [Real.sqrt_sq hapos.le] at h
  have habsa : |seg_a h0 h0 h2| = seg_a h0 h0 h2 := abs_of_pos hapos
  have hdx_pos : 0 < seg_dx h0 h0 h2 := by
    unfold seg_dx
    rw [habsa]
    exact div_pos (Real.sqrt_pos.mpr hdpos) (by linarith)
  have hdx_lt : seg_dx h0 h0 h2 < 1 / 2 := by
    unfold seg_dx
    rw [habsa, div_lt_iff₀ (by linarith : (0:ℝ) < seg_a h0 h0 h2 * 2)]
    linarith
  have hx1v : seg_x1 h0 h0 h2 = -(1/2) - seg_dx h0 h0 h2 := by
    unfold seg_x1
    rw [hxe]
  have hx2v : seg_x2 h0 h0 h2 = -(1/2) + seg_dx h0 h0 h2 := by
    unfold seg_x2
    rw [hxe]
  have hx1a : -1 < seg_x1 h0 h0 h2 := by rw [hx1v]; linarith
  have hx1b : seg_x1 h0 h0 h2 < 0 := by rw [hx1v]; linarith
  have hx2a : -1 < seg_x2 h0 h0 h2 := by rw [hx2v]; linarith
  have hx2b : seg_x2 h0 h0 h2 < 0 := by rw [hx2v]; linarith
  have habs1 : |seg_x1 h0 h0 h2| ≤ 1 := abs_le.mpr ⟨hx1a.le, by linarith⟩
  have habs2 : |seg_x2 h0 h0 h2| ≤ 1 := abs_le.mpr ⟨hx2a.le, by linarith⟩
  have hroots : seg_roots h0 h0 h2 = 2 := by
    unfold seg_roots
    rw [if_pos ⟨hdpos.le, hane⟩, if_pos habs1, if_pos habs2]
  have hye : seg_ye h0 h0 h2 < 0 := by
    unfold seg_ye
    rw [hxe, ha, hb]
    nlinarith
  refine ⟨hroots, hye, hx1a, hx1b, hx2a, hx2b, ?_⟩
  simp only [riseSetBody, hroots]
  norm_num
  constructor <;> exact fun h => absurd h (not_le.mpr hye)

end Lunar
namespace Lunar

/-- One unfolding of the sweep when the head segment resolves both events
with loop-exit values. -/
theorem riseSetGo_cons_break (t lat lon : ℝ) (i : ℕ) (rest : List ℕ) (h0 h1 h2 : ℝ)
    (hh1 : h1 = if i = 0 then h0 else _elevation (_hours_later t i) lat lon - -PARALLAX)
    (hh2 : h2 = _elevation (_hours_later t (i + 1)) lat lon - -PARALLAX)
    (hbrk : bothFound (riseSetBody i h0 h1 h2 none none).1
      (riseSetBody i h0 h1 h2 none none).2) :
    riseSetGo t lat lon (i :: rest) h0 none none = riseSetBody i h0 h1 h2 none none := by
  simp only [riseSetGo]
  rw [← hh1, ← hh2, if_pos hbrk]

/-- At the concrete polar query (`t0 = 10521541/1440` days, latitude π/2,
longitude 0) the sweep terminates in its first segment with both events
assigned strictly before the query instant. -/
theorem c10_loop_value :
    ∃ x2v x1v : ℝ, x2v < 0 ∧ x1v < 0 ∧
      _rise_and_set ((10521541 : ℝ)/1440) (Real.pi/2) 0 =
        (some (_hours_later ((10521541 : ℝ)/1440) x2v),
         some (_hours_later ((10521541 : ℝ)/1440) x1v)) := by
  obtain ⟨hd1, hd2, hd3⟩ := c10_decl_bounds
  have e0 : _elevation ((10521541 : ℝ)/1440) (Real.pi/2) 0 - -PARALLAX =
      _declination ((10521541 : ℝ)/1440) + PARALLAX := by
    rw [elevation_at_pole]
    ring
  have ht1 : _hours_later ((10521541 : ℝ)/1440) ((0 : ℕ) + 1) =
      (10521601 : ℝ)/1440 := by
    unfold _hours_later
    push_cast
    norm_num
  have e1 : _elevation (_hours_later ((10521541 : ℝ)/1440) ((0 : ℕ) + 1)) (Real.pi/2) 0 -
      -PARALLAX = _declination ((10521601 : ℝ)/1440) + PARALLAX := by
    rw [ht1, elevation_at_pole]
    ring
  have hseg := @firstSegment_double_root
    (_declination ((10521541 : ℝ)/1440) + PARALLAX)
    (_declination ((10521601 : ℝ)/1440) + PARALLAX) hd1 (by linarith)
  obtain ⟨hroots, hye, hx1a, hx1b, hx2a, hx2b, hbody⟩ := hseg
  refine ⟨0 + seg_x2 (_declination ((10521541 : ℝ)/1440) + PARALLAX)
      (_declination ((10521541 : ℝ)/1440) + PARALLAX)
      (_declination ((10521601 : ℝ)/1440) + PARALLAX),
    0 + seg_x1 (_declination ((10521541 : ℝ)/1440) + PARALLAX)
      (_declination ((10521541 : ℝ)/1440) + PARALLAX)
      (_declination ((10521601 : ℝ)/1440) + PARALLAX),
    by linarith, by linarith, ?_⟩
  have hstep := riseSetGo_cons_break ((10521541 : ℝ)/1440) (Real.pi/2) 0 0
    [2, 4, 6, 8, 10, 12, 14, 16, 18, 20, 22, 24]
    (_declination ((10521541 : ℝ)/1440) + PARALLAX)
    (_declination ((10521541 : ℝ)/1440) + PARALLAX)
    (_declination ((10521601 : ℝ)/1440) + PARALLAX)
    (by rw [if_pos rfl]) e1.symm
    (by
      simp only [Nat.cast_zero]
      rw [hbody]
      exact ⟨⟨_, rfl, by linarith⟩, ⟨_, rfl, by linarith⟩⟩)
  show (_rise_and_set ((10521541 : ℝ)/1440) (Real.pi/2) 0) = _
  unfold _rise_and_set
  simp only [sweepHours]
  rw [e0, hstep]
  simp only [Nat.cast_zero]
  rw [hbody]
  rfl

end Lunar

namespace Lunar

/-- Concrete out-of-window event: at millisecond timestamp 1578020460000
(2020-01-03T02:21Z) at latitude 90°, longitude 0°, the public rise query
returns a finite instant strictly before the query instant. -/
theorem c10_rise_before_query :
    ∃ v, rise 1578020460000 90 0 = some v ∧ v < 1578020460000 := by
  have hjt : julianTo 1578020460000 = (10521541 : ℝ)/1440 := by
    unfold julianTo
    norm_num
  have hlat : (90 : ℝ) * RAD = Real.pi/2 := by
    unfold RAD
    ring
  have hlon : (0 : ℝ) * RAD = 0 := by ring
  obtain ⟨x2v, x1v, hx2, hx1, hval⟩ := c10_loop_value
  unfold rise
  rw [hjt, hlat, hlon, hval]
  refine ⟨julianFrom (_hours_later ((10521541 : ℝ)/1440) x2v), rfl, ?_⟩
  unfold julianFrom _hours_later
  nlinarith [hx2]

theorem optWithin_map_hours (t : ℝ) (o : Option ℝ) (h : optWithin o (-1) 25) :
    optWithin (o.map fun x => _hours_later t x) (_hours_later t (-1)) (_hours_later t 25) := by
  cases o with
  | none => trivial
  | some v =>
    obtain ⟨h1, h2⟩ := h
    simp only [Option.map_some']
    unfold optWithin _hours_later
    constructor <;> [linarith; linarith]

end Lunar

/-- Claim C10: the rise/set sweep's segments cover hours -1 through 25
relative to the query instant (base hours 0, 2, ..., 24, each recording
roots at `i + x` with `|x| ≤ 1`), so any finite event the sweep returns lies
within `[t - 1h, t + 25h]` — and for some inputs a finite instant *outside*
the nominal 24-hour day window is indeed returned: at a concrete polar query
the rise (and set) precede the query instant. -/
theorem sweep_window_and_out_of_window_result :
    (∀ t lat lon : ℝ,
      Lunar.optWithin (Lunar._rise_and_set t lat lon).1
          (Lunar._hours_later t (-1)) (Lunar._hours_later t 25) ∧
        Lunar.optWithin (Lunar._rise_and_set t lat lon).2
          (Lunar._hours_later t (-1)) (Lunar._hours_later t 25)) ∧
      Lunar.sweepHours = [0, 2, 4, 6, 8, 10, 12, 14, 16, 18, 20, 22, 24] ∧
      (∃ ms lat lon v, Lunar.rise ms lat lon = some v ∧ v < ms) := by
  refine ⟨?_, rfl, ?_⟩
  · intro t lat lon
    have hmem : ∀ i ∈ Lunar.sweepHours, i ≤ 24 := by decide
    have hgo := Lunar.riseSetGo_range t (lat) (lon) Lunar.sweepHours hmem
      (Lunar._elevation t lat lon - -Lunar.PARALLAX) none none trivial trivial
    unfold Lunar._rise_and_set
    exact ⟨Lunar.optWithin_map_hours t _ hgo.1, Lunar.optWithin_map_hours t _ hgo.2⟩
  · obtain ⟨v, hv, hlt⟩ := Lunar.c10_rise_before_query
    exact ⟨1578020460000, 90, 0, v, hv, hlt⟩

namespace NumBounds

/-- `limit_angle` evaluated through an explicitly determined floor. -/
theorem limit_angle_int (k : ℤ) {x : ℝ} (h1 : (k : ℝ) * (2 * Real.pi) ≤ x)
    (h2 : x < ((k : ℝ) + 1) * (2 * Real.pi)) :
    Lunar.limit_angle x = x - (k : ℝ) * (2 * Real.pi) := by
  unfold Lunar.limit_angle
  have hk : ⌊x / (2 * Real.pi)⌋ = k := by
    rw [Int.floor_eq_iff]
    constructor
    · rw [le_div_iff₀ Lunar.two_pi_pos]
      linarith
    · rw [div_lt_iff₀ Lunar.two_pi_pos]
      linarith
  rw [hk]

/-- Corner-quotient interval bound for a quotient of bounded reals with a
positive denominator. -/
theorem div_mem (lo hi : ℝ) {x y xl xu yl yu : ℝ}
    (hx1 : xl ≤ x) (hx2 : x ≤ xu) (hy1 : yl ≤ y) (hy2 : y ≤ yu) (hyp : 0 < yl)
    (h1 : lo ≤ xl / yl) (h2 : lo ≤ xl / yu) (h3 : lo ≤ xu / yl) (h4 : lo ≤ xu / yu)
    (h5 : xl / yl ≤ hi) (h6 : xl / yu ≤ hi) (h7 : xu / yl ≤ hi) (h8 : xu / yu ≤ hi) :
    lo ≤ x / y ∧ x / y ≤ hi := by
  have hy0 : 0 < y := lt_of_lt_of_le hyp hy1
  have hi1 : 1 / yu ≤ 1 / y := one_div_le_one_div_of_le hy0 hy2
  have hi2 : 1 / y ≤ 1 / yl := one_div_le_one_div_of_le hyp hy1
  obtain ⟨hL, hH⟩ := mul_mem lo hi hx1 hx2 hi1 hi2
    (by rw [mul_one_div]; exact h2) (by rw [mul_one_div]; exact h1)
    (by rw [mul_one_div]; exact h4) (by rw [mul_one_div]; exact h3)
    (by rw [mul_one_div]; exact h6) (by rw [mul_one_div]; exact h5)
    (by rw [mul_one_div]; exact h8) (by rw [mul_one_div]; exact h7)
  rw [div_eq_mul_one_div]
  exact ⟨hL, hH⟩

/-- Lower-bound `arctan (y / x)` (for `x > 0`) by a comparison angle whose
tangent is certified smaller than `y / x`. -/
theorem arctan_gt_of (v : ℝ) {y x : ℝ} (hx : 0 < x)
    (hc : 0 < Real.cos v) (hv1 : -(Real.pi / 2) < v) (hv2 : v < Real.pi / 2)
    (h : Real.sin v * x < Real.cos v * y) : v < Real.arctan (y / x) := by
  have ht : Real.tan v < y / x := by
    rw [Real.tan_eq_sin_div_cos, div_lt_div_iff₀ hc hx]
    linarith
  have hm := Real.arctan_strictMono ht
  rwa [Real.arctan_tan hv1 hv2] at hm

/-- Upper-bound `arctan (y / x)` (for `x > 0`) by a comparison angle whose
tangent is certified larger than `y / x`. -/
theorem arctan_lt_of (v : ℝ) {y x : ℝ} (hx : 0 < x)
    (hc : 0 < Real.cos v) (hv1 : -(Real.pi / 2) < v) (hv2 : v < Real.pi / 2)
    (h : Real.cos v * y < Real.sin v * x) : Real.arctan (y / x) < v := by
  have ht : y / x < Real.tan v := by
    rw [Real.tan_eq_sin_div_cos, div_lt_div_iff₀ hx hc]
    linarith
  have hm := Real.arctan_strictMono ht
  rwa [Real.arctan_tan hv1 hv2] at hm

/-- Rational lower bound for the projection factor `12 / π / 24 = 1 / (2π)`
used by `_transit_direct`. -/
theorem proj_lo : (15915494309189533/100000000000000000 : ℝ) ≤ 12 / Real.pi / 24 := by
  rw [div_div, le_div_iff₀ (by positivity)]
  nlinarith [Real.pi_lt_d20]

/-- Rational upper bound for the projection factor `12 / π / 24 = 1 / (2π)`. -/
theorem proj_hi : 12 / Real.pi / 24 ≤ (15915494309189534/100000000000000000 : ℝ) := by
  rw [div_div, div_le_iff₀ (by positivity)]
  nlinarith [Real.pi_gt_d20]

end NumBounds


/-- Both transit searches analysed: if the refined hour angle of the
backward search (from `t+24h`) is negative, that search lands after
`t+24h` and is rejected; if the refined hour angle of the forward fallback
(from `t`) lies below `-2π`, the fallback is accepted — with a result more
than a full day after the query instant.  So `_transit` returns a finite
instant strictly beyond its nominal window. -/
theorem transit_fallback_beyond_window {t lon : ℝ} (lat : ℝ)
    (h1 : Lunar._hour_angle_refined (Lunar._hours_later t 24) lon < 0)
    (h2 : Lunar._hour_angle_refined t lon < -(2 * Real.pi)) :
    Lunar._transit t lat lon =
      some (Lunar._transit_direct t (Lunar._hour_angle_refined t lon)) ∧
    Lunar._hours_later t 24 <
      Lunar._transit_direct t (Lunar._hour_angle_refined t lon) := by
  have hproj : 0 < 12 / Real.pi / 24 := by positivity
  have hone : 2 * Real.pi * (12 / Real.pi / 24) = 1 := by
    field_simp
    ring
  have hout : Lunar._hours_later t 24 <
      Lunar._transit_direct t (Lunar._hour_angle_refined t lon) := by
    have hmul := mul_lt_mul_of_pos_right h2 hproj
    unfold Lunar._transit_direct Lunar._hours_later
    nlinarith [hmul, hone]
  refine ⟨?_, hout⟩
  have hkey : Lunar._transit t lat lon =
      (if Lunar._transit_direct (Lunar._hours_later t 24)
            (Lunar._hour_angle_refined (Lunar._hours_later t 24) lon) ≤
          Lunar._hours_later t 24 then
        some (Lunar._transit_direct (Lunar._hours_later t 24)
          (Lunar._hour_angle_refined (Lunar._hours_later t 24) lon))
      else if t ≤ Lunar._transit_direct t (Lunar._hour_angle_refined t lon) then
        some (Lunar._transit_direct t (Lunar._hour_angle_refined t lon))
      else none) := rfl
  have hrej : ¬ (Lunar._transit_direct (Lunar._hours_later t 24)
      (Lunar._hour_angle_refined (Lunar._hours_later t 24) lon) ≤
        Lunar._hours_later t 24) := by
    unfold Lunar._transit_direct
    push_neg
    nlinarith [mul_pos (neg_pos.mpr h1) hproj]
  have hacc : t ≤ Lunar._transit_direct t (Lunar._hour_angle_refined t lon) := by
    unfold Lunar._transit_direct
    have h2pi : (0 : ℝ) < 2 * Real.pi := by positivity
    nlinarith [mul_pos (neg_pos.mpr (h2.trans (by linarith))) hproj]
  rw [hkey, if_neg hrej, if_pos hacc]

/-- One-sided acceptance structure of `_transit` (generic form). -/
theorem transit_one_sided_gen (t lat lon : ℝ) :
    (Lunar._transit t lat lon = none ↔
      Lunar._hours_later t 24 <
          Lunar._transit_direct (Lunar._hours_later t 24)
            (Lunar._hour_angle_refined (Lunar._hours_later t 24) lon) ∧
        Lunar._transit_direct t (Lunar._hour_angle_refined t lon) < t) ∧
    (∀ r : ℝ, Lunar._transit t lat lon = some r →
      r ≤ Lunar._hours_later t 24 ∨ t ≤ r) := by
  have hkey : Lunar._transit t lat lon =
      (if Lunar._transit_direct (Lunar._hours_later t 24)
            (Lunar._hour_angle_refined (Lunar._hours_later t 24) lon) ≤
          Lunar._hours_later t 24 then
        some (Lunar._transit_direct (Lunar._hours_later t 24)
          (Lunar._hour_angle_refined (Lunar._hours_later t 24) lon))
      else if t ≤ Lunar._transit_direct t (Lunar._hour_angle_refined t lon) then
        some (Lunar._transit_direct t (Lunar._hour_angle_refined t lon))
      else none) := rfl
  constructor
  · rw [hkey]
    by_cases ha : Lunar._transit_direct (Lunar._hours_later t 24)
        (Lunar._hour_angle_refined (Lunar._hours_later t 24) lon) ≤ Lunar._hours_later t 24
    · rw [if_pos ha]
      constructor
      · intro h
        exact Option.noConfusion h
      · rintro ⟨hb, _⟩
        exact absurd ha (not_le.mpr hb)
    · rw [if_neg ha]
      by_cases hb : t ≤ Lunar._transit_direct t (Lunar._hour_angle_refined t lon)
      · rw [if_pos hb]
        constructor
        · intro h
          exact Option.noConfusion h
        · rintro ⟨_, hc⟩
          exact absurd hb (not_le.mpr hc)
      · rw [if_neg hb]
        exact ⟨fun _ => ⟨not_le.mp ha, not_le.mp hb⟩, fun _ => rfl⟩
  · intro r hr
    rw [hkey] at hr
    by_cases ha : Lunar._transit_direct (Lunar._hours_later t 24)
        (Lunar._hour_angle_refined (Lunar._hours_later t 24) lon) ≤ Lunar._hours_later t 24
    · rw [if_pos ha] at hr
      left
      have h := Option.some.inj hr
      rw [← h]
      exact ha
    · rw [if_neg ha] at hr
      by_cases hb : t ≤ Lunar._transit_direct t (Lunar._hour_angle_refined t lon)
      · rw [if_pos hb] at hr
        right
        have h := Option.some.inj hr
        rw [← h]
        exact hb
      · rw [if_neg hb] at hr
        exact Option.noConfusion hr
/-- Hour-angle enclosure for refinement step 0 of the backward (later-instant) transit search of the out-of-window example. -/
theorem c2_ha_s0 {u : ℝ} (huL : (1102209/100 : ℝ) ≤ u) (huH : u ≤ (1102209/100 : ℝ)) :
    (-147609913/1000000000 : ℝ) ≤ Lunar._hour_angle u (-6/25 : ℝ) ∧ Lunar._hour_angle u (-6/25 : ℝ) ≤ (-18450571/125000000 : ℝ) := by
  obtain ⟨hpuL, hpuH⟩ := NumBounds.mul_mem (6925383394241/200000000 : ℝ) (17313458485603/500000000 : ℝ)
    (by linarith only [Real.pi_gt_d20] : (157079632679489661923/50000000000000000000 : ℝ) ≤ Real.pi) (by linarith only [Real.pi_lt_d20] : Real.pi ≤ (314159265358979323847/100000000000000000000 : ℝ)) huL huH
    (by norm_num) (by norm_num) (by norm_num) (by norm_num)
    (by norm_num) (by norm_num) (by norm_num) (by norm_num)
  have hGeq : (280.1470 + 360.9856235 * u) * Lunar.RAD + (-6/25 : ℝ) =
      (280147/180000 : ℝ) * Real.pi + (721971247/360000000 : ℝ) * (Real.pi * u) + (-6/25 : ℝ) := by
    unfold Lunar.RAD
    ring
  have hS : Lunar.siderealLocal u (-6/25 : ℝ) =
      (280.1470 + 360.9856235 * u) * Lunar.RAD + (-6/25 : ℝ) -
        ((11053 : ℤ) : ℝ) * (2 * Real.pi) := by
    unfold Lunar.siderealLocal
    exact NumBounds.limit_angle_int 11053
      (by rw [hGeq]; push_cast; linarith only [Real.pi_gt_d20, Real.pi_lt_d20, hpuL, hpuH])
      (by rw [hGeq]; push_cast; linarith only [Real.pi_gt_d20, Real.pi_lt_d20, hpuL, hpuH])
  have hSvL : (42358023/1000000000 : ℝ) ≤ Lunar.siderealLocal u (-6/25 : ℝ) := by
    rw [hS, hGeq]
    push_cast
    linarith only [Real.pi_gt_d20, Real.pi_lt_d20, hpuL, hpuH]
  have hSvH : Lunar.siderealLocal u (-6/25 : ℝ) ≤ (42358027/1000000000 : ℝ) := by
    rw [hS, hGeq]
    push_cast
    linarith only [Real.pi_gt_d20, Real.pi_lt_d20, hpuL, hpuH]
  have hFeq : Lunar._mean_distance u = (11659/22500 : ℝ) * Real.pi + (264587/3600000 : ℝ) * (Real.pi * u) := by
    unfold Lunar._mean_distance Lunar.F0 Lunar.F1 Lunar.RAD
    ring
  have hUeqsF : Lunar._mean_distance u - ((405 : ℤ) : ℝ) * (2 * Real.pi) - Real.pi / 2 = (-18224591/22500 : ℝ) * Real.pi + (264587/3600000 : ℝ) * (Real.pi * u) := by
    rw [hFeq]
    push_cast
    ring
  have hUsF : (320413503/1000000000 : ℝ) ≤ Lunar._mean_distance u - ((405 : ℤ) : ℝ) * (2 * Real.pi) - Real.pi / 2 ∧ Lunar._mean_distance u - ((405 : ℤ) : ℝ) * (2 * Real.pi) - Real.pi / 2 ≤ (64082701/200000000 : ℝ) := by
    rw [hUeqsF]
    constructor <;> linarith only [Real.pi_gt_d20, Real.pi_lt_d20, hpuL, hpuH]
  obtain ⟨hpsFL, hpsFH⟩ := NumBounds.cos_poly_mem (29659529/31250000 : ℝ) (949105597/1000000000 : ℝ) (320413503/1000000000 : ℝ) (64082701/200000000 : ℝ)
    hUsF.1 hUsF.2 (by norm_num) (by norm_num) (by norm_num)
    (Or.inl (by norm_num)) (by norm_num) (by norm_num) (by norm_num) (by norm_num)
  have hidsF : Real.sin (Lunar._mean_distance u) = Real.cos (Lunar._mean_distance u - ((405 : ℤ) : ℝ) * (2 * Real.pi) - Real.pi / 2) := by
    rw [NumBounds.sin_reduce (Lunar._mean_distance u) 405]
    rw [NumBounds.sin_shift1 (Lunar._mean_distance u - ((405 : ℤ) : ℝ) * (2 * Real.pi))]
  have sFL : (29659529/31250000 : ℝ) ≤ Real.sin (Lunar._mean_distance u) := by
    rw [hidsF]
    linarith only [hpsFL, hpsFH]
  have sFH : Real.sin (Lunar._mean_distance u) ≤ (949105597/1000000000 : ℝ) := by
    rw [hidsF]
    linarith only [hpsFL, hpsFH]
  have hBeq : Lunar._latitude u = (641/22500 : ℝ) * Real.pi * Real.sin (Lunar._mean_distance u) := by
    unfold Lunar._latitude Lunar.L1 Lunar.RAD
    ring
  obtain ⟨hBpL, hBpH⟩ := NumBounds.mul_mem (1698907/20000000 : ℝ) (84945411/1000000000 : ℝ)
    (by linarith only [Real.pi_gt_d20] : (100688044547552873292643/1125000000000000000000000 : ℝ) ≤ (641/22500 : ℝ) * Real.pi)
    (by linarith only [Real.pi_lt_d20] : (641/22500 : ℝ) * Real.pi ≤ (201376089095105746585927/2250000000000000000000000 : ℝ))
    sFL sFH
    (by norm_num) (by norm_num) (by norm_num) (by norm_num)
    (by norm_num) (by norm_num) (by norm_num) (by norm_num)
  have hBL : (1698907/20000000 : ℝ) ≤ Lunar._latitude u := by
    rw [hBeq]
    exact hBpL
  have hBH : Lunar._latitude u ≤ (84945411/1000000000 : ℝ) := by
    rw [hBeq]
    exact hBpH
  obtain ⟨sBL, sBH⟩ := NumBounds.sin_poly_mem (5302681/62500000 : ℝ) (678749/8000000 : ℝ)
    hBL hBH (by norm_num) (by norm_num) (by norm_num) (by norm_num)
  obtain ⟨cBL, cBH⟩ := NumBounds.cos_poly_mem (498196987/500000000 : ℝ) (996394647/1000000000 : ℝ) (1698907/20000000 : ℝ) (84945411/1000000000 : ℝ)
    hBL hBH (by norm_num) (by norm_num) (by norm_num)
    (Or.inl (by norm_num)) (by norm_num) (by norm_num) (by norm_num) (by norm_num)
  obtain ⟨hTqL, hTqH⟩ := NumBounds.div_mem (85149891/1000000000 : ℝ) (85150681/1000000000 : ℝ) sBL sBH cBL cBH
    (by norm_num)
    (by norm_num) (by norm_num) (by norm_num) (by norm_num)
    (by norm_num) (by norm_num) (by norm_num) (by norm_num)
  have hTbL : (85149891/1000000000 : ℝ) ≤ Real.tan (Lunar._latitude u) := by
    rw [Real.tan_eq_sin_div_cos]
    exact hTqL
  have hTbH : Real.tan (Lunar._latitude u) ≤ (85150681/1000000000 : ℝ) := by
    rw [Real.tan_eq_sin_div_cos]
    exact hTqH
  have hEeq : Lunar._obliquity u = (7813/60000 : ℝ) * Real.pi + (-1/500000000 : ℝ) * (Real.pi * u) := by
    unfold Lunar._obliquity Lunar.E0 Lunar.E1 Lunar.RAD
    ring
  have hUsE : (409018469/1000000000 : ℝ) ≤ Lunar._obliquity u ∧ Lunar._obliquity u ≤ (40901847/100000000 : ℝ) := by
    rw [hEeq]
    constructor <;> linarith only [Real.pi_gt_d20, Real.pi_lt_d20, hpuL, hpuH]
  obtain ⟨hpsEL, hpsEH⟩ := NumBounds.sin_poly_mem (19885431/50000000 : ℝ) (49713661/125000000 : ℝ)
    hUsE.1 hUsE.2 (by norm_num) (by norm_num) (by norm_num) (by norm_num)
  have sEL : (19885431/50000000 : ℝ) ≤ Real.sin (Lunar._obliquity u) := hpsEL
  have sEH : Real.sin (Lunar._obliquity u) ≤ (49713661/125000000 : ℝ) := hpsEH
  have hUcE : (409018469/1000000000 : ℝ) ≤ Lunar._obliquity u ∧ Lunar._obliquity u ≤ (40901847/100000000 : ℝ) := by
    rw [hEeq]
    constructor <;> linarith only [Real.pi_gt_d20, Real.pi_lt_d20, hpuL, hpuH]
  obtain ⟨hpcEL, hpcEH⟩ := NumBounds.cos_poly_mem (458755647/500000000 : ℝ) (458755981/500000000 : ℝ) (409018469/1000000000 : ℝ) (40901847/100000000 : ℝ)
    hUcE.1 hUcE.2 (by norm_num) (by norm_num) (by norm_num)
    (Or.inl (by norm_num)) (by norm_num) (by norm_num) (by norm_num) (by norm_num)
  have cEL : (458755647/500000000 : ℝ) ≤ Real.cos (Lunar._obliquity u) := hpcEL
  have cEH : Real.cos (Lunar._obliquity u) ≤ (458755981/500000000 : ℝ) := hpcEH
  have hMeq : Lunar._mean_anomaly u = (134963/180000 : ℝ) * Real.pi + (13064993/180000000 : ℝ) * (Real.pi * u) := by
    unfold Lunar._mean_anomaly Lunar.M0 Lunar.M1 Lunar.RAD
    ring
  have hUeqsM : Lunar._mean_anomaly u - ((400 : ℤ) : ℝ) * (2 * Real.pi) - Real.pi = (-144045037/180000 : ℝ) * Real.pi + (13064993/180000000 : ℝ) * (Real.pi * u) := by
    rw [hMeq]
    push_cast
    ring
  have hUsM : (-90557073/125000000 : ℝ) ≤ Lunar._mean_anomaly u - ((400 : ℤ) : ℝ) * (2 * Real.pi) - Real.pi ∧ Lunar._mean_anomaly u - ((400 : ℤ) : ℝ) * (2 * Real.pi) - Real.pi ≤ (-362228291/500000000 : ℝ) := by
    rw [hUeqsM]
    constructor <;> linarith only [Real.pi_gt_d20, Real.pi_lt_d20, hpuL, hpuH]
  obtain ⟨hpsML, hpsMH⟩ := NumBounds.sin_poly_mem (-662728933/1000000000 : ℝ) (-662728263/1000000000 : ℝ)
    hUsM.1 hUsM.2 (by norm_num) (by norm_num) (by norm_num) (by norm_num)
  have hidsM : Real.sin (Lunar._mean_anomaly u) = -Real.sin (Lunar._mean_anomaly u - ((400 : ℤ) : ℝ) * (2 * Real.pi) - Real.pi) := by
    rw [NumBounds.sin_reduce (Lunar._mean_anomaly u) 400]
    rw [NumBounds.sin_shift2 (Lunar._mean_anomaly u - ((400 : ℤ) : ℝ) * (2 * Real.pi))]
  have sML : (662728263/1000000000 : ℝ) ≤ Real.sin (Lunar._mean_anomaly u) := by
    rw [hidsM]
    linarith only [hpsML, hpsMH]
  have sMH : Real.sin (Lunar._mean_anomaly u) ≤ (662728933/1000000000 : ℝ) := by
    rw [hidsM]
    linarith only [hpsML, hpsMH]
  obtain ⟨hpsL, hpsH⟩ := NumBounds.mul_mem (1041011121/500000000 : ℝ) (520506087/250000000 : ℝ)
    (by linarith only [Real.pi_gt_d20] : (157079632679489661923/50000000000000000000 : ℝ) ≤ Real.pi) (by linarith only [Real.pi_lt_d20] : Real.pi ≤ (314159265358979323847/100000000000000000000 : ℝ)) sML sMH
    (by norm_num) (by norm_num) (by norm_num) (by norm_num)
    (by norm_num) (by norm_num) (by norm_num) (by norm_num)
  have hLeq : Lunar._longitude u = (18193/15000 : ℝ) * Real.pi + (366011/5000000 : ℝ) * (Real.pi * u) +
      (6289/180000 : ℝ) * (Real.pi * Real.sin (Lunar._mean_anomaly u)) := by
    unfold Lunar._longitude Lunar._ecliptic_equinox_longitude Lunar.Q0 Lunar.Q1 Lunar.L0 Lunar.RAD
    ring
  have hUeqsLam : Lunar._longitude u - ((404 : ℤ) : ℝ) * (2 * Real.pi) = (-12101807/15000 : ℝ) * Real.pi + (366011/5000000 : ℝ) * (Real.pi * u) + (6289/180000 : ℝ) * (Real.pi * Real.sin (Lunar._mean_anomaly u)) := by
    rw [hLeq]
    push_cast
    ring
  have hUsLam : (121356981/500000000 : ℝ) ≤ Lunar._longitude u - ((404 : ℤ) : ℝ) * (2 * Real.pi) ∧ Lunar._longitude u - ((404 : ℤ) : ℝ) * (2 * Real.pi) ≤ (242714037/1000000000 : ℝ) := by
    rw [hUeqsLam]
    constructor <;> linarith only [Real.pi_gt_d20, Real.pi_lt_d20, hpuL, hpuH, hpsL, hpsH]
  obtain ⟨hpsLamL, hpsLamH⟩ := NumBounds.sin_poly_mem (120168793/500000000 : ℝ) (240338331/1000000000 : ℝ)
    hUsLam.1 hUsLam.2 (by norm_num) (by norm_num) (by norm_num) (by norm_num)
  have hidsLam : Real.sin (Lunar._longitude u) = Real.sin (Lunar._longitude u - ((404 : ℤ) : ℝ) * (2 * Real.pi)) := by
    rw [NumBounds.sin_reduce (Lunar._longitude u) 404]
  have sLamL : (120168793/500000000 : ℝ) ≤ Real.sin (Lunar._longitude u) := by
    rw [hidsLam]
    linarith only [hpsLamL, hpsLamH]
  have sLamH : Real.sin (Lunar._longitude u) ≤ (240338331/1000000000 : ℝ) := by
    rw [hidsLam]
    linarith only [hpsLamL, hpsLamH]
  have hUeqcLam : Lunar._longitude u - ((404 : ℤ) : ℝ) * (2 * Real.pi) = (-12101807/15000 : ℝ) * Real.pi + (366011/5000000 : ℝ) * (Real.pi * u) + (6289/180000 : ℝ) * (Real.pi * Real.sin (Lunar._mean_anomaly u)) := by
    rw [hLeq]
    push_cast
    ring
  have hUcLam : (121356981/500000000 : ℝ) ≤ Lunar._longitude u - ((404 : ℤ) : ℝ) * (2 * Real.pi) ∧ Lunar._longitude u - ((404 : ℤ) : ℝ) * (2 * Real.pi) ≤ (242714037/1000000000 : ℝ) := by
    rw [hUeqcLam]
    constructor <;> linarith only [Real.pi_gt_d20, Real.pi_lt_d20, hpuL, hpuH, hpsL, hpsH]
  obtain ⟨hpcLamL, hpcLamH⟩ := NumBounds.cos_poly_mem (97068893/100000000 : ℝ) (970689617/1000000000 : ℝ) (121356981/500000000 : ℝ) (242714037/1000000000 : ℝ)
    hUcLam.1 hUcLam.2 (by norm_num) (by norm_num) (by norm_num)
    (Or.inl (by norm_num)) (by norm_num) (by norm_num) (by norm_num) (by norm_num)
  have hidcLam : Real.cos (Lunar._longitude u) = Real.cos (Lunar._longitude u - ((404 : ℤ) : ℝ) * (2 * Real.pi)) := by
    rw [NumBounds.cos_reduce (Lunar._longitude u) 404]
  have cLamL : (97068893/100000000 : ℝ) ≤ Real.cos (Lunar._longitude u) := by
    rw [hidcLam]
    linarith only [hpcLamL, hpcLamH]
  have cLamH : Real.cos (Lunar._longitude u) ≤ (970689617/1000000000 : ℝ) := by
    rw [hidcLam]
    linarith only [hpcLamL, hpcLamH]
  obtain ⟨hpAL, hpAH⟩ := NumBounds.mul_mem (220512449/1000000000 : ℝ) (110256647/500000000 : ℝ)
    sLamL sLamH cEL cEH
    (by norm_num) (by norm_num) (by norm_num) (by norm_num)
    (by norm_num) (by norm_num) (by norm_num) (by norm_num)
  obtain ⟨hpBL, hpBH⟩ := NumBounds.mul_mem (6772969/200000000 : ℝ) (33865217/1000000000 : ℝ)
    hTbL hTbH sEL sEH
    (by norm_num) (by norm_num) (by norm_num) (by norm_num)
    (by norm_num) (by norm_num) (by norm_num) (by norm_num)
  have hyL : (2916363/15625000 : ℝ) ≤ Real.sin (Lunar._longitude u) * Real.cos (Lunar._obliquity u) - Real.tan (Lunar._latitude u) * Real.sin (Lunar._obliquity u) := by
    linarith only [hpAL, hpBH]
  have hyH : Real.sin (Lunar._longitude u) * Real.cos (Lunar._obliquity u) - Real.tan (Lunar._latitude u) * Real.sin (Lunar._obliquity u) ≤ (186648449/1000000000 : ℝ) := by
    linarith only [hpAH, hpBL]
  have hxpos : 0 < Real.cos (Lunar._longitude u) := by
    linarith only [cLamL]
  have hRA : Lunar._right_ascension u = Real.arctan ((Real.sin (Lunar._longitude u) * Real.cos (Lunar._obliquity u) - Real.tan (Lunar._latitude u) * Real.sin (Lunar._obliquity u)) / Real.cos (Lunar._longitude u)) := by
    unfold Lunar._right_ascension Lunar._right_ascension_direct Lunar.atan2
    rw [if_pos hxpos]
  obtain ⟨salL, salH⟩ := NumBounds.sin_poly_mem (188821829/1000000000 : ℝ) (188822497/1000000000 : ℝ)
    (le_refl (37992519/200000000 : ℝ)) (le_refl (37992519/200000000 : ℝ)) (by norm_num) (by norm_num) (by norm_num) (by norm_num)
  obtain ⟨calL, calH⟩ := NumBounds.cos_poly_mem (196402193/200000000 : ℝ) (982011633/1000000000 : ℝ) (37992519/200000000 : ℝ) (37992519/200000000 : ℝ)
    (le_refl (37992519/200000000 : ℝ)) (le_refl (37992519/200000000 : ℝ)) (by norm_num) (by norm_num) (by norm_num)
    (Or.inl (by norm_num)) (by norm_num) (by norm_num) (by norm_num) (by norm_num)
  obtain ⟨sauL, sauH⟩ := NumBounds.sin_poly_mem (94413537/500000000 : ℝ) (94413871/500000000 : ℝ)
    (le_refl (2968249/15625000 : ℝ)) (le_refl (2968249/15625000 : ℝ)) (by norm_num) (by norm_num) (by norm_num) (by norm_num)
  obtain ⟨cauL, cauH⟩ := NumBounds.cos_poly_mem (245502489/250000000 : ℝ) (3835979/3906250 : ℝ) (2968249/15625000 : ℝ) (2968249/15625000 : ℝ)
    (le_refl (2968249/15625000 : ℝ)) (le_refl (2968249/15625000 : ℝ)) (by norm_num) (by norm_num) (by norm_num)
    (Or.inl (by norm_num)) (by norm_num) (by norm_num) (by norm_num) (by norm_num)
  obtain ⟨hm1L, hm1H⟩ := NumBounds.mul_mem (183287259/1000000000 : ℝ) (91644019/500000000 : ℝ)
    salL salH cLamL cLamH
    (by norm_num) (by norm_num) (by norm_num) (by norm_num)
    (by norm_num) (by norm_num) (by norm_num) (by norm_num)
  obtain ⟨hm2L, hm2H⟩ := NumBounds.mul_mem (45822407/250000000 : ℝ) (183290949/1000000000 : ℝ)
    calL calH hyL hyH
    (by norm_num) (by norm_num) (by norm_num) (by norm_num)
    (by norm_num) (by norm_num) (by norm_num) (by norm_num)
  have hraL : (37992519/200000000 : ℝ) < Lunar._right_ascension u := by
    rw [hRA]
    exact NumBounds.arctan_gt_of (37992519/200000000 : ℝ) hxpos (by linarith only [calL])
      (by linarith only [Real.pi_gt_three]) (by linarith only [Real.pi_gt_three])
      (by linarith only [hm1H, hm2L])
  obtain ⟨hm3L, hm3H⟩ := NumBounds.mul_mem (1145559/6250000 : ℝ) (4582269/25000000 : ℝ)
    cauL cauH hyL hyH
    (by norm_num) (by norm_num) (by norm_num) (by norm_num)
    (by norm_num) (by norm_num) (by norm_num) (by norm_num)
  obtain ⟨hm4L, hm4H⟩ := NumBounds.mul_mem (3665847/20000000 : ℝ) (183293129/1000000000 : ℝ)
    sauL sauH cLamL cLamH
    (by norm_num) (by norm_num) (by norm_num) (by norm_num)
    (by norm_num) (by norm_num) (by norm_num) (by norm_num)
  have hraH : Lunar._right_ascension u < (2968249/15625000 : ℝ) := by
    rw [hRA]
    exact NumBounds.arctan_lt_of (2968249/15625000 : ℝ) hxpos (by linarith only [cauL])
      (by linarith only [Real.pi_gt_three]) (by linarith only [Real.pi_gt_three])
      (by linarith only [hm3H, hm4L])
  have hlr : Lunar.limit_angle (Lunar._right_ascension u) =
      Lunar._right_ascension u - ((0 : ℤ) : ℝ) * (2 * Real.pi) :=
    NumBounds.limit_angle_int 0
      (by push_cast; linarith only [hraL, Real.pi_gt_d20, Real.pi_lt_d20])
      (by push_cast; linarith only [hraH, Real.pi_gt_d20, Real.pi_lt_d20])
  have hsv0 : 0 ≤ Lunar.siderealLocal u (-6/25 : ℝ) := by
    linarith only [hSvL]
  have hsv1 : Lunar.siderealLocal u (-6/25 : ℝ) < 2 * Real.pi := by
    linarith only [hSvH, Real.pi_gt_d20]
  have hHAeq : Lunar._hour_angle u (-6/25 : ℝ) =
      Lunar.siderealLocal u (-6/25 : ℝ) -
        (Lunar._right_ascension u - ((0 : ℤ) : ℝ) * (2 * Real.pi)) := by
    unfold Lunar._hour_angle Lunar._hour_angle_direct
    rw [Lunar.limit_angle_eq_self hsv0 hsv1, hlr]
  constructor
  · rw [hHAeq]
    push_cast
    linarith only [hSvL, hraH, Real.pi_gt_d20, Real.pi_lt_d20]
  · rw [hHAeq]
    push_cast
    linarith only [hSvH, hraL, Real.pi_gt_d20, Real.pi_lt_d20]

/-- Hour-angle enclosure for refinement step 1 of the backward (later-instant) transit search of the out-of-window example. -/
theorem c2_ha_s1 {u : ℝ} (huL : (2755528372999/250000000 : ℝ) ≤ u) (huH : u ≤ (688882093303/62500000 : ℝ)) :
    (-1070319/250000000 : ℝ) ≤ Lunar._hour_angle u (-6/25 : ℝ) ∧ Lunar._hour_angle u (-6/25 : ℝ) ≤ (-4270333/1000000000 : ℝ) := by
  obtain ⟨hpuL, hpuH⟩ := NumBounds.mul_mem (34626990773487/1000000000 : ℝ) (6925398155233/200000000 : ℝ)
    (by linarith only [Real.pi_gt_d20] : (157079632679489661923/50000000000000000000 : ℝ) ≤ Real.pi) (by linarith only [Real.pi_lt_d20] : Real.pi ≤ (314159265358979323847/100000000000000000000 : ℝ)) huL huH
    (by norm_num) (by norm_num) (by norm_num) (by norm_num)
    (by norm_num) (by norm_num) (by norm_num) (by norm_num)
  have hGeq : (280.1470 + 360.9856235 * u) * Lunar.RAD + (-6/25 : ℝ) =
      (280147/180000 : ℝ) * Real.pi + (721971247/360000000 : ℝ) * (Real.pi * u) + (-6/25 : ℝ) := by
    unfold Lunar.RAD
    ring
  have hS : Lunar.siderealLocal u (-6/25 : ℝ) =
      (280.1470 + 360.9856235 * u) * Lunar.RAD + (-6/25 : ℝ) -
        ((11053 : ℤ) : ℝ) * (2 * Real.pi) := by
    unfold Lunar.siderealLocal
    exact NumBounds.limit_angle_int 11053
      (by rw [hGeq]; push_cast; linarith only [Real.pi_gt_d20, Real.pi_lt_d20, hpuL, hpuH])
      (by rw [hGeq]; push_cast; linarith only [Real.pi_gt_d20, Real.pi_lt_d20, hpuL, hpuH])
  have hSvL : (38073341/200000000 : ℝ) ≤ Lunar.siderealLocal u (-6/25 : ℝ) := by
    rw [hS, hGeq]
    push_cast
    linarith only [Real.pi_gt_d20, Real.pi_lt_d20, hpuL, hpuH]
  have hSvH : Lunar.siderealLocal u (-6/25 : ℝ) ≤ (95186039/500000000 : ℝ) := by
    rw [hS, hGeq]
    push_cast
    linarith only [Real.pi_gt_d20, Real.pi_lt_d20, hpuL, hpuH]
  have hFeq : Lunar._mean_distance u = (11659/22500 : ℝ) * Real.pi + (264587/3600000 : ℝ) * (Real.pi * u) := by
    unfold Lunar._mean_distance Lunar.F0 Lunar.F1 Lunar.RAD
    ring
  have hUeqsF : Lunar._mean_distance u - ((405 : ℤ) : ℝ) * (2 * Real.pi) - Real.pi / 2 = (-18224591/22500 : ℝ) * Real.pi + (264587/3600000 : ℝ) * (Real.pi * u) := by
    rw [hFeq]
    push_cast
    ring
  have hUsF : (65167541/200000000 : ℝ) ≤ Lunar._mean_distance u - ((405 : ℤ) : ℝ) * (2 * Real.pi) - Real.pi / 2 ∧ Lunar._mean_distance u - ((405 : ℤ) : ℝ) * (2 * Real.pi) - Real.pi / 2 ≤ (325837903/1000000000 : ℝ) := by
    rw [hUeqsF]
    constructor <;> linarith only [Real.pi_gt_d20, Real.pi_lt_d20, hpuL, hpuH]
  obtain ⟨hpsFL, hpsFH⟩ := NumBounds.cos_poly_mem (947382509/1000000000 : ℝ) (473691621/500000000 : ℝ) (65167541/200000000 : ℝ) (325837903/1000000000 : ℝ)
    hUsF.1 hUsF.2 (by norm_num) (by norm_num) (by norm_num)
    (Or.inl (by norm_num)) (by norm_num) (by norm_num) (by norm_num) (by norm_num)
  have hidsF : Real.sin (Lunar._mean_distance u) = Real.cos (Lunar._mean_distance u - ((405 : ℤ) : ℝ) * (2 * Real.pi) - Real.pi / 2) := by
    rw [NumBounds.sin_reduce (Lunar._mean_distance u) 405]
    rw [NumBounds.sin_shift1 (Lunar._mean_distance u - ((405 : ℤ) : ℝ) * (2 * Real.pi))]
  have sFL : (947382509/1000000000 : ℝ) ≤ Real.sin (Lunar._mean_distance u) := by
    rw [hidsF]
    linarith only [hpsFL, hpsFH]
  have sFH : Real.sin (Lunar._mean_distance u) ≤ (473691621/500000000 : ℝ) := by
    rw [hidsF]
    linarith only [hpsFL, hpsFH]
  have hBeq : Lunar._latitude u = (641/22500 : ℝ) * Real.pi * Real.sin (Lunar._mean_distance u) := by
    unfold Lunar._latitude Lunar.L1 Lunar.RAD
    ring
  obtain ⟨hBpL, hBpH⟩ := NumBounds.mul_mem (84791193/1000000000 : ℝ) (84791259/1000000000 : ℝ)
    (by linarith only [Real.pi_gt_d20] : (100688044547552873292643/1125000000000000000000000 : ℝ) ≤ (641/22500 : ℝ) * Real.pi)
    (by linarith only [Real.pi_lt_d20] : (641/22500 : ℝ) * Real.pi ≤ (201376089095105746585927/2250000000000000000000000 : ℝ))
    sFL sFH
    (by norm_num) (by norm_num) (by norm_num) (by norm_num)
    (by norm_num) (by norm_num) (by norm_num) (by norm_num)
  have hBL : (84791193/1000000000 : ℝ) ≤ Lunar._latitude u := by
    rw [hBeq]
    exact hBpL
  have hBH : Lunar._latitude u ≤ (84791259/1000000000 : ℝ) := by
    rw [hBeq]
    exact hBpH
  obtain ⟨sBL, sBH⟩ := NumBounds.sin_poly_mem (42344647/500000000 : ℝ) (21172507/250000000 : ℝ)
    hBL hBH (by norm_num) (by norm_num) (by norm_num) (by norm_num)
  obtain ⟨cBL, cBH⟩ := NumBounds.cos_poly_mem (996407041/1000000000 : ℝ) (498203857/500000000 : ℝ) (84791193/1000000000 : ℝ) (84791259/1000000000 : ℝ)
    hBL hBH (by norm_num) (by norm_num) (by norm_num)
    (Or.inl (by norm_num)) (by norm_num) (by norm_num) (by norm_num) (by norm_num)
  obtain ⟨hTqL, hTqH⟩ := NumBounds.div_mem (42497309/500000000 : ℝ) (42497707/500000000 : ℝ) sBL sBH cBL cBH
    (by norm_num)
    (by norm_num) (by norm_num) (by norm_num) (by norm_num)
    (by norm_num) (by norm_num) (by norm_num) (by norm_num)
  have hTbL : (42497309/500000000 : ℝ) ≤ Real.tan (Lunar._latitude u) := by
    rw [Real.tan_eq_sin_div_cos]
    exact hTqL
  have hTbH : Real.tan (Lunar._latitude u) ≤ (42497707/500000000 : ℝ) := by
    rw [Real.tan_eq_sin_div_cos]
    exact hTqH
  have hEeq : Lunar._obliquity u = (7813/60000 : ℝ) * Real.pi + (-1/500000000 : ℝ) * (Real.pi * u) := by
    unfold Lunar._obliquity Lunar.E0 Lunar.E1 Lunar.RAD
    ring
  have hUsE : (409018469/1000000000 : ℝ) ≤ Lunar._obliquity u ∧ Lunar._obliquity u ≤ (40901847/100000000 : ℝ) := by
    rw [hEeq]
    constructor <;> linarith only [Real.pi_gt_d20, Real.pi_lt_d20, hpuL, hpuH]
  obtain ⟨hpsEL, hpsEH⟩ := NumBounds.sin_poly_mem (19885431/50000000 : ℝ) (49713661/125000000 : ℝ)
    hUsE.1 hUsE.2 (by norm_num) (by norm_num) (by norm_num) (by norm_num)
  have sEL : (19885431/50000000 : ℝ) ≤ Real.sin (Lunar._obliquity u) := hpsEL
  have sEH : Real.sin (Lunar._obliquity u) ≤ (49713661/125000000 : ℝ) := hpsEH
  have hUcE : (409018469/1000000000 : ℝ) ≤ Lunar._obliquity u ∧ Lunar._obliquity u ≤ (40901847/100000000 : ℝ) := by
    rw [hEeq]
    constructor <;> linarith only [Real.pi_gt_d20, Real.pi_lt_d20, hpuL, hpuH]
  obtain ⟨hpcEL, hpcEH⟩ := NumBounds.cos_poly_mem (458755647/500000000 : ℝ) (458755981/500000000 : ℝ) (409018469/1000000000 : ℝ) (40901847/100000000 : ℝ)
    hUcE.1 hUcE.2 (by norm_num) (by norm_num) (by norm_num)
    (Or.inl (by norm_num)) (by norm_num) (by norm_num) (by norm_num) (by norm_num)
  have cEL : (458755647/500000000 : ℝ) ≤ Real.cos (Lunar._obliquity u) := hpcEL
  have cEH : Real.cos (Lunar._obliquity u) ≤ (458755981/500000000 : ℝ) := hpcEH
  have hMeq : Lunar._mean_anomaly u = (134963/180000 : ℝ) * Real.pi + (13064993/180000000 : ℝ) * (Real.pi * u) := by
    unfold Lunar._mean_anomaly Lunar.M0 Lunar.M1 Lunar.RAD
    ring
  have hUeqsM : Lunar._mean_anomaly u - ((400 : ℤ) : ℝ) * (2 * Real.pi) - Real.pi = (-144045037/180000 : ℝ) * Real.pi + (13064993/180000000 : ℝ) * (Real.pi * u) := by
    rw [hMeq]
    push_cast
    ring
  have hUsM : (-719099771/1000000000 : ℝ) ≤ Lunar._mean_anomaly u - ((400 : ℤ) : ℝ) * (2 * Real.pi) - Real.pi ∧ Lunar._mean_anomaly u - ((400 : ℤ) : ℝ) * (2 * Real.pi) - Real.pi ≤ (-28763983/40000000 : ℝ) := by
    rw [hUeqsM]
    constructor <;> linarith only [Real.pi_gt_d20, Real.pi_lt_d20, hpuL, hpuH]
  obtain ⟨hpsML, hpsMH⟩ := NumBounds.sin_poly_mem (-658707993/1000000000 : ℝ) (-164676769/250000000 : ℝ)
    hUsM.1 hUsM.2 (by norm_num) (by norm_num) (by norm_num) (by norm_num)
  have hidsM : Real.sin (Lunar._mean_anomaly u) = -Real.sin (Lunar._mean_anomaly u - ((400 : ℤ) : ℝ) * (2 * Real.pi) - Real.pi) := by
    rw [NumBounds.sin_reduce (Lunar._mean_anomaly u) 400]
    rw [NumBounds.sin_shift2 (Lunar._mean_anomaly u - ((400 : ℤ) : ℝ) * (2 * Real.pi))]
  have sML : (164676769/250000000 : ℝ) ≤ Real.sin (Lunar._mean_anomaly u) := by
    rw [hidsM]
    linarith only [hpsML, hpsMH]
  have sMH : Real.sin (Lunar._mean_anomaly u) ≤ (658707993/1000000000 : ℝ) := by
    rw [hidsM]
    linarith only [hpsML, hpsMH]
  obtain ⟨hpsL, hpsH⟩ := NumBounds.mul_mem (206938931/100000000 : ℝ) (32334253/15625000 : ℝ)
    (by linarith only [Real.pi_gt_d20] : (157079632679489661923/50000000000000000000 : ℝ) ≤ Real.pi) (by linarith only [Real.pi_lt_d20] : Real.pi ≤ (314159265358979323847/100000000000000000000 : ℝ)) sML sMH
    (by norm_num) (by norm_num) (by norm_num) (by norm_num)
    (by norm_num) (by norm_num) (by norm_num) (by norm_num)
  have hLeq : Lunar._longitude u = (18193/15000 : ℝ) * Real.pi + (366011/5000000 : ℝ) * (Real.pi * u) +
      (6289/180000 : ℝ) * (Real.pi * Real.sin (Lunar._mean_anomaly u)) := by
    unfold Lunar._longitude Lunar._ecliptic_equinox_longitude Lunar.Q0 Lunar.Q1 Lunar.L0 Lunar.RAD
    ring
  have hUeqsLam : Lunar._longitude u - ((404 : ℤ) : ℝ) * (2 * Real.pi) = (-12101807/15000 : ℝ) * Real.pi + (366011/5000000 : ℝ) * (Real.pi * u) + (6289/180000 : ℝ) * (Real.pi * Real.sin (Lunar._mean_anomaly u)) := by
    rw [hLeq]
    push_cast
    ring
  have hUsLam : (24767507/100000000 : ℝ) ≤ Lunar._longitude u - ((404 : ℤ) : ℝ) * (2 * Real.pi) ∧ Lunar._longitude u - ((404 : ℤ) : ℝ) * (2 * Real.pi) ≤ (247675369/1000000000 : ℝ) := by
    rw [hUeqsLam]
    constructor <;> linarith only [Real.pi_gt_d20, Real.pi_lt_d20, hpuL, hpuH, hpsL, hpsH]
  obtain ⟨hpsLamL, hpsLamH⟩ := NumBounds.sin_poly_mem (30643787/125000000 : ℝ) (30643909/125000000 : ℝ)
    hUsLam.1 hUsLam.2 (by norm_num) (by norm_num) (by norm_num) (by norm_num)
  have hidsLam : Real.sin (Lunar._longitude u) = Real.sin (Lunar._longitude u - ((404 : ℤ) : ℝ) * (2 * Real.pi)) := by
    rw [NumBounds.sin_reduce (Lunar._longitude u) 404]
  have sLamL : (30643787/125000000 : ℝ) ≤ Real.sin (Lunar._longitude u) := by
    rw [hidsLam]
    linarith only [hpsLamL, hpsLamH]
  have sLamH : Real.sin (Lunar._longitude u) ≤ (30643909/125000000 : ℝ) := by
    rw [hidsLam]
    linarith only [hpsLamL, hpsLamH]
  have hUeqcLam : Lunar._longitude u - ((404 : ℤ) : ℝ) * (2 * Real.pi) = (-12101807/15000 : ℝ) * Real.pi + (366011/5000000 : ℝ) * (Real.pi * u) + (6289/180000 : ℝ) * (Real.pi * Real.sin (Lunar._mean_anomaly u)) := by
    rw [hLeq]
    push_cast
    ring
  have hUcLam : (24767507/100000000 : ℝ) ≤ Lunar._longitude u - ((404 : ℤ) : ℝ) * (2 * Real.pi) ∧ Lunar._longitude u - ((404 : ℤ) : ℝ) * (2 * Real.pi) ≤ (247675369/1000000000 : ℝ) := by
    rw [hUeqcLam]
    constructor <;> linarith only [Real.pi_gt_d20, Real.pi_lt_d20, hpuL, hpuH, hpsL, hpsH]
  obtain ⟨hpcLamL, hpcLamH⟩ := NumBounds.cos_poly_mem (60592787/62500000 : ℝ) (484742667/500000000 : ℝ) (24767507/100000000 : ℝ) (247675369/1000000000 : ℝ)
    hUcLam.1 hUcLam.2 (by norm_num) (by norm_num) (by norm_num)
    (Or.inl (by norm_num)) (by norm_num) (by norm_num) (by norm_num) (by norm_num)
  have hidcLam : Real.cos (Lunar._longitude u) = Real.cos (Lunar._longitude u - ((404 : ℤ) : ℝ) * (2 * Real.pi)) := by
    rw [NumBounds.cos_reduce (Lunar._longitude u) 404]
  have cLamL : (60592787/62500000 : ℝ) ≤ Real.cos (Lunar._longitude u) := by
    rw [hidcLam]
    linarith only [hpcLamL, hpcLamH]
  have cLamH : Real.cos (Lunar._longitude u) ≤ (484742667/500000000 : ℝ) := by
    rw [hidcLam]
    linarith only [hpcLamL, hpcLamH]
  obtain ⟨hpAL, hpAH⟩ := NumBounds.mul_mem (44985633/200000000 : ℝ) (8997169/40000000 : ℝ)
    sLamL sLamH cEL cEH
    (by norm_num) (by norm_num) (by norm_num) (by norm_num)
    (by norm_num) (by norm_num) (by norm_num) (by norm_num)
  obtain ⟨hpBL, hpBH⟩ := NumBounds.mul_mem (8450773/250000000 : ℝ) (16901733/500000000 : ℝ)
    hTbL hTbH sEL sEH
    (by norm_num) (by norm_num) (by norm_num) (by norm_num)
    (by norm_num) (by norm_num) (by norm_num) (by norm_num)
  have hyL : (191124699/1000000000 : ℝ) ≤ Real.sin (Lunar._longitude u) * Real.cos (Lunar._obliquity u) - Real.tan (Lunar._latitude u) * Real.sin (Lunar._obliquity u) := by
    linarith only [hpAL, hpBH]
  have hyH : Real.sin (Lunar._longitude u) * Real.cos (Lunar._obliquity u) - Real.tan (Lunar._latitude u) * Real.sin (Lunar._obliquity u) ≤ (191126133/1000000000 : ℝ) := by
    linarith only [hpAH, hpBL]
  have hxpos : 0 < Real.cos (Lunar._longitude u) := by
    linarith only [cLamL]
  have hRA : Lunar._right_ascension u = Real.arctan ((Real.sin (Lunar._longitude u) * Real.cos (Lunar._obliquity u) - Real.tan (Lunar._latitude u) * Real.sin (Lunar._obliquity u)) / Real.cos (Lunar._longitude u)) := by
    unfold Lunar._right_ascension Lunar._right_ascension_direct Lunar.atan2
    rw [if_pos hxpos]
  obtain ⟨salL, salH⟩ := NumBounds.sin_poly_mem (193415377/1000000000 : ℝ) (38683209/200000000 : ℝ)
    (le_refl (194642411/1000000000 : ℝ)) (le_refl (194642411/1000000000 : ℝ)) (by norm_num) (by norm_num) (by norm_num) (by norm_num)
  obtain ⟨calL, calH⟩ := NumBounds.cos_poly_mem (490558281/500000000 : ℝ) (981117229/1000000000 : ℝ) (194642411/1000000000 : ℝ) (194642411/1000000000 : ℝ)
    (le_refl (194642411/1000000000 : ℝ)) (le_refl (194642411/1000000000 : ℝ)) (by norm_num) (by norm_num) (by norm_num)
    (Or.inl (by norm_num)) (by norm_num) (by norm_num) (by norm_num) (by norm_num)
  obtain ⟨sauL, sauH⟩ := NumBounds.sin_poly_mem (96710421/500000000 : ℝ) (193421509/1000000000 : ℝ)
    (le_refl (194647981/1000000000 : ℝ)) (le_refl (194647981/1000000000 : ℝ)) (by norm_num) (by norm_num) (by norm_num) (by norm_num)
  obtain ⟨cauL, cauH⟩ := NumBounds.cos_poly_mem (245278871/250000000 : ℝ) (122639519/125000000 : ℝ) (194647981/1000000000 : ℝ) (194647981/1000000000 : ℝ)
    (le_refl (194647981/1000000000 : ℝ)) (le_refl (194647981/1000000000 : ℝ)) (by norm_num) (by norm_num) (by norm_num)
    (Or.inl (by norm_num)) (by norm_num) (by norm_num) (by norm_num) (by norm_num)
  obtain ⟨hm1L, hm1H⟩ := NumBounds.mul_mem (187513227/1000000000 : ℝ) (187514019/1000000000 : ℝ)
    salL salH cLamL cLamH
    (by norm_num) (by norm_num) (by norm_num) (by norm_num)
    (by norm_num) (by norm_num) (by norm_num) (by norm_num)
  obtain ⟨hm2L, hm2H⟩ := NumBounds.mul_mem (187515607/1000000000 : ℝ) (93758571/500000000 : ℝ)
    calL calH hyL hyH
    (by norm_num) (by norm_num) (by norm_num) (by norm_num)
    (by norm_num) (by norm_num) (by norm_num) (by norm_num)
  have hraL : (194642411/1000000000 : ℝ) < Lunar._right_ascension u := by
    rw [hRA]
    exact NumBounds.arctan_gt_of (194642411/1000000000 : ℝ) hxpos (by linarith only [calL])
      (by linarith only [Real.pi_gt_three]) (by linarith only [Real.pi_gt_three])
      (by linarith only [hm1H, hm2L])
  obtain ⟨hm3L, hm3H⟩ := NumBounds.mul_mem (187515401/1000000000 : ℝ) (187516937/1000000000 : ℝ)
    cauL cauH hyL hyH
    (by norm_num) (by norm_num) (by norm_num) (by norm_num)
    (by norm_num) (by norm_num) (by norm_num) (by norm_num)
  obtain ⟨hm4L, hm4H⟩ := NumBounds.mul_mem (93759263/500000000 : ℝ) (187519317/1000000000 : ℝ)
    sauL sauH cLamL cLamH
    (by norm_num) (by norm_num) (by norm_num) (by norm_num)
    (by norm_num) (by norm_num) (by norm_num) (by norm_num)
  have hraH : Lunar._right_ascension u < (194647981/1000000000 : ℝ) := by
    rw [hRA]
    exact NumBounds.arctan_lt_of (194647981/1000000000 : ℝ) hxpos (by linarith only [cauL])
      (by linarith only [Real.pi_gt_three]) (by linarith only [Real.pi_gt_three])
      (by linarith only [hm3H, hm4L])
  have hlr : Lunar.limit_angle (Lunar._right_ascension u) =
      Lunar._right_ascension u - ((0 : ℤ) : ℝ) * (2 * Real.pi) :=
    NumBounds.limit_angle_int 0
      (by push_cast; linarith only [hraL, Real.pi_gt_d20, Real.pi_lt_d20])
      (by push_cast; linarith only [hraH, Real.pi_gt_d20, Real.pi_lt_d20])
  have hsv0 : 0 ≤ Lunar.siderealLocal u (-6/25 : ℝ) := by
    linarith only [hSvL]
  have hsv1 : Lunar.siderealLocal u (-6/25 : ℝ) < 2 * Real.pi := by
    linarith only [hSvH, Real.pi_gt_d20]
  have hHAeq : Lunar._hour_angle u (-6/25 : ℝ) =
      Lunar.siderealLocal u (-6/25 : ℝ) -
        (Lunar._right_ascension u - ((0 : ℤ) : ℝ) * (2 * Real.pi)) := by
    unfold Lunar._hour_angle Lunar._hour_angle_direct
    rw [Lunar.limit_angle_eq_self hsv0 hsv1, hlr]
  constructor
  · rw [hHAeq]
    push_cast
    linarith only [hSvL, hraH, Real.pi_gt_d20, Real.pi_lt_d20]
  · rw [hHAeq]
    push_cast
    linarith only [hSvH, hraL, Real.pi_gt_d20, Real.pi_lt_d20]

/-- Hour-angle enclosure for refinement step 2 of the backward (later-instant) transit search of the out-of-window example. -/
theorem c2_ha_s2 {u : ℝ} (huL : (11022114171641/1000000000 : ℝ) ≤ u) (huH : u ≤ (5511057087117/500000000 : ℝ)) :
    (-135061/1000000000 : ℝ) ≤ Lunar._hour_angle u (-6/25 : ℝ) ∧ Lunar._hour_angle u (-6/25 : ℝ) ≤ (-22539/200000000 : ℝ) := by
  obtain ⟨hpuL, hpuH⟩ := NumBounds.mul_mem (6925398581731/200000000 : ℝ) (17313496458401/500000000 : ℝ)
    (by linarith only [Real.pi_gt_d20] : (157079632679489661923/50000000000000000000 : ℝ) ≤ Real.pi) (by linarith only [Real.pi_lt_d20] : Real.pi ≤ (314159265358979323847/100000000000000000000 : ℝ)) huL huH
    (by norm_num) (by norm_num) (by norm_num) (by norm_num)
    (by norm_num) (by norm_num) (by norm_num) (by norm_num)
  have hGeq : (280.1470 + 360.9856235 * u) * Lunar.RAD + (-6/25 : ℝ) =
      (280147/180000 : ℝ) * Real.pi + (721971247/360000000 : ℝ) * (Real.pi * u) + (-6/25 : ℝ) := by
    unfold Lunar.RAD
    ring
  have hS : Lunar.siderealLocal u (-6/25 : ℝ) =
      (280.1470 + 360.9856235 * u) * Lunar.RAD + (-6/25 : ℝ) -
        ((11053 : ℤ) : ℝ) * (2 * Real.pi) := by
    unfold Lunar.siderealLocal
    exact NumBounds.limit_angle_int 11053
      (by rw [hGeq]; push_cast; linarith only [Real.pi_gt_d20, Real.pi_lt_d20, hpuL, hpuH])
      (by rw [hGeq]; push_cast; linarith only [Real.pi_gt_d20, Real.pi_lt_d20, hpuL, hpuH])
  have hSvL : (194648733/1000000000 : ℝ) ≤ Lunar.siderealLocal u (-6/25 : ℝ) := by
    rw [hS, hGeq]
    push_cast
    linarith only [Real.pi_gt_d20, Real.pi_lt_d20, hpuL, hpuH]
  have hSvH : Lunar.siderealLocal u (-6/25 : ℝ) ≤ (194665073/1000000000 : ℝ) := by
    rw [hS, hGeq]
    push_cast
    linarith only [Real.pi_gt_d20, Real.pi_lt_d20, hpuL, hpuH]
  have hFeq : Lunar._mean_distance u = (11659/22500 : ℝ) * Real.pi + (264587/3600000 : ℝ) * (Real.pi * u) := by
    unfold Lunar._mean_distance Lunar.F0 Lunar.F1 Lunar.RAD
    ring
  have hUeqsF : Lunar._mean_distance u - ((405 : ℤ) : ℝ) * (2 * Real.pi) - Real.pi / 2 = (-18224591/22500 : ℝ) * Real.pi + (264587/3600000 : ℝ) * (Real.pi * u) := by
    rw [hFeq]
    push_cast
    ring
  have hUsF : (40749329/125000000 : ℝ) ≤ Lunar._mean_distance u - ((405 : ℤ) : ℝ) * (2 * Real.pi) - Real.pi / 2 ∧ Lunar._mean_distance u - ((405 : ℤ) : ℝ) * (2 * Real.pi) - Real.pi / 2 ≤ (325995233/1000000000 : ℝ) := by
    rw [hUeqsF]
    constructor <;> linarith only [Real.pi_gt_d20, Real.pi_lt_d20, hpuL, hpuH]
  obtain ⟨hpsFL, hpsFH⟩ := NumBounds.cos_poly_mem (947332133/1000000000 : ℝ) (947333/1000000 : ℝ) (40749329/125000000 : ℝ) (325995233/1000000000 : ℝ)
    hUsF.1 hUsF.2 (by norm_num) (by norm_num) (by norm_num)
    (Or.inl (by norm_num)) (by norm_num) (by norm_num) (by norm_num) (by norm_num)
  have hidsF : Real.sin (Lunar._mean_distance u) = Real.cos (Lunar._mean_distance u - ((405 : ℤ) : ℝ) * (2 * Real.pi) - Real.pi / 2) := by
    rw [NumBounds.sin_reduce (Lunar._mean_distance u) 405]
    rw [NumBounds.sin_shift1 (Lunar._mean_distance u - ((405 : ℤ) : ℝ) * (2 * Real.pi))]
  have sFL : (947332133/1000000000 : ℝ) ≤ Real.sin (Lunar._mean_distance u) := by
    rw [hidsF]
    linarith only [hpsFL, hpsFH]
  have sFH : Real.sin (Lunar._mean_distance u) ≤ (947333/1000000 : ℝ) := by
    rw [hidsF]
    linarith only [hpsFL, hpsFH]
  have hBeq : Lunar._latitude u = (641/22500 : ℝ) * Real.pi * Real.sin (Lunar._mean_distance u) := by
    unfold Lunar._latitude Lunar.L1 Lunar.RAD
    ring
  obtain ⟨hBpL, hBpH⟩ := NumBounds.mul_mem (21196671/250000000 : ℝ) (84786763/1000000000 : ℝ)
    (by linarith only [Real.pi_gt_d20] : (100688044547552873292643/1125000000000000000000000 : ℝ) ≤ (641/22500 : ℝ) * Real.pi)
    (by linarith only [Real.pi_lt_d20] : (641/22500 : ℝ) * Real.pi ≤ (201376089095105746585927/2250000000000000000000000 : ℝ))
    sFL sFH
    (by norm_num) (by norm_num) (by norm_num) (by norm_num)
    (by norm_num) (by norm_num) (by norm_num) (by norm_num)
  have hBL : (21196671/250000000 : ℝ) ≤ Lunar._latitude u := by
    rw [hBeq]
    exact hBpL
  have hBH : Lunar._latitude u ≤ (84786763/1000000000 : ℝ) := by
    rw [hBeq]
    exact hBpH
  obtain ⟨sBL, sBH⟩ := NumBounds.sin_poly_mem (84684801/1000000000 : ℝ) (21171387/250000000 : ℝ)
    hBL hBH (by norm_num) (by norm_num) (by norm_num) (by norm_num)
  obtain ⟨cBL, cBH⟩ := NumBounds.cos_poly_mem (996407421/1000000000 : ℝ) (31137753/31250000 : ℝ) (21196671/250000000 : ℝ) (84786763/1000000000 : ℝ)
    hBL hBH (by norm_num) (by norm_num) (by norm_num)
    (Or.inl (by norm_num)) (by norm_num) (by norm_num) (by norm_num) (by norm_num)
  obtain ⟨hTqL, hTqH⟩ := NumBounds.div_mem (84990077/1000000000 : ℝ) (16998177/200000000 : ℝ) sBL sBH cBL cBH
    (by norm_num)
    (by norm_num) (by norm_num) (by norm_num) (by norm_num)
    (by norm_num) (by norm_num) (by norm_num) (by norm_num)
  have hTbL : (84990077/1000000000 : ℝ) ≤ Real.tan (Lunar._latitude u) := by
    rw [Real.tan_eq_sin_div_cos]
    exact hTqL
  have hTbH : Real.tan (Lunar._latitude u) ≤ (16998177/200000000 : ℝ) := by
    rw [Real.tan_eq_sin_div_cos]
    exact hTqH
  have hEeq : Lunar._obliquity u = (7813/60000 : ℝ) * Real.pi + (-1/500000000 : ℝ) * (Real.pi * u) := by
    unfold Lunar._obliquity Lunar.E0 Lunar.E1 Lunar.RAD
    ring
  have hUsE : (409018469/1000000000 : ℝ) ≤ Lunar._obliquity u ∧ Lunar._obliquity u ≤ (40901847/100000000 : ℝ) := by
    rw [hEeq]
    constructor <;> linarith only [Real.pi_gt_d20, Real.pi_lt_d20, hpuL, hpuH]
  obtain ⟨hpsEL, hpsEH⟩ := NumBounds.sin_poly_mem (19885431/50000000 : ℝ) (49713661/125000000 : ℝ)
    hUsE.1 hUsE.2 (by norm_num) (by norm_num) (by norm_num) (by norm_num)
  have sEL : (19885431/50000000 : ℝ) ≤ Real.sin (Lunar._obliquity u) := hpsEL
  have sEH : Real.sin (Lunar._obliquity u) ≤ (49713661/125000000 : ℝ) := hpsEH
  have hUcE : (409018469/1000000000 : ℝ) ≤ Lunar._obliquity u ∧ Lunar._obliquity u ≤ (40901847/100000000 : ℝ) := by
    rw [hEeq]
    constructor <;> linarith only [Real.pi_gt_d20, Real.pi_lt_d20, hpuL, hpuH]
  obtain ⟨hpcEL, hpcEH⟩ := NumBounds.cos_poly_mem (458755647/500000000 : ℝ) (458755981/500000000 : ℝ) (409018469/1000000000 : ℝ) (40901847/100000000 : ℝ)
    hUcE.1 hUcE.2 (by norm_num) (by norm_num) (by norm_num)
    (Or.inl (by norm_num)) (by norm_num) (by norm_num) (by norm_num) (by norm_num)
  have cEL : (458755647/500000000 : ℝ) ≤ Real.cos (Lunar._obliquity u) := hpcEL
  have cEH : Real.cos (Lunar._obliquity u) ≤ (458755981/500000000 : ℝ) := hpcEH
  have hMeq : Lunar._mean_anomaly u = (134963/180000 : ℝ) * Real.pi + (13064993/180000000 : ℝ) * (Real.pi * u) := by
    unfold Lunar._mean_anomaly Lunar.M0 Lunar.M1 Lunar.RAD
    ring
  have hUeqsM : Lunar._mean_anomaly u - ((400 : ℤ) : ℝ) * (2 * Real.pi) - Real.pi = (-144045037/180000 : ℝ) * Real.pi + (13064993/180000000 : ℝ) * (Real.pi * u) := by
    rw [hMeq]
    push_cast
    ring
  have hUsM : (-359472397/500000000 : ℝ) ≤ Lunar._mean_anomaly u - ((400 : ℤ) : ℝ) * (2 * Real.pi) - Real.pi ∧ Lunar._mean_anomaly u - ((400 : ℤ) : ℝ) * (2 * Real.pi) - Real.pi ≤ (-3594721/5000000 : ℝ) := by
    rw [hUeqsM]
    constructor <;> linarith only [Real.pi_gt_d20, Real.pi_lt_d20, hpuL, hpuH]
  obtain ⟨hpsML, hpsMH⟩ := NumBounds.sin_poly_mem (-658591483/1000000000 : ℝ) (-658590061/1000000000 : ℝ)
    hUsM.1 hUsM.2 (by norm_num) (by norm_num) (by norm_num) (by norm_num)
  have hidsM : Real.sin (Lunar._mean_anomaly u) = -Real.sin (Lunar._mean_anomaly u - ((400 : ℤ) : ℝ) * (2 * Real.pi) - Real.pi) := by
    rw [NumBounds.sin_reduce (Lunar._mean_anomaly u) 400]
    rw [NumBounds.sin_shift2 (Lunar._mean_anomaly u - ((400 : ℤ) : ℝ) * (2 * Real.pi))]
  have sML : (658590061/1000000000 : ℝ) ≤ Real.sin (Lunar._mean_anomaly u) := by
    rw [hidsM]
    linarith only [hpsML, hpsMH]
  have sMH : Real.sin (Lunar._mean_anomaly u) ≤ (658591483/1000000000 : ℝ) := by
    rw [hidsM]
    linarith only [hpsML, hpsMH]
  obtain ⟨hpsL, hpsH⟩ := NumBounds.mul_mem (2069021697/1000000000 : ℝ) (413805233/200000000 : ℝ)
    (by linarith only [Real.pi_gt_d20] : (157079632679489661923/50000000000000000000 : ℝ) ≤ Real.pi) (by linarith only [Real.pi_lt_d20] : Real.pi ≤ (314159265358979323847/100000000000000000000 : ℝ)) sML sMH
    (by norm_num) (by norm_num) (by norm_num) (by norm_num)
    (by norm_num) (by norm_num) (by norm_num) (by norm_num)
  have hLeq : Lunar._longitude u = (18193/15000 : ℝ) * Real.pi + (366011/5000000 : ℝ) * (Real.pi * u) +
      (6289/180000 : ℝ) * (Real.pi * Real.sin (Lunar._mean_anomaly u)) := by
    unfold Lunar._longitude Lunar._ecliptic_equinox_longitude Lunar.Q0 Lunar.Q1 Lunar.L0 Lunar.RAD
    ring
  have hUeqsLam : Lunar._longitude u - ((404 : ℤ) : ℝ) * (2 * Real.pi) = (-12101807/15000 : ℝ) * Real.pi + (366011/5000000 : ℝ) * (Real.pi * u) + (6289/180000 : ℝ) * (Real.pi * Real.sin (Lunar._mean_anomaly u)) := by
    rw [hLeq]
    push_cast
    ring
  have hUsLam : (9912741/40000000 : ℝ) ≤ Lunar._longitude u - ((404 : ℤ) : ℝ) * (2 * Real.pi) ∧ Lunar._longitude u - ((404 : ℤ) : ℝ) * (2 * Real.pi) ≤ (3097741/12500000 : ℝ) := by
    rw [hUeqsLam]
    constructor <;> linarith only [Real.pi_gt_d20, Real.pi_lt_d20, hpuL, hpuH, hpsL, hpsH]
  obtain ⟨hpsLamL, hpsLamH⟩ := NumBounds.sin_poly_mem (245289357/1000000000 : ℝ) (245290803/1000000000 : ℝ)
    hUsLam.1 hUsLam.2 (by norm_num) (by norm_num) (by norm_num) (by norm_num)
  have hidsLam : Real.sin (Lunar._longitude u) = Real.sin (Lunar._longitude u - ((404 : ℤ) : ℝ) * (2 * Real.pi)) := by
    rw [NumBounds.sin_reduce (Lunar._longitude u) 404]
  have sLamL : (245289357/1000000000 : ℝ) ≤ Real.sin (Lunar._longitude u) := by
    rw [hidsLam]
    linarith only [hpsLamL, hpsLamH]
  have sLamH : Real.sin (Lunar._longitude u) ≤ (245290803/1000000000 : ℝ) := by
    rw [hidsLam]
    linarith only [hpsLamL, hpsLamH]
  have hUeqcLam : Lunar._longitude u - ((404 : ℤ) : ℝ) * (2 * Real.pi) = (-12101807/15000 : ℝ) * Real.pi + (366011/5000000 : ℝ) * (Real.pi * u) + (6289/180000 : ℝ) * (Real.pi * Real.sin (Lunar._mean_anomaly u)) := by
    rw [hLeq]
    push_cast
    ring
  have hUcLam : (9912741/40000000 : ℝ) ≤ Lunar._longitude u - ((404 : ℤ) : ℝ) * (2 * Real.pi) ∧ Lunar._longitude u - ((404 : ℤ) : ℝ) * (2 * Real.pi) ≤ (3097741/12500000 : ℝ) := by
    rw [hUeqcLam]
    constructor <;> linarith only [Real.pi_gt_d20, Real.pi_lt_d20, hpuL, hpuH, hpsL, hpsH]
  obtain ⟨hpcLamL, hpcLamH⟩ := NumBounds.cos_poly_mem (9694493/10000000 : ℝ) (969450157/1000000000 : ℝ) (9912741/40000000 : ℝ) (3097741/12500000 : ℝ)
    hUcLam.1 hUcLam.2 (by norm_num) (by norm_num) (by norm_num)
    (Or.inl (by norm_num)) (by norm_num) (by norm_num) (by norm_num) (by norm_num)
  have hidcLam : Real.cos (Lunar._longitude u) = Real.cos (Lunar._longitude u - ((404 : ℤ) : ℝ) * (2 * Real.pi)) := by
    rw [NumBounds.cos_reduce (Lunar._longitude u) 404]
  have cLamL : (9694493/10000000 : ℝ) ≤ Real.cos (Lunar._longitude u) := by
    rw [hidcLam]
    linarith only [hpcLamL, hpcLamH]
  have cLamH : Real.cos (Lunar._longitude u) ≤ (969450157/1000000000 : ℝ) := by
    rw [hidcLam]
    linarith only [hpcLamL, hpcLamH]
  obtain ⟨hpAL, hpAH⟩ := NumBounds.mul_mem (45011151/200000000 : ℝ) (112528623/500000000 : ℝ)
    sLamL sLamH cEL cEH
    (by norm_num) (by norm_num) (by norm_num) (by norm_num)
    (by norm_num) (by norm_num) (by norm_num) (by norm_num)
  obtain ⟨hpBL, hpBH⟩ := NumBounds.mul_mem (16900643/500000000 : ℝ) (6760333/200000000 : ℝ)
    hTbL hTbH sEL sEH
    (by norm_num) (by norm_num) (by norm_num) (by norm_num)
    (by norm_num) (by norm_num) (by norm_num) (by norm_num)
  have hyL : (19125409/100000000 : ℝ) ≤ Real.sin (Lunar._longitude u) * Real.cos (Lunar._obliquity u) - Real.tan (Lunar._latitude u) * Real.sin (Lunar._obliquity u) := by
    linarith only [hpAL, hpBH]
  have hyH : Real.sin (Lunar._longitude u) * Real.cos (Lunar._obliquity u) - Real.tan (Lunar._latitude u) * Real.sin (Lunar._obliquity u) ≤ (4781399/25000000 : ℝ) := by
    linarith only [hpAH, hpBL]
  have hxpos : 0 < Real.cos (Lunar._longitude u) := by
    linarith only [cLamL]
  have hRA : Lunar._right_ascension u = Real.arctan ((Real.sin (Lunar._longitude u) * Real.cos (Lunar._obliquity u) - Real.tan (Lunar._latitude u) * Real.sin (Lunar._obliquity u)) / Real.cos (Lunar._longitude u)) := by
    unfold Lunar._right_ascension Lunar._right_ascension_direct Lunar.atan2
    rw [if_pos hxpos]
  obtain ⟨salL, salH⟩ := NumBounds.sin_poly_mem (12096761/62500000 : ℝ) (48387211/250000000 : ℝ)
    (le_refl (24347221/125000000 : ℝ)) (le_refl (24347221/125000000 : ℝ)) (by norm_num) (by norm_num) (by norm_num) (by norm_num)
  obtain ⟨calL, calH⟩ := NumBounds.cos_poly_mem (981090373/1000000000 : ℝ) (6131819/6250000 : ℝ) (24347221/125000000 : ℝ) (24347221/125000000 : ℝ)
    (le_refl (24347221/125000000 : ℝ)) (le_refl (24347221/125000000 : ℝ)) (by norm_num) (by norm_num) (by norm_num)
    (Or.inl (by norm_num)) (by norm_num) (by norm_num) (by norm_num) (by norm_num)
  obtain ⟨sauL, sauH⟩ := NumBounds.sin_poly_mem (24194261/125000000 : ℝ) (48388689/250000000 : ℝ)
    (le_refl (97391897/500000000 : ℝ)) (le_refl (97391897/500000000 : ℝ)) (by norm_num) (by norm_num) (by norm_num) (by norm_num)
  obtain ⟨cauL, cauH⟩ := NumBounds.cos_poly_mem (490544603/500000000 : ℝ) (490544937/500000000 : ℝ) (97391897/500000000 : ℝ) (97391897/500000000 : ℝ)
    (le_refl (97391897/500000000 : ℝ)) (le_refl (97391897/500000000 : ℝ)) (by norm_num) (by norm_num) (by norm_num)
    (Or.inl (by norm_num)) (by norm_num) (by norm_num) (by norm_num) (by norm_num)
  obtain ⟨hm1L, hm1H⟩ := NumBounds.mul_mem (187635143/1000000000 : ℝ) (93817979/500000000 : ℝ)
    salL salH cLamL cLamH
    (by norm_num) (by norm_num) (by norm_num) (by norm_num)
    (by norm_num) (by norm_num) (by norm_num) (by norm_num)
  obtain ⟨hm2L, hm2H⟩ := NumBounds.mul_mem (93818773/500000000 : ℝ) (187639509/1000000000 : ℝ)
    calL calH hyL hyH
    (by norm_num) (by norm_num) (by norm_num) (by norm_num)
    (by norm_num) (by norm_num) (by norm_num) (by norm_num)
  have hraL : (24347221/125000000 : ℝ) < Lunar._right_ascension u := by
    rw [hRA]
    exact NumBounds.arctan_gt_of (24347221/125000000 : ℝ) hxpos (by linarith only [calL])
      (by linarith only [Real.pi_gt_three]) (by linarith only [Real.pi_gt_three])
      (by linarith only [hm1H, hm2L])
  obtain ⟨hm3L, hm3H⟩ := NumBounds.mul_mem (187637323/1000000000 : ℝ) (93819643/500000000 : ℝ)
    cauL cauH hyL hyH
    (by norm_num) (by norm_num) (by norm_num) (by norm_num)
    (by norm_num) (by norm_num) (by norm_num) (by norm_num)
  obtain ⟨hm4L, hm4H⟩ := NumBounds.mul_mem (1501127/8000000 : ℝ) (187641689/1000000000 : ℝ)
    sauL sauH cLamL cLamH
    (by norm_num) (by norm_num) (by norm_num) (by norm_num)
    (by norm_num) (by norm_num) (by norm_num) (by norm_num)
  have hraH : Lunar._right_ascension u < (97391897/500000000 : ℝ) := by
    rw [hRA]
    exact NumBounds.arctan_lt_of (97391897/500000000 : ℝ) hxpos (by linarith only [cauL])
      (by linarith only [Real.pi_gt_three]) (by linarith only [Real.pi_gt_three])
      (by linarith only [hm3H, hm4L])
  have hlr : Lunar.limit_angle (Lunar._right_ascension u) =
      Lunar._right_ascension u - ((0 : ℤ) : ℝ) * (2 * Real.pi) :=
    NumBounds.limit_angle_int 0
      (by push_cast; linarith only [hraL, Real.pi_gt_d20, Real.pi_lt_d20])
      (by push_cast; linarith only [hraH, Real.pi_gt_d20, Real.pi_lt_d20])
  have hsv0 : 0 ≤ Lunar.siderealLocal u (-6/25 : ℝ) := by
    linarith only [hSvL]
  have hsv1 : Lunar.siderealLocal u (-6/25 : ℝ) < 2 * Real.pi := by
    linarith only [hSvH, Real.pi_gt_d20]
  have hHAeq : Lunar._hour_angle u (-6/25 : ℝ) =
      Lunar.siderealLocal u (-6/25 : ℝ) -
        (Lunar._right_ascension u - ((0 : ℤ) : ℝ) * (2 * Real.pi)) := by
    unfold Lunar._hour_angle Lunar._hour_angle_direct
    rw [Lunar.limit_angle_eq_self hsv0 hsv1, hlr]
  constructor
  · rw [hHAeq]
    push_cast
    linarith only [hSvL, hraH, Real.pi_gt_d20, Real.pi_lt_d20]
  · rw [hHAeq]
    push_cast
    linarith only [hSvH, hraL, Real.pi_gt_d20, Real.pi_lt_d20]

/-- Hour-angle enclosure for refinement step 3 of the backward (later-instant) transit search of the out-of-window example. -/
theorem c2_ha_s3 {u : ℝ} (huL : (11022114189577/1000000000 : ℝ) ≤ u) (huH : u ≤ (1102211419573/100000000 : ℝ)) :
    (-26453/1000000000 : ℝ) ≤ Lunar._hour_angle u (-6/25 : ℝ) ∧ Lunar._hour_angle u (-6/25 : ℝ) ≤ (771/40000000 : ℝ) := by
  obtain ⟨hpuL, hpuH⟩ := NumBounds.mul_mem (17313496482501/500000000 : ℝ) (17313496492167/500000000 : ℝ)
    (by linarith only [Real.pi_gt_d20] : (157079632679489661923/50000000000000000000 : ℝ) ≤ Real.pi) (by linarith only [Real.pi_lt_d20] : Real.pi ≤ (314159265358979323847/100000000000000000000 : ℝ)) huL huH
    (by norm_num) (by norm_num) (by norm_num) (by norm_num)
    (by norm_num) (by norm_num) (by norm_num) (by norm_num)
  have hGeq : (280.1470 + 360.9856235 * u) * Lunar.RAD + (-6/25 : ℝ) =
      (280147/180000 : ℝ) * Real.pi + (721971247/360000000 : ℝ) * (Real.pi * u) + (-6/25 : ℝ) := by
    unfold Lunar.RAD
    ring
  have hS : Lunar.siderealLocal u (-6/25 : ℝ) =
      (280.1470 + 360.9856235 * u) * Lunar.RAD + (-6/25 : ℝ) -
        ((11053 : ℤ) : ℝ) * (2 * Real.pi) := by
    unfold Lunar.siderealLocal
    exact NumBounds.limit_angle_int 11053
      (by rw [hGeq]; push_cast; linarith only [Real.pi_gt_d20, Real.pi_lt_d20, hpuL, hpuH])
      (by rw [hGeq]; push_cast; linarith only [Real.pi_gt_d20, Real.pi_lt_d20, hpuL, hpuH])
  have hSvL : (38952347/200000000 : ℝ) ≤ Lunar.siderealLocal u (-6/25 : ℝ) := by
    rw [hS, hGeq]
    push_cast
    linarith only [Real.pi_gt_d20, Real.pi_lt_d20, hpuL, hpuH]
  have hSvH : Lunar.siderealLocal u (-6/25 : ℝ) ≤ (194800507/1000000000 : ℝ) := by
    rw [hS, hGeq]
    push_cast
    linarith only [Real.pi_gt_d20, Real.pi_lt_d20, hpuL, hpuH]
  have hFeq : Lunar._mean_distance u = (11659/22500 : ℝ) * Real.pi + (264587/3600000 : ℝ) * (Real.pi * u) := by
    unfold Lunar._mean_distance Lunar.F0 Lunar.F1 Lunar.RAD
    ring
  have hUeqsF : Lunar._mean_distance u - ((405 : ℤ) : ℝ) * (2 * Real.pi) - Real.pi / 2 = (-18224591/22500 : ℝ) * Real.pi + (264587/3600000 : ℝ) * (Real.pi * u) := by
    rw [hFeq]
    push_cast
    ring
  have hUsF : (325998773/1000000000 : ℝ) ≤ Lunar._mean_distance u - ((405 : ℤ) : ℝ) * (2 * Real.pi) - Real.pi / 2 ∧ Lunar._mean_distance u - ((405 : ℤ) : ℝ) * (2 * Real.pi) - Real.pi / 2 ≤ (81500049/250000000 : ℝ) := by
    rw [hUeqsF]
    constructor <;> linarith only [Real.pi_gt_d20, Real.pi_lt_d20, hpuL, hpuH]
  obtain ⟨hpsFL, hpsFH⟩ := NumBounds.cos_poly_mem (947330539/1000000000 : ℝ) (947331679/1000000000 : ℝ) (325998773/1000000000 : ℝ) (81500049/250000000 : ℝ)
    hUsF.1 hUsF.2 (by norm_num) (by norm_num) (by norm_num)
    (Or.inl (by norm_num)) (by norm_num) (by norm_num) (by norm_num) (by norm_num)
  have hidsF : Real.sin (Lunar._mean_distance u) = Real.cos (Lunar._mean_distance u - ((405 : ℤ) : ℝ) * (2 * Real.pi) - Real.pi / 2) := by
    rw [NumBounds.sin_reduce (Lunar._mean_distance u) 405]
    rw [NumBounds.sin_shift1 (Lunar._mean_distance u - ((405 : ℤ) : ℝ) * (2 * Real.pi))]
  have sFL : (947330539/1000000000 : ℝ) ≤ Real.sin (Lunar._mean_distance u) := by
    rw [hidsF]
    linarith only [hpsFL, hpsFH]
  have sFH : Real.sin (Lunar._mean_distance u) ≤ (947331679/1000000000 : ℝ) := by
    rw [hidsF]
    linarith only [hpsFL, hpsFH]
  have hBeq : Lunar._latitude u = (641/22500 : ℝ) * Real.pi * Real.sin (Lunar._mean_distance u) := by
    unfold Lunar._latitude Lunar.L1 Lunar.RAD
    ring
  obtain ⟨hBpL, hBpH⟩ := NumBounds.mul_mem (84786541/1000000000 : ℝ) (21196661/250000000 : ℝ)
    (by linarith only [Real.pi_gt_d20] : (100688044547552873292643/1125000000000000000000000 : ℝ) ≤ (641/22500 : ℝ) * Real.pi)
    (by linarith only [Real.pi_lt_d20] : (641/22500 : ℝ) * Real.pi ≤ (201376089095105746585927/2250000000000000000000000 : ℝ))
    sFL sFH
    (by norm_num) (by norm_num) (by norm_num) (by norm_num)
    (by norm_num) (by norm_num) (by norm_num) (by norm_num)
  have hBL : (84786541/1000000000 : ℝ) ≤ Lunar._latitude u := by
    rw [hBeq]
    exact hBpL
  have hBH : Lunar._latitude u ≤ (21196661/250000000 : ℝ) := by
    rw [hBeq]
    exact hBpH
  obtain ⟨sBL, sBH⟩ := NumBounds.sin_poly_mem (42342329/500000000 : ℝ) (84685429/1000000000 : ℝ)
    hBL hBH (by norm_num) (by norm_num) (by norm_num) (by norm_num)
  obtain ⟨cBL, cBH⟩ := NumBounds.cos_poly_mem (996407431/1000000000 : ℝ) (249102027/250000000 : ℝ) (84786541/1000000000 : ℝ) (21196661/250000000 : ℝ)
    hBL hBH (by norm_num) (by norm_num) (by norm_num)
    (Or.inl (by norm_num)) (by norm_num) (by norm_num) (by norm_num) (by norm_num)
  obtain ⟨hTqL, hTqH⟩ := NumBounds.div_mem (21247483/250000000 : ℝ) (16998153/200000000 : ℝ) sBL sBH cBL cBH
    (by norm_num)
    (by norm_num) (by norm_num) (by norm_num) (by norm_num)
    (by norm_num) (by norm_num) (by norm_num) (by norm_num)
  have hTbL : (21247483/250000000 : ℝ) ≤ Real.tan (Lunar._latitude u) := by
    rw [Real.tan_eq_sin_div_cos]
    exact hTqL
  have hTbH : Real.tan (Lunar._latitude u) ≤ (16998153/200000000 : ℝ) := by
    rw [Real.tan_eq_sin_div_cos]
    exact hTqH
  have hEeq : Lunar._obliquity u = (7813/60000 : ℝ) * Real.pi + (-1/500000000 : ℝ) * (Real.pi * u) := by
    unfold Lunar._obliquity Lunar.E0 Lunar.E1 Lunar.RAD
    ring
  have hUsE : (409018469/1000000000 : ℝ) ≤ Lunar._obliquity u ∧ Lunar._obliquity u ≤ (40901847/100000000 : ℝ) := by
    rw [hEeq]
    constructor <;> linarith only [Real.pi_gt_d20, Real.pi_lt_d20, hpuL, hpuH]
  obtain ⟨hpsEL, hpsEH⟩ := NumBounds.sin_poly_mem (19885431/50000000 : ℝ) (49713661/125000000 : ℝ)
    hUsE.1 hUsE.2 (by norm_num) (by norm_num) (by norm_num) (by norm_num)
  have sEL : (19885431/50000000 : ℝ) ≤ Real.sin (Lunar._obliquity u) := hpsEL
  have sEH : Real.sin (Lunar._obliquity u) ≤ (49713661/125000000 : ℝ) := hpsEH
  have hUcE : (409018469/1000000000 : ℝ) ≤ Lunar._obliquity u ∧ Lunar._obliquity u ≤ (40901847/100000000 : ℝ) := by
    rw [hEeq]
    constructor <;> linarith only [Real.pi_gt_d20, Real.pi_lt_d20, hpuL, hpuH]
  obtain ⟨hpcEL, hpcEH⟩ := NumBounds.cos_poly_mem (458755647/500000000 : ℝ) (458755981/500000000 : ℝ) (409018469/1000000000 : ℝ) (40901847/100000000 : ℝ)
    hUcE.1 hUcE.2 (by norm_num) (by norm_num) (by norm_num)
    (Or.inl (by norm_num)) (by norm_num) (by norm_num) (by norm_num) (by norm_num)
  have cEL : (458755647/500000000 : ℝ) ≤ Real.cos (Lunar._obliquity u) := hpcEL
  have cEH : Real.cos (Lunar._obliquity u) ≤ (458755981/500000000 : ℝ) := hpcEH
  have hMeq : Lunar._mean_anomaly u = (134963/180000 : ℝ) * Real.pi + (13064993/180000000 : ℝ) * (Real.pi * u) := by
    unfold Lunar._mean_anomaly Lunar.M0 Lunar.M1 Lunar.RAD
    ring
  have hUeqsM : Lunar._mean_anomaly u - ((400 : ℤ) : ℝ) * (2 * Real.pi) - Real.pi = (-144045037/180000 : ℝ) * Real.pi + (13064993/180000000 : ℝ) * (Real.pi * u) := by
    rw [hMeq]
    push_cast
    ring
  have hUsM : (-22466897/31250000 : ℝ) ≤ Lunar._mean_anomaly u - ((400 : ℤ) : ℝ) * (2 * Real.pi) - Real.pi ∧ Lunar._mean_anomaly u - ((400 : ℤ) : ℝ) * (2 * Real.pi) - Real.pi ≤ (-718939299/1000000000 : ℝ) := by
    rw [hUeqsM]
    constructor <;> linarith only [Real.pi_gt_d20, Real.pi_lt_d20, hpuL, hpuH]
  obtain ⟨hpsML, hpsMH⟩ := NumBounds.sin_poly_mem (-131717723/200000000 : ℝ) (-164646541/250000000 : ℝ)
    hUsM.1 hUsM.2 (by norm_num) (by norm_num) (by norm_num) (by norm_num)
  have hidsM : Real.sin (Lunar._mean_anomaly u) = -Real.sin (Lunar._mean_anomaly u - ((400 : ℤ) : ℝ) * (2 * Real.pi) - Real.pi) := by
    rw [NumBounds.sin_reduce (Lunar._mean_anomaly u) 400]
    rw [NumBounds.sin_shift2 (Lunar._mean_anomaly u - ((400 : ℤ) : ℝ) * (2 * Real.pi))]
  have sML : (164646541/250000000 : ℝ) ≤ Real.sin (Lunar._mean_anomaly u) := by
    rw [hidsM]
    linarith only [hpsML, hpsMH]
  have sMH : Real.sin (Lunar._mean_anomaly u) ≤ (131717723/200000000 : ℝ) := by
    rw [hidsM]
    linarith only [hpsML, hpsMH]
  obtain ⟨hpsL, hpsH⟩ := NumBounds.mul_mem (1034504727/500000000 : ℝ) (413803431/200000000 : ℝ)
    (by linarith only [Real.pi_gt_d20] : (157079632679489661923/50000000000000000000 : ℝ) ≤ Real.pi) (by linarith only [Real.pi_lt_d20] : Real.pi ≤ (314159265358979323847/100000000000000000000 : ℝ)) sML sMH
    (by norm_num) (by norm_num) (by norm_num) (by norm_num)
    (by norm_num) (by norm_num) (by norm_num) (by norm_num)
  have hLeq : Lunar._longitude u = (18193/15000 : ℝ) * Real.pi + (366011/5000000 : ℝ) * (Real.pi * u) +
      (6289/180000 : ℝ) * (Real.pi * Real.sin (Lunar._mean_anomaly u)) := by
    unfold Lunar._longitude Lunar._ecliptic_equinox_longitude Lunar.Q0 Lunar.Q1 Lunar.L0 Lunar.RAD
    ring
  have hUeqsLam : Lunar._longitude u - ((404 : ℤ) : ℝ) * (2 * Real.pi) = (-12101807/15000 : ℝ) * Real.pi + (366011/5000000 : ℝ) * (Real.pi * u) + (6289/180000 : ℝ) * (Real.pi * Real.sin (Lunar._mean_anomaly u)) := by
    rw [hLeq]
    push_cast
    ring
  have hUsLam : (123911111/500000000 : ℝ) ≤ Lunar._longitude u - ((404 : ℤ) : ℝ) * (2 * Real.pi) ∧ Lunar._longitude u - ((404 : ℤ) : ℝ) * (2 * Real.pi) ≤ (247823909/1000000000 : ℝ) := by
    rw [hUeqsLam]
    constructor <;> linarith only [Real.pi_gt_d20, Real.pi_lt_d20, hpuL, hpuH, hpsL, hpsH]
  obtain ⟨hpsLamL, hpsLamH⟩ := NumBounds.sin_poly_mem (15330807/62500000 : ℝ) (245295319/1000000000 : ℝ)
    hUsLam.1 hUsLam.2 (by norm_num) (by norm_num) (by norm_num) (by norm_num)
  have hidsLam : Real.sin (Lunar._longitude u) = Real.sin (Lunar._longitude u - ((404 : ℤ) : ℝ) * (2 * Real.pi)) := by
    rw [NumBounds.sin_reduce (Lunar._longitude u) 404]
  have sLamL : (15330807/62500000 : ℝ) ≤ Real.sin (Lunar._longitude u) := by
    rw [hidsLam]
    linarith only [hpsLamL, hpsLamH]
  have sLamH : Real.sin (Lunar._longitude u) ≤ (245295319/1000000000 : ℝ) := by
    rw [hidsLam]
    linarith only [hpsLamL, hpsLamH]
  have hUeqcLam : Lunar._longitude u - ((404 : ℤ) : ℝ) * (2 * Real.pi) = (-12101807/15000 : ℝ) * Real.pi + (366011/5000000 : ℝ) * (Real.pi * u) + (6289/180000 : ℝ) * (Real.pi * Real.sin (Lunar._mean_anomaly u)) := by
    rw [hLeq]
    push_cast
    ring
  have hUcLam : (123911111/500000000 : ℝ) ≤ Lunar._longitude u - ((404 : ℤ) : ℝ) * (2 * Real.pi) ∧ Lunar._longitude u - ((404 : ℤ) : ℝ) * (2 * Real.pi) ≤ (247823909/1000000000 : ℝ) := by
    rw [hUeqcLam]
    constructor <;> linarith only [Real.pi_gt_d20, Real.pi_lt_d20, hpuL, hpuH, hpsL, hpsH]
  obtain ⟨hpcLamL, hpcLamH⟩ := NumBounds.cos_poly_mem (969448163/1000000000 : ℝ) (969449253/1000000000 : ℝ) (123911111/500000000 : ℝ) (247823909/1000000000 : ℝ)
    hUcLam.1 hUcLam.2 (by norm_num) (by norm_num) (by norm_num)
    (Or.inl (by norm_num)) (by norm_num) (by norm_num) (by norm_num) (by norm_num)
  have hidcLam : Real.cos (Lunar._longitude u) = Real.cos (Lunar._longitude u - ((404 : ℤ) : ℝ) * (2 * Real.pi)) := by
    rw [NumBounds.cos_reduce (Lunar._longitude u) 404]
  have cLamL : (969448163/1000000000 : ℝ) ≤ Real.cos (Lunar._longitude u) := by
    rw [hidcLam]
    linarith only [hpcLamL, hpcLamH]
  have cLamH : Real.cos (Lunar._longitude u) ≤ (969449253/1000000000 : ℝ) := by
    rw [hidcLam]
    linarith only [hpcLamL, hpcLamH]
  obtain ⟨hpAL, hpAH⟩ := NumBounds.mul_mem (225059017/1000000000 : ℝ) (22506139/100000000 : ℝ)
    sLamL sLamH cEL cEH
    (by norm_num) (by norm_num) (by norm_num) (by norm_num)
    (by norm_num) (by norm_num) (by norm_num) (by norm_num)
  obtain ⟨hpBL, hpBH⟩ := NumBounds.mul_mem (8450307/250000000 : ℝ) (33801617/1000000000 : ℝ)
    hTbL hTbH sEL sEH
    (by norm_num) (by norm_num) (by norm_num) (by norm_num)
    (by norm_num) (by norm_num) (by norm_num) (by norm_num)
  have hyL : (956287/5000000 : ℝ) ≤ Real.sin (Lunar._longitude u) * Real.cos (Lunar._obliquity u) - Real.tan (Lunar._latitude u) * Real.sin (Lunar._obliquity u) := by
    linarith only [hpAL, hpBH]
  have hyH : Real.sin (Lunar._longitude u) * Real.cos (Lunar._obliquity u) - Real.tan (Lunar._latitude u) * Real.sin (Lunar._obliquity u) ≤ (95630081/500000000 : ℝ) := by
    linarith only [hpAH, hpBL]
  have hxpos : 0 < Real.cos (Lunar._longitude u) := by
    linarith only [cLamL]
  have hRA : Lunar._right_ascension u = Real.arctan ((Real.sin (Lunar._longitude u) * Real.cos (Lunar._obliquity u) - Real.tan (Lunar._latitude u) * Real.sin (Lunar._obliquity u)) / Real.cos (Lunar._longitude u)) := by
    unfold Lunar._right_ascension Lunar._right_ascension_direct Lunar.atan2
    rw [if_pos hxpos]
  obtain ⟨salL, salH⟩ := NumBounds.sin_poly_mem (7742063/40000000 : ℝ) (96776121/500000000 : ℝ)
    (le_refl (12173827/62500000 : ℝ)) (le_refl (12173827/62500000 : ℝ)) (by norm_num) (by norm_num) (by norm_num) (by norm_num)
  obtain ⟨calL, calH⟩ := NumBounds.cos_poly_mem (490544851/500000000 : ℝ) (98109037/100000000 : ℝ) (12173827/62500000 : ℝ) (12173827/62500000 : ℝ)
    (le_refl (12173827/62500000 : ℝ)) (le_refl (12173827/62500000 : ℝ)) (by norm_num) (by norm_num) (by norm_num)
    (Or.inl (by norm_num)) (by norm_num) (by norm_num) (by norm_num) (by norm_num)
  obtain ⟨sauL, sauH⟩ := NumBounds.sin_poly_mem (193558399/1000000000 : ℝ) (193559067/1000000000 : ℝ)
    (le_refl (48697047/250000000 : ℝ)) (le_refl (48697047/250000000 : ℝ)) (by norm_num) (by norm_num) (by norm_num) (by norm_num)
  obtain ⟨cauL, cauH⟩ := NumBounds.cos_poly_mem (245272089/250000000 : ℝ) (981089023/1000000000 : ℝ) (48697047/250000000 : ℝ) (48697047/250000000 : ℝ)
    (le_refl (48697047/250000000 : ℝ)) (le_refl (48697047/250000000 : ℝ)) (by norm_num) (by norm_num) (by norm_num)
    (Or.inl (by norm_num)) (by norm_num) (by norm_num) (by norm_num) (by norm_num)
  obtain ⟨hm1L, hm1H⟩ := NumBounds.mul_mem (93819109/500000000 : ℝ) (187639077/1000000000 : ℝ)
    salL salH cLamL cLamH
    (by norm_num) (by norm_num) (by norm_num) (by norm_num)
    (by norm_num) (by norm_num) (by norm_num) (by norm_num)
  obtain ⟨hm2L, hm2H⟩ := NumBounds.mul_mem (37528133/200000000 : ℝ) (11727719/62500000 : ℝ)
    calL calH hyL hyH
    (by norm_num) (by norm_num) (by norm_num) (by norm_num)
    (by norm_num) (by norm_num) (by norm_num) (by norm_num)
  have hraL : (12173827/62500000 : ℝ) < Lunar._right_ascension u := by
    rw [hRA]
    exact NumBounds.arctan_gt_of (12173827/62500000 : ℝ) hxpos (by linarith only [calL])
      (by linarith only [Real.pi_gt_three]) (by linarith only [Real.pi_gt_three])
      (by linarith only [hm1H, hm2L])
  obtain ⟨hm3L, hm3H⟩ := NumBounds.mul_mem (23455051/125000000 : ℝ) (93821623/500000000 : ℝ)
    cauL cauH hyL hyH
    (by norm_num) (by norm_num) (by norm_num) (by norm_num)
    (by norm_num) (by norm_num) (by norm_num) (by norm_num)
  obtain ⟨hm4L, hm4H⟩ := NumBounds.mul_mem (93822417/500000000 : ℝ) (187645693/1000000000 : ℝ)
    sauL sauH cLamL cLamH
    (by norm_num) (by norm_num) (by norm_num) (by norm_num)
    (by norm_num) (by norm_num) (by norm_num) (by norm_num)
  have hraH : Lunar._right_ascension u < (48697047/250000000 : ℝ) := by
    rw [hRA]
    exact NumBounds.arctan_lt_of (48697047/250000000 : ℝ) hxpos (by linarith only [cauL])
      (by linarith only [Real.pi_gt_three]) (by linarith only [Real.pi_gt_three])
      (by linarith only [hm3H, hm4L])
  have hlr : Lunar.limit_angle (Lunar._right_ascension u) =
      Lunar._right_ascension u - ((0 : ℤ) : ℝ) * (2 * Real.pi) :=
    NumBounds.limit_angle_int 0
      (by push_cast; linarith only [hraL, Real.pi_gt_d20, Real.pi_lt_d20])
      (by push_cast; linarith only [hraH, Real.pi_gt_d20, Real.pi_lt_d20])
  have hsv0 : 0 ≤ Lunar.siderealLocal u (-6/25 : ℝ) := by
    linarith only [hSvL]
  have hsv1 : Lunar.siderealLocal u (-6/25 : ℝ) < 2 * Real.pi := by
    linarith only [hSvH, Real.pi_gt_d20]
  have hHAeq : Lunar._hour_angle u (-6/25 : ℝ) =
      Lunar.siderealLocal u (-6/25 : ℝ) -
        (Lunar._right_ascension u - ((0 : ℤ) : ℝ) * (2 * Real.pi)) := by
    unfold Lunar._hour_angle Lunar._hour_angle_direct
    rw [Lunar.limit_angle_eq_self hsv0 hsv1, hlr]
  constructor
  · rw [hHAeq]
    push_cast
    linarith only [hSvL, hraH, Real.pi_gt_d20, Real.pi_lt_d20]
  · rw [hHAeq]
    push_cast
    linarith only [hSvH, hraL, Real.pi_gt_d20, Real.pi_lt_d20]

/-- Hour-angle enclosure for refinement step 4 of the backward (later-instant) transit search of the out-of-window example. -/
theorem c2_ha_s4 {u : ℝ} (huL : (11022114186509/1000000000 : ℝ) ≤ u) (huH : u ≤ (551105709997/50000000 : ℝ)) :
    (-46847/1000000000 : ℝ) ≤ Lunar._hour_angle u (-6/25 : ℝ) ∧ Lunar._hour_angle u (-6/25 : ℝ) ≤ (46637/1000000000 : ℝ) := by
  obtain ⟨hpuL, hpuH⟩ := NumBounds.mul_mem (8656748238841/250000000 : ℝ) (865674824939/25000000 : ℝ)
    (by linarith only [Real.pi_gt_d20] : (157079632679489661923/50000000000000000000 : ℝ) ≤ Real.pi) (by linarith only [Real.pi_lt_d20] : Real.pi ≤ (314159265358979323847/100000000000000000000 : ℝ)) huL huH
    (by norm_num) (by norm_num) (by norm_num) (by norm_num)
    (by norm_num) (by norm_num) (by norm_num) (by norm_num)
  have hGeq : (280.1470 + 360.9856235 * u) * Lunar.RAD + (-6/25 : ℝ) =
      (280147/180000 : ℝ) * Real.pi + (721971247/360000000 : ℝ) * (Real.pi * u) + (-6/25 : ℝ) := by
    unfold Lunar.RAD
    ring
  have hS : Lunar.siderealLocal u (-6/25 : ℝ) =
      (280.1470 + 360.9856235 * u) * Lunar.RAD + (-6/25 : ℝ) -
        ((11053 : ℤ) : ℝ) * (2 * Real.pi) := by
    unfold Lunar.siderealLocal
    exact NumBounds.limit_angle_int 11053
      (by rw [hGeq]; push_cast; linarith only [Real.pi_gt_d20, Real.pi_lt_d20, hpuL, hpuH])
      (by rw [hGeq]; push_cast; linarith only [Real.pi_gt_d20, Real.pi_lt_d20, hpuL, hpuH])
  have hSvL : (97371203/500000000 : ℝ) ≤ Lunar.siderealLocal u (-6/25 : ℝ) := by
    rw [hS, hGeq]
    push_cast
    linarith only [Real.pi_gt_d20, Real.pi_lt_d20, hpuL, hpuH]
  have hSvH : Lunar.siderealLocal u (-6/25 : ℝ) ≤ (194827031/1000000000 : ℝ) := by
    rw [hS, hGeq]
    push_cast
    linarith only [Real.pi_gt_d20, Real.pi_lt_d20, hpuL, hpuH]
  have hFeq : Lunar._mean_distance u = (11659/22500 : ℝ) * Real.pi + (264587/3600000 : ℝ) * (Real.pi * u) := by
    unfold Lunar._mean_distance Lunar.F0 Lunar.F1 Lunar.RAD
    ring
  have hUeqsF : Lunar._mean_distance u - ((405 : ℤ) : ℝ) * (2 * Real.pi) - Real.pi / 2 = (-18224591/22500 : ℝ) * Real.pi + (264587/3600000 : ℝ) * (Real.pi * u) := by
    rw [hFeq]
    push_cast
    ring
  have hUsF : (65199613/200000000 : ℝ) ≤ Lunar._mean_distance u - ((405 : ℤ) : ℝ) * (2 * Real.pi) - Real.pi / 2 ∧ Lunar._mean_distance u - ((405 : ℤ) : ℝ) * (2 * Real.pi) - Real.pi / 2 ≤ (20375073/62500000 : ℝ) := by
    rw [hUeqsF]
    constructor <;> linarith only [Real.pi_gt_d20, Real.pi_lt_d20, hpuL, hpuH]
  obtain ⟨hpsFL, hpsFH⟩ := NumBounds.cos_poly_mem (473665109/500000000 : ℝ) (189466383/200000000 : ℝ) (65199613/200000000 : ℝ) (20375073/62500000 : ℝ)
    hUsF.1 hUsF.2 (by norm_num) (by norm_num) (by norm_num)
    (Or.inl (by norm_num)) (by norm_num) (by norm_num) (by norm_num) (by norm_num)
  have hidsF : Real.sin (Lunar._mean_distance u) = Real.cos (Lunar._mean_distance u - ((405 : ℤ) : ℝ) * (2 * Real.pi) - Real.pi / 2) := by
    rw [NumBounds.sin_reduce (Lunar._mean_distance u) 405]
    rw [NumBounds.sin_shift1 (Lunar._mean_distance u - ((405 : ℤ) : ℝ) * (2 * Real.pi))]
  have sFL : (473665109/500000000 : ℝ) ≤ Real.sin (Lunar._mean_distance u) := by
    rw [hidsF]
    linarith only [hpsFL, hpsFH]
  have sFH : Real.sin (Lunar._mean_distance u) ≤ (189466383/200000000 : ℝ) := by
    rw [hidsF]
    linarith only [hpsFL, hpsFH]
  have hBeq : Lunar._latitude u = (641/22500 : ℝ) * Real.pi * Real.sin (Lunar._mean_distance u) := by
    unfold Lunar._latitude Lunar.L1 Lunar.RAD
    ring
  obtain ⟨hBpL, hBpH⟩ := NumBounds.mul_mem (84786513/1000000000 : ℝ) (16957333/200000000 : ℝ)
    (by linarith only [Real.pi_gt_d20] : (100688044547552873292643/1125000000000000000000000 : ℝ) ≤ (641/22500 : ℝ) * Real.pi)
    (by linarith only [Real.pi_lt_d20] : (641/22500 : ℝ) * Real.pi ≤ (201376089095105746585927/2250000000000000000000000 : ℝ))
    sFL sFH
    (by norm_num) (by norm_num) (by norm_num) (by norm_num)
    (by norm_num) (by norm_num) (by norm_num) (by norm_num)
  have hBL : (84786513/1000000000 : ℝ) ≤ Lunar._latitude u := by
    rw [hBeq]
    exact hBpL
  have hBH : Lunar._latitude u ≤ (16957333/200000000 : ℝ) := by
    rw [hBeq]
    exact hBpH
  obtain ⟨sBL, sBH⟩ := NumBounds.sin_poly_mem (8468463/100000000 : ℝ) (1693709/20000000 : ℝ)
    hBL hBH (by norm_num) (by norm_num) (by norm_num) (by norm_num)
  obtain ⟨cBL, cBH⟩ := NumBounds.cos_poly_mem (99640743/100000000 : ℝ) (99640811/100000000 : ℝ) (84786513/1000000000 : ℝ) (16957333/200000000 : ℝ)
    hBL hBH (by norm_num) (by norm_num) (by norm_num)
    (Or.inl (by norm_num)) (by norm_num) (by norm_num) (by norm_num) (by norm_num)
  obtain ⟨hTqL, hTqH⟩ := NumBounds.div_mem (5311869/62500000 : ℝ) (42495393/500000000 : ℝ) sBL sBH cBL cBH
    (by norm_num)
    (by norm_num) (by norm_num) (by norm_num) (by norm_num)
    (by norm_num) (by norm_num) (by norm_num) (by norm_num)
  have hTbL : (5311869/62500000 : ℝ) ≤ Real.tan (Lunar._latitude u) := by
    rw [Real.tan_eq_sin_div_cos]
    exact hTqL
  have hTbH : Real.tan (Lunar._latitude u) ≤ (42495393/500000000 : ℝ) := by
    rw [Real.tan_eq_sin_div_cos]
    exact hTqH
  have hEeq : Lunar._obliquity u = (7813/60000 : ℝ) * Real.pi + (-1/500000000 : ℝ) * (Real.pi * u) := by
    unfold Lunar._obliquity Lunar.E0 Lunar.E1 Lunar.RAD
    ring
  have hUsE : (409018469/1000000000 : ℝ) ≤ Lunar._obliquity u ∧ Lunar._obliquity u ≤ (40901847/100000000 : ℝ) := by
    rw [hEeq]
    constructor <;> linarith only [Real.pi_gt_d20, Real.pi_lt_d20, hpuL, hpuH]
  obtain ⟨hpsEL, hpsEH⟩ := NumBounds.sin_poly_mem (19885431/50000000 : ℝ) (49713661/125000000 : ℝ)
    hUsE.1 hUsE.2 (by norm_num) (by norm_num) (by norm_num) (by norm_num)
  have sEL : (19885431/50000000 : ℝ) ≤ Real.sin (Lunar._obliquity u) := hpsEL
  have sEH : Real.sin (Lunar._obliquity u) ≤ (49713661/125000000 : ℝ) := hpsEH
  have hUcE : (409018469/1000000000 : ℝ) ≤ Lunar._obliquity u ∧ Lunar._obliquity u ≤ (40901847/100000000 : ℝ) := by
    rw [hEeq]
    constructor <;> linarith only [Real.pi_gt_d20, Real.pi_lt_d20, hpuL, hpuH]
  obtain ⟨hpcEL, hpcEH⟩ := NumBounds.cos_poly_mem (458755647/500000000 : ℝ) (458755981/500000000 : ℝ) (409018469/1000000000 : ℝ) (40901847/100000000 : ℝ)
    hUcE.1 hUcE.2 (by norm_num) (by norm_num) (by norm_num)
    (Or.inl (by norm_num)) (by norm_num) (by norm_num) (by norm_num) (by norm_num)
  have cEL : (458755647/500000000 : ℝ) ≤ Real.cos (Lunar._obliquity u) := hpcEL
  have cEH : Real.cos (Lunar._obliquity u) ≤ (458755981/500000000 : ℝ) := hpcEH
  have hMeq : Lunar._mean_anomaly u = (134963/180000 : ℝ) * Real.pi + (13064993/180000000 : ℝ) * (Real.pi * u) := by
    unfold Lunar._mean_anomaly Lunar.M0 Lunar.M1 Lunar.RAD
    ring
  have hUeqsM : Lunar._mean_anomaly u - ((400 : ℤ) : ℝ) * (2 * Real.pi) - Real.pi = (-144045037/180000 : ℝ) * Real.pi + (13064993/180000000 : ℝ) * (Real.pi * u) := by
    rw [hMeq]
    push_cast
    ring
  have hUsM : (-718941403/1000000000 : ℝ) ≤ Lunar._mean_anomaly u - ((400 : ℤ) : ℝ) * (2 * Real.pi) - Real.pi ∧ Lunar._mean_anomaly u - ((400 : ℤ) : ℝ) * (2 * Real.pi) - Real.pi ≤ (-718938339/1000000000 : ℝ) := by
    rw [hUeqsM]
    constructor <;> linarith only [Real.pi_gt_d20, Real.pi_lt_d20, hpuL, hpuH]
  obtain ⟨hpsML, hpsMH⟩ := NumBounds.sin_poly_mem (-65858957/100000000 : ℝ) (-164646253/250000000 : ℝ)
    hUsM.1 hUsM.2 (by norm_num) (by norm_num) (by norm_num) (by norm_num)
  have hidsM : Real.sin (Lunar._mean_anomaly u) = -Real.sin (Lunar._mean_anomaly u - ((400 : ℤ) : ℝ) * (2 * Real.pi) - Real.pi) := by
    rw [NumBounds.sin_reduce (Lunar._mean_anomaly u) 400]
    rw [NumBounds.sin_shift2 (Lunar._mean_anomaly u - ((400 : ℤ) : ℝ) * (2 * Real.pi))]
  have sML : (164646253/250000000 : ℝ) ≤ Real.sin (Lunar._mean_anomaly u) := by
    rw [hidsM]
    linarith only [hpsML, hpsMH]
  have sMH : Real.sin (Lunar._mean_anomaly u) ≤ (65858957/100000000 : ℝ) := by
    rw [hidsM]
    linarith only [hpsML, hpsMH]
  obtain ⟨hpsL, hpsH⟩ := NumBounds.mul_mem (413801167/200000000 : ℝ) (413804031/200000000 : ℝ)
    (by linarith only [Real.pi_gt_d20] : (157079632679489661923/50000000000000000000 : ℝ) ≤ Real.pi) (by linarith only [Real.pi_lt_d20] : Real.pi ≤ (314159265358979323847/100000000000000000000 : ℝ)) sML sMH
    (by norm_num) (by norm_num) (by norm_num) (by norm_num)
    (by norm_num) (by norm_num) (by norm_num) (by norm_num)
  have hLeq : Lunar._longitude u = (18193/15000 : ℝ) * Real.pi + (366011/5000000 : ℝ) * (Real.pi * u) +
      (6289/180000 : ℝ) * (Real.pi * Real.sin (Lunar._mean_anomaly u)) := by
    unfold Lunar._longitude Lunar._ecliptic_equinox_longitude Lunar.Q0 Lunar.Q1 Lunar.L0 Lunar.RAD
    ring
  have hUeqsLam : Lunar._longitude u - ((404 : ℤ) : ℝ) * (2 * Real.pi) = (-12101807/15000 : ℝ) * Real.pi + (366011/5000000 : ℝ) * (Real.pi * u) + (6289/180000 : ℝ) * (Real.pi * Real.sin (Lunar._mean_anomaly u)) := by
    rw [hLeq]
    push_cast
    ring
  have hUsLam : (24782139/100000000 : ℝ) ≤ Lunar._longitude u - ((404 : ℤ) : ℝ) * (2 * Real.pi) ∧ Lunar._longitude u - ((404 : ℤ) : ℝ) * (2 * Real.pi) ≤ (123912491/500000000 : ℝ) := by
    rw [hUeqsLam]
    constructor <;> linarith only [Real.pi_gt_d20, Real.pi_lt_d20, hpuL, hpuH, hpsL, hpsH]
  obtain ⟨hpsLamL, hpsLamH⟩ := NumBounds.sin_poly_mem (245292047/1000000000 : ℝ) (122648209/500000000 : ℝ)
    hUsLam.1 hUsLam.2 (by norm_num) (by norm_num) (by norm_num) (by norm_num)
  have hidsLam : Real.sin (Lunar._longitude u) = Real.sin (Lunar._longitude u - ((404 : ℤ) : ℝ) * (2 * Real.pi)) := by
    rw [NumBounds.sin_reduce (Lunar._longitude u) 404]
  have sLamL : (245292047/1000000000 : ℝ) ≤ Real.sin (Lunar._longitude u) := by
    rw [hidsLam]
    linarith only [hpsLamL, hpsLamH]
  have sLamH : Real.sin (Lunar._longitude u) ≤ (122648209/500000000 : ℝ) := by
    rw [hidsLam]
    linarith only [hpsLamL, hpsLamH]
  have hUeqcLam : Lunar._longitude u - ((404 : ℤ) : ℝ) * (2 * Real.pi) = (-12101807/15000 : ℝ) * Real.pi + (366011/5000000 : ℝ) * (Real.pi * u) + (6289/180000 : ℝ) * (Real.pi * Real.sin (Lunar._mean_anomaly u)) := by
    rw [hLeq]
    push_cast
    ring
  have hUcLam : (24782139/100000000 : ℝ) ≤ Lunar._longitude u - ((404 : ℤ) : ℝ) * (2 * Real.pi) ∧ Lunar._longitude u - ((404 : ℤ) : ℝ) * (2 * Real.pi) ≤ (123912491/500000000 : ℝ) := by
    rw [hUeqcLam]
    constructor <;> linarith only [Real.pi_gt_d20, Real.pi_lt_d20, hpuL, hpuH, hpsL, hpsH]
  obtain ⟨hpcLamL, hpcLamH⟩ := NumBounds.cos_poly_mem (193889579/200000000 : ℝ) (484724731/500000000 : ℝ) (24782139/100000000 : ℝ) (123912491/500000000 : ℝ)
    hUcLam.1 hUcLam.2 (by norm_num) (by norm_num) (by norm_num)
    (Or.inl (by norm_num)) (by norm_num) (by norm_num) (by norm_num) (by norm_num)
  have hidcLam : Real.cos (Lunar._longitude u) = Real.cos (Lunar._longitude u - ((404 : ℤ) : ℝ) * (2 * Real.pi)) := by
    rw [NumBounds.cos_reduce (Lunar._longitude u) 404]
  have cLamL : (193889579/200000000 : ℝ) ≤ Real.cos (Lunar._longitude u) := by
    rw [hidcLam]
    linarith only [hpcLamL, hpcLamH]
  have cLamH : Real.cos (Lunar._longitude u) ≤ (484724731/500000000 : ℝ) := by
    rw [hidcLam]
    linarith only [hpcLamL, hpcLamH]
  obtain ⟨hpAL, hpAH⟩ := NumBounds.mul_mem (225058223/1000000000 : ℝ) (112531199/500000000 : ℝ)
    sLamL sLamH cEL cEH
    (by norm_num) (by norm_num) (by norm_num) (by norm_num)
    (by norm_num) (by norm_num) (by norm_num) (by norm_num)
  obtain ⟨hpBL, hpBH⟩ := NumBounds.mul_mem (33801217/1000000000 : ℝ) (270413/8000000 : ℝ)
    hTbL hTbH sEL sEH
    (by norm_num) (by norm_num) (by norm_num) (by norm_num)
    (by norm_num) (by norm_num) (by norm_num) (by norm_num)
  have hyL : (95628299/500000000 : ℝ) ≤ Real.sin (Lunar._longitude u) * Real.cos (Lunar._obliquity u) - Real.tan (Lunar._latitude u) * Real.sin (Lunar._obliquity u) := by
    linarith only [hpAL, hpBH]
  have hyH : Real.sin (Lunar._longitude u) * Real.cos (Lunar._obliquity u) - Real.tan (Lunar._latitude u) * Real.sin (Lunar._obliquity u) ≤ (191261181/1000000000 : ℝ) := by
    linarith only [hpAH, hpBL]
  have hxpos : 0 < Real.cos (Lunar._longitude u) := by
    linarith only [cLamL]
  have hRA : Lunar._right_ascension u = Real.arctan ((Real.sin (Lunar._longitude u) * Real.cos (Lunar._obliquity u) - Real.tan (Lunar._latitude u) * Real.sin (Lunar._obliquity u)) / Real.cos (Lunar._longitude u)) := by
    unfold Lunar._right_ascension Lunar._right_ascension_direct Lunar.atan2
    rw [if_pos hxpos]
  obtain ⟨salL, salH⟩ := NumBounds.sin_poly_mem (193550753/1000000000 : ℝ) (9677571/50000000 : ℝ)
    (le_refl (97390197/500000000 : ℝ)) (le_refl (97390197/500000000 : ℝ)) (by norm_num) (by norm_num) (by norm_num) (by norm_num)
  obtain ⟨calL, calH⟩ := NumBounds.cos_poly_mem (122636233/125000000 : ℝ) (245272633/250000000 : ℝ) (97390197/500000000 : ℝ) (97390197/500000000 : ℝ)
    (le_refl (97390197/500000000 : ℝ)) (le_refl (97390197/500000000 : ℝ)) (by norm_num) (by norm_num) (by norm_num)
    (Or.inl (by norm_num)) (by norm_num) (by norm_num) (by norm_num) (by norm_num)
  obtain ⟨sauL, sauH⟩ := NumBounds.sin_poly_mem (48389861/250000000 : ℝ) (12097507/62500000 : ℝ)
    (le_refl (194789253/1000000000 : ℝ)) (le_refl (194789253/1000000000 : ℝ)) (by norm_num) (by norm_num) (by norm_num) (by norm_num)
  obtain ⟨cauL, cauH⟩ := NumBounds.cos_poly_mem (19621763/20000000 : ℝ) (981088817/1000000000 : ℝ) (194789253/1000000000 : ℝ) (194789253/1000000000 : ℝ)
    (le_refl (194789253/1000000000 : ℝ)) (le_refl (194789253/1000000000 : ℝ)) (by norm_num) (by norm_num) (by norm_num)
    (Or.inl (by norm_num)) (by norm_num) (by norm_num) (by norm_num) (by norm_num)
  obtain ⟨hm1L, hm1H⟩ := NumBounds.mul_mem (18763737/100000000 : ℝ) (2345479/12500000 : ℝ)
    salL salH cLamL cLamH
    (by norm_num) (by norm_num) (by norm_num) (by norm_num)
    (by norm_num) (by norm_num) (by norm_num) (by norm_num)
  obtain ⟨hm2L, hm2H⟩ := NumBounds.mul_mem (187639909/1000000000 : ℝ) (93822267/500000000 : ℝ)
    calL calH hyL hyH
    (by norm_num) (by norm_num) (by norm_num) (by norm_num)
    (by norm_num) (by norm_num) (by norm_num) (by norm_num)
  have hraL : (97390197/500000000 : ℝ) < Lunar._right_ascension u := by
    rw [hRA]
    exact NumBounds.arctan_gt_of (97390197/500000000 : ℝ) hxpos (by linarith only [calL])
      (by linarith only [Real.pi_gt_three]) (by linarith only [Real.pi_gt_three])
      (by linarith only [hm1H, hm2L])
  obtain ⟨hm3L, hm3H⟩ := NumBounds.mul_mem (187639581/1000000000 : ℝ) (93822103/500000000 : ℝ)
    cauL cauH hyL hyH
    (by norm_num) (by norm_num) (by norm_num) (by norm_num)
    (by norm_num) (by norm_num) (by norm_num) (by norm_num)
  obtain ⟨hm4L, hm4H⟩ := NumBounds.mul_mem (37529159/200000000 : ℝ) (187646747/1000000000 : ℝ)
    sauL sauH cLamL cLamH
    (by norm_num) (by norm_num) (by norm_num) (by norm_num)
    (by norm_num) (by norm_num) (by norm_num) (by norm_num)
  have hraH : Lunar._right_ascension u < (194789253/1000000000 : ℝ) := by
    rw [hRA]
    exact NumBounds.arctan_lt_of (194789253/1000000000 : ℝ) hxpos (by linarith only [cauL])
      (by linarith only [Real.pi_gt_three]) (by linarith only [Real.pi_gt_three])
      (by linarith only [hm3H, hm4L])
  have hlr : Lunar.limit_angle (Lunar._right_ascension u) =
      Lunar._right_ascension u - ((0 : ℤ) : ℝ) * (2 * Real.pi) :=
    NumBounds.limit_angle_int 0
      (by push_cast; linarith only [hraL, Real.pi_gt_d20, Real.pi_lt_d20])
      (by push_cast; linarith only [hraH, Real.pi_gt_d20, Real.pi_lt_d20])
  have hsv0 : 0 ≤ Lunar.siderealLocal u (-6/25 : ℝ) := by
    linarith only [hSvL]
  have hsv1 : Lunar.siderealLocal u (-6/25 : ℝ) < 2 * Real.pi := by
    linarith only [hSvH, Real.pi_gt_d20]
  have hHAeq : Lunar._hour_angle u (-6/25 : ℝ) =
      Lunar.siderealLocal u (-6/25 : ℝ) -
        (Lunar._right_ascension u - ((0 : ℤ) : ℝ) * (2 * Real.pi)) := by
    unfold Lunar._hour_angle Lunar._hour_angle_direct
    rw [Lunar.limit_angle_eq_self hsv0 hsv1, hlr]
  constructor
  · rw [hHAeq]
    push_cast
    linarith only [hSvL, hraH, Real.pi_gt_d20, Real.pi_lt_d20]
  · rw [hHAeq]
    push_cast
    linarith only [hSvH, hraL, Real.pi_gt_d20, Real.pi_lt_d20]

/-- Hour-angle enclosure for refinement step 0 of the fallback (query-instant) transit search of the out-of-window example. -/
theorem c2_ha_t0 {u : ℝ} (huL : (1102109/100 : ℝ) ≤ u) (huH : u ≤ (1102109/100 : ℝ)) :
    (-6249490233/1000000000 : ℝ) ≤ Lunar._hour_angle u (-6/25 : ℝ) ∧ Lunar._hour_angle u (-6/25 : ℝ) ≤ (-3124742571/500000000 : ℝ) := by
  obtain ⟨hpuL, hpuH⟩ := NumBounds.mul_mem (34623775378551/1000000000 : ℝ) (4327971922319/125000000 : ℝ)
    (by linarith only [Real.pi_gt_d20] : (157079632679489661923/50000000000000000000 : ℝ) ≤ Real.pi) (by linarith only [Real.pi_lt_d20] : Real.pi ≤ (314159265358979323847/100000000000000000000 : ℝ)) huL huH
    (by norm_num) (by norm_num) (by norm_num) (by norm_num)
    (by norm_num) (by norm_num) (by norm_num) (by norm_num)
  have hGeq : (280.1470 + 360.9856235 * u) * Lunar.RAD + (-6/25 : ℝ) =
      (280147/180000 : ℝ) * Real.pi + (721971247/360000000 : ℝ) * (Real.pi * u) + (-6/25 : ℝ) := by
    unfold Lunar.RAD
    ring
  have hS : Lunar.siderealLocal u (-6/25 : ℝ) =
      (280.1470 + 360.9856235 * u) * Lunar.RAD + (-6/25 : ℝ) -
        ((11052 : ℤ) : ℝ) * (2 * Real.pi) := by
    unfold Lunar.siderealLocal
    exact NumBounds.limit_angle_int 11052
      (by rw [hGeq]; push_cast; linarith only [Real.pi_gt_d20, Real.pi_lt_d20, hpuL, hpuH])
      (by rw [hGeq]; push_cast; linarith only [Real.pi_gt_d20, Real.pi_lt_d20, hpuL, hpuH])
  have hSvL : (25155647/1000000000 : ℝ) ≤ Lunar.siderealLocal u (-6/25 : ℝ) := by
    rw [hS, hGeq]
    push_cast
    linarith only [Real.pi_gt_d20, Real.pi_lt_d20, hpuL, hpuH]
  have hSvH : Lunar.siderealLocal u (-6/25 : ℝ) ≤ (25155651/1000000000 : ℝ) := by
    rw [hS, hGeq]
    push_cast
    linarith only [Real.pi_gt_d20, Real.pi_lt_d20, hpuL, hpuH]
  have hFeq : Lunar._mean_distance u = (11659/22500 : ℝ) * Real.pi + (264587/3600000 : ℝ) * (Real.pi * u) := by
    unfold Lunar._mean_distance Lunar.F0 Lunar.F1 Lunar.RAD
    ring
  have hUeqsF : Lunar._mean_distance u - ((405 : ℤ) : ℝ) * (2 * Real.pi) - Real.pi / 2 = (-18224591/22500 : ℝ) * Real.pi + (264587/3600000 : ℝ) * (Real.pi * u) := by
    rw [hFeq]
    push_cast
    ring
  have hUsF : (22379447/250000000 : ℝ) ≤ Lunar._mean_distance u - ((405 : ℤ) : ℝ) * (2 * Real.pi) - Real.pi / 2 ∧ Lunar._mean_distance u - ((405 : ℤ) : ℝ) * (2 * Real.pi) - Real.pi / 2 ≤ (8951779/100000000 : ℝ) := by
    rw [hUeqsF]
    constructor <;> linarith only [Real.pi_gt_d20, Real.pi_lt_d20, hpuL, hpuH]
  obtain ⟨hpsFL, hpsFH⟩ := NumBounds.cos_poly_mem (124499453/125000000 : ℝ) (248999073/250000000 : ℝ) (22379447/250000000 : ℝ) (8951779/100000000 : ℝ)
    hUsF.1 hUsF.2 (by norm_num) (by norm_num) (by norm_num)
    (Or.inl (by norm_num)) (by norm_num) (by norm_num) (by norm_num) (by norm_num)
  have hidsF : Real.sin (Lunar._mean_distance u) = Real.cos (Lunar._mean_distance u - ((405 : ℤ) : ℝ) * (2 * Real.pi) - Real.pi / 2) := by
    rw [NumBounds.sin_reduce (Lunar._mean_distance u) 405]
    rw [NumBounds.sin_shift1 (Lunar._mean_distance u - ((405 : ℤ) : ℝ) * (2 * Real.pi))]
  have sFL : (124499453/125000000 : ℝ) ≤ Real.sin (Lunar._mean_distance u) := by
    rw [hidsF]
    linarith only [hpsFL, hpsFH]
  have sFH : Real.sin (Lunar._mean_distance u) ≤ (248999073/250000000 : ℝ) := by
    rw [hidsF]
    linarith only [hpsFL, hpsFH]
  have hBeq : Lunar._latitude u = (641/22500 : ℝ) * Real.pi * Real.sin (Lunar._mean_distance u) := by
    unfold Lunar._latitude Lunar.L1 Lunar.RAD
    ring
  obtain ⟨hBpL, hBpH⟩ := NumBounds.mul_mem (8914209/100000000 : ℝ) (89142151/1000000000 : ℝ)
    (by linarith only [Real.pi_gt_d20] : (100688044547552873292643/1125000000000000000000000 : ℝ) ≤ (641/22500 : ℝ) * Real.pi)
    (by linarith only [Real.pi_lt_d20] : (641/22500 : ℝ) * Real.pi ≤ (201376089095105746585927/2250000000000000000000000 : ℝ))
    sFL sFH
    (by norm_num) (by norm_num) (by norm_num) (by norm_num)
    (by norm_num) (by norm_num) (by norm_num) (by norm_num)
  have hBL : (8914209/100000000 : ℝ) ≤ Lunar._latitude u := by
    rw [hBeq]
    exact hBpL
  have hBH : Lunar._latitude u ≤ (89142151/1000000000 : ℝ) := by
    rw [hBeq]
    exact hBpH
  obtain ⟨sBL, sBH⟩ := NumBounds.sin_poly_mem (347749/3906250 : ℝ) (89024473/1000000000 : ℝ)
    hBL hBH (by norm_num) (by norm_num) (by norm_num) (by norm_num)
  obtain ⟨cBL, cBH⟩ := NumBounds.cos_poly_mem (199205827/200000000 : ℝ) (62251863/62500000 : ℝ) (8914209/100000000 : ℝ) (89142151/1000000000 : ℝ)
    hBL hBH (by norm_num) (by norm_num) (by norm_num)
    (Or.inl (by norm_num)) (by norm_num) (by norm_num) (by norm_num) (by norm_num)
  obtain ⟨hTqL, hTqH⟩ := NumBounds.div_mem (44689297/500000000 : ℝ) (89379387/1000000000 : ℝ) sBL sBH cBL cBH
    (by norm_num)
    (by norm_num) (by norm_num) (by norm_num) (by norm_num)
    (by norm_num) (by norm_num) (by norm_num) (by norm_num)
  have hTbL : (44689297/500000000 : ℝ) ≤ Real.tan (Lunar._latitude u) := by
    rw [Real.tan_eq_sin_div_cos]
    exact hTqL
  have hTbH : Real.tan (Lunar._latitude u) ≤ (89379387/1000000000 : ℝ) := by
    rw [Real.tan_eq_sin_div_cos]
    exact hTqH
  have hEeq : Lunar._obliquity u = (7813/60000 : ℝ) * Real.pi + (-1/500000000 : ℝ) * (Real.pi * u) := by
    unfold Lunar._obliquity Lunar.E0 Lunar.E1 Lunar.RAD
    ring
  have hUsE : (16360739/40000000 : ℝ) ≤ Lunar._obliquity u ∧ Lunar._obliquity u ≤ (102254619/250000000 : ℝ) := by
    rw [hEeq]
    constructor <;> linarith only [Real.pi_gt_d20, Real.pi_lt_d20, hpuL, hpuH]
  obtain ⟨hpsEL, hpsEH⟩ := NumBounds.sin_poly_mem (3181669/8000000 : ℝ) (198854647/500000000 : ℝ)
    hUsE.1 hUsE.2 (by norm_num) (by norm_num) (by norm_num) (by norm_num)
  have sEL : (3181669/8000000 : ℝ) ≤ Real.sin (Lunar._obliquity u) := hpsEL
  have sEH : Real.sin (Lunar._obliquity u) ≤ (198854647/500000000 : ℝ) := hpsEH
  have hUcE : (16360739/40000000 : ℝ) ≤ Lunar._obliquity u ∧ Lunar._obliquity u ≤ (102254619/250000000 : ℝ) := by
    rw [hEeq]
    constructor <;> linarith only [Real.pi_gt_d20, Real.pi_lt_d20, hpuL, hpuH]
  obtain ⟨hpcEL, hpcEH⟩ := NumBounds.cos_poly_mem (229377823/250000000 : ℝ) (22937799/25000000 : ℝ) (16360739/40000000 : ℝ) (102254619/250000000 : ℝ)
    hUcE.1 hUcE.2 (by norm_num) (by norm_num) (by norm_num)
    (Or.inl (by norm_num)) (by norm_num) (by norm_num) (by norm_num) (by norm_num)
  have cEL : (229377823/250000000 : ℝ) ≤ Real.cos (Lunar._obliquity u) := hpcEL
  have cEH : Real.cos (Lunar._obliquity u) ≤ (22937799/25000000 : ℝ) := hpcEH
  have hMeq : Lunar._mean_anomaly u = (134963/180000 : ℝ) * Real.pi + (13064993/180000000 : ℝ) * (Real.pi * u) := by
    unfold Lunar._mean_anomaly Lunar.M0 Lunar.M1 Lunar.RAD
    ring
  have hUeqsM : Lunar._mean_anomaly u - ((400 : ℤ) : ℝ) * (2 * Real.pi) - Real.pi / 2 = (-143955037/180000 : ℝ) * Real.pi + (13064993/180000000 : ℝ) * (Real.pi * u) := by
    rw [hMeq]
    push_cast
    ring
  have hUsM : (618312599/1000000000 : ℝ) ≤ Lunar._mean_anomaly u - ((400 : ℤ) : ℝ) * (2 * Real.pi) - Real.pi / 2 ∧ Lunar._mean_anomaly u - ((400 : ℤ) : ℝ) * (2 * Real.pi) - Real.pi / 2 ≤ (618312601/1000000000 : ℝ) := by
    rw [hUeqsM]
    constructor <;> linarith only [Real.pi_gt_d20, Real.pi_lt_d20, hpuL, hpuH]
  obtain ⟨hpsML, hpsMH⟩ := NumBounds.cos_poly_mem (203714351/250000000 : ℝ) (814858073/1000000000 : ℝ) (618312599/1000000000 : ℝ) (618312601/1000000000 : ℝ)
    hUsM.1 hUsM.2 (by norm_num) (by norm_num) (by norm_num)
    (Or.inl (by norm_num)) (by norm_num) (by norm_num) (by norm_num) (by norm_num)
  have hidsM : Real.sin (Lunar._mean_anomaly u) = Real.cos (Lunar._mean_anomaly u - ((400 : ℤ) : ℝ) * (2 * Real.pi) - Real.pi / 2) := by
    rw [NumBounds.sin_reduce (Lunar._mean_anomaly u) 400]
    rw [NumBounds.sin_shift1 (Lunar._mean_anomaly u - ((400 : ℤ) : ℝ) * (2 * Real.pi))]
  have sML : (203714351/250000000 : ℝ) ≤ Real.sin (Lunar._mean_anomaly u) := by
    rw [hidsM]
    linarith only [hpsML, hpsMH]
  have sMH : Real.sin (Lunar._mean_anomaly u) ≤ (814858073/1000000000 : ℝ) := by
    rw [hidsM]
    linarith only [hpsML, hpsMH]
  obtain ⟨hpsL, hpsH⟩ := NumBounds.mul_mem (1279975017/500000000 : ℝ) (319994017/125000000 : ℝ)
    (by linarith only [Real.pi_gt_d20] : (157079632679489661923/50000000000000000000 : ℝ) ≤ Real.pi) (by linarith only [Real.pi_lt_d20] : Real.pi ≤ (314159265358979323847/100000000000000000000 : ℝ)) sML sMH
    (by norm_num) (by norm_num) (by norm_num) (by norm_num)
    (by norm_num) (by norm_num) (by norm_num) (by norm_num)
  have hLeq : Lunar._longitude u = (18193/15000 : ℝ) * Real.pi + (366011/5000000 : ℝ) * (Real.pi * u) +
      (6289/180000 : ℝ) * (Real.pi * Real.sin (Lunar._mean_anomaly u)) := by
    unfold Lunar._longitude Lunar._ecliptic_equinox_longitude Lunar.Q0 Lunar.Q1 Lunar.L0 Lunar.RAD
    ring
  have hUeqsLam : Lunar._longitude u - ((404 : ℤ) : ℝ) * (2 * Real.pi) = (-12101807/15000 : ℝ) * Real.pi + (366011/5000000 : ℝ) * (Real.pi * u) + (6289/180000 : ℝ) * (Real.pi * Real.sin (Lunar._mean_anomaly u)) := by
    rw [hLeq]
    push_cast
    ring
  have hUsLam : (14720367/500000000 : ℝ) ≤ Lunar._longitude u - ((404 : ℤ) : ℝ) * (2 * Real.pi) ∧ Lunar._longitude u - ((404 : ℤ) : ℝ) * (2 * Real.pi) ≤ (29440809/1000000000 : ℝ) := by
    rw [hUeqsLam]
    constructor <;> linarith only [Real.pi_gt_d20, Real.pi_lt_d20, hpuL, hpuH, hpsL, hpsH]
  obtain ⟨hpsLamL, hpsLamH⟩ := NumBounds.sin_poly_mem (29436147/1000000000 : ℝ) (2943689/100000000 : ℝ)
    hUsLam.1 hUsLam.2 (by norm_num) (by norm_num) (by norm_num) (by norm_num)
  have hidsLam : Real.sin (Lunar._longitude u) = Real.sin (Lunar._longitude u - ((404 : ℤ) : ℝ) * (2 * Real.pi)) := by
    rw [NumBounds.sin_reduce (Lunar._longitude u) 404]
  have sLamL : (29436147/1000000000 : ℝ) ≤ Real.sin (Lunar._longitude u) := by
    rw [hidsLam]
    linarith only [hpsLamL, hpsLamH]
  have sLamH : Real.sin (Lunar._longitude u) ≤ (2943689/100000000 : ℝ) := by
    rw [hidsLam]
    linarith only [hpsLamL, hpsLamH]
  have hUeqcLam : Lunar._longitude u - ((404 : ℤ) : ℝ) * (2 * Real.pi) = (-12101807/15000 : ℝ) * Real.pi + (366011/5000000 : ℝ) * (Real.pi * u) + (6289/180000 : ℝ) * (Real.pi * Real.sin (Lunar._mean_anomaly u)) := by
    rw [hLeq]
    push_cast
    ring
  have hUcLam : (14720367/500000000 : ℝ) ≤ Lunar._longitude u - ((404 : ℤ) : ℝ) * (2 * Real.pi) ∧ Lunar._longitude u - ((404 : ℤ) : ℝ) * (2 * Real.pi) ≤ (29440809/1000000000 : ℝ) := by
    rw [hUeqcLam]
    constructor <;> linarith only [Real.pi_gt_d20, Real.pi_lt_d20, hpuL, hpuH, hpsL, hpsH]
  obtain ⟨hpcLamL, hpcLamH⟩ := NumBounds.cos_poly_mem (999566317/1000000000 : ℝ) (999566987/1000000000 : ℝ) (14720367/500000000 : ℝ) (29440809/1000000000 : ℝ)
    hUcLam.1 hUcLam.2 (by norm_num) (by norm_num) (by norm_num)
    (Or.inl (by norm_num)) (by norm_num) (by norm_num) (by norm_num) (by norm_num)
  have hidcLam : Real.cos (Lunar._longitude u) = Real.cos (Lunar._longitude u - ((404 : ℤ) : ℝ) * (2 * Real.pi)) := by
    rw [NumBounds.cos_reduce (Lunar._longitude u) 404]
  have cLamL : (999566317/1000000000 : ℝ) ≤ Real.cos (Lunar._longitude u) := by
    rw [hidcLam]
    linarith only [hpcLamL, hpcLamH]
  have cLamH : Real.cos (Lunar._longitude u) ≤ (999566987/1000000000 : ℝ) := by
    rw [hidcLam]
    linarith only [hpcLamL, hpcLamH]
  obtain ⟨hpAL, hpAH⟩ := NumBounds.mul_mem (27007997/1000000000 : ℝ) (27008699/1000000000 : ℝ)
    sLamL sLamH cEL cEH
    (by norm_num) (by norm_num) (by norm_num) (by norm_num)
    (by norm_num) (by norm_num) (by norm_num) (by norm_num)
  obtain ⟨hpBL, hpBH⟩ := NumBounds.mul_mem (35546637/1000000000 : ℝ) (35547013/1000000000 : ℝ)
    hTbL hTbH sEL sEH
    (by norm_num) (by norm_num) (by norm_num) (by norm_num)
    (by norm_num) (by norm_num) (by norm_num) (by norm_num)
  have hyL : (-1067377/125000000 : ℝ) ≤ Real.sin (Lunar._longitude u) * Real.cos (Lunar._obliquity u) - Real.tan (Lunar._latitude u) * Real.sin (Lunar._obliquity u) := by
    linarith only [hpAL, hpBH]
  have hyH : Real.sin (Lunar._longitude u) * Real.cos (Lunar._obliquity u) - Real.tan (Lunar._latitude u) * Real.sin (Lunar._obliquity u) ≤ (-4268969/500000000 : ℝ) := by
    linarith only [hpAH, hpBL]
  have hxpos : 0 < Real.cos (Lunar._longitude u) := by
    linarith only [cLamL]
  have hRA : Lunar._right_ascension u = Real.arctan ((Real.sin (Lunar._longitude u) * Real.cos (Lunar._obliquity u) - Real.tan (Lunar._latitude u) * Real.sin (Lunar._obliquity u)) / Real.cos (Lunar._longitude u)) := by
    unfold Lunar._right_ascension Lunar._right_ascension_direct Lunar.atan2
    rw [if_pos hxpos]
  obtain ⟨salL, salH⟩ := NumBounds.sin_poly_mem (-1068093/125000000 : ℝ) (-2136019/250000000 : ℝ)
    (le_refl (-4272257/500000000 : ℝ)) (le_refl (-4272257/500000000 : ℝ)) (by norm_num) (by norm_num) (by norm_num) (by norm_num)
  obtain ⟨calL, calH⟩ := NumBounds.cos_poly_mem (499981581/500000000 : ℝ) (99996383/100000000 : ℝ) (4272257/500000000 : ℝ) (4272257/500000000 : ℝ)
    (le_refl (-4272257/500000000 : ℝ)) (le_refl (-4272257/500000000 : ℝ)) (by norm_num) (by norm_num) (by norm_num)
    (Or.inr (Or.inl (by norm_num))) (by norm_num) (by norm_num) (by norm_num) (by norm_num)
  obtain ⟨sauL, sauH⟩ := NumBounds.sin_poly_mem (-4269829/500000000 : ℝ) (-853899/100000000 : ℝ)
    (le_refl (-2134857/250000000 : ℝ)) (le_refl (-2134857/250000000 : ℝ)) (by norm_num) (by norm_num) (by norm_num) (by norm_num)
  obtain ⟨cauL, cauH⟩ := NumBounds.cos_poly_mem (199992641/200000000 : ℝ) (999963873/1000000000 : ℝ) (2134857/250000000 : ℝ) (2134857/250000000 : ℝ)
    (le_refl (-2134857/250000000 : ℝ)) (le_refl (-2134857/250000000 : ℝ)) (by norm_num) (by norm_num) (by norm_num)
    (Or.inr (Or.inl (by norm_num))) (by norm_num) (by norm_num) (by norm_num) (by norm_num)
  obtain ⟨hm1L, hm1H⟩ := NumBounds.mul_mem (-1708209/200000000 : ℝ) (-854037/100000000 : ℝ)
    salL salH cLamL cLamH
    (by norm_num) (by norm_num) (by norm_num) (by norm_num)
    (by norm_num) (by norm_num) (by norm_num) (by norm_num)
  obtain ⟨hm2L, hm2H⟩ := NumBounds.mul_mem (-2134677/250000000 : ℝ) (-8537623/1000000000 : ℝ)
    calL calH hyL hyH
    (by norm_num) (by norm_num) (by norm_num) (by norm_num)
    (by norm_num) (by norm_num) (by norm_num) (by norm_num)
  have hraL : (-4272257/500000000 : ℝ) < Lunar._right_ascension u := by
    rw [hRA]
    exact NumBounds.arctan_gt_of (-4272257/500000000 : ℝ) hxpos (by linarith only [calL])
      (by linarith only [Real.pi_gt_three]) (by linarith only [Real.pi_gt_three])
      (by linarith only [hm1H, hm2L])
  obtain ⟨hm3L, hm3H⟩ := NumBounds.mul_mem (-2134677/250000000 : ℝ) (-8537623/1000000000 : ℝ)
    cauL cauH hyL hyH
    (by norm_num) (by norm_num) (by norm_num) (by norm_num)
    (by norm_num) (by norm_num) (by norm_num) (by norm_num)
  obtain ⟨hm4L, hm4H⟩ := NumBounds.mul_mem (-8535961/1000000000 : ℝ) (-4267643/500000000 : ℝ)
    sauL sauH cLamL cLamH
    (by norm_num) (by norm_num) (by norm_num) (by norm_num)
    (by norm_num) (by norm_num) (by norm_num) (by norm_num)
  have hraH : Lunar._right_ascension u < (-2134857/250000000 : ℝ) := by
    rw [hRA]
    exact NumBounds.arctan_lt_of (-2134857/250000000 : ℝ) hxpos (by linarith only [cauL])
      (by linarith only [Real.pi_gt_three]) (by linarith only [Real.pi_gt_three])
      (by linarith only [hm3H, hm4L])
  have hlr : Lunar.limit_angle (Lunar._right_ascension u) =
      Lunar._right_ascension u - ((-1 : ℤ) : ℝ) * (2 * Real.pi) :=
    NumBounds.limit_angle_int (-1)
      (by push_cast; linarith only [hraL, Real.pi_gt_three])
      (by push_cast; linarith only [hraH])
  have hsv0 : 0 ≤ Lunar.siderealLocal u (-6/25 : ℝ) := by
    linarith only [hSvL]
  have hsv1 : Lunar.siderealLocal u (-6/25 : ℝ) < 2 * Real.pi := by
    linarith only [hSvH, Real.pi_gt_d20]
  have hHAeq : Lunar._hour_angle u (-6/25 : ℝ) =
      Lunar.siderealLocal u (-6/25 : ℝ) -
        (Lunar._right_ascension u - ((-1 : ℤ) : ℝ) * (2 * Real.pi)) := by
    unfold Lunar._hour_angle Lunar._hour_angle_direct
    rw [Lunar.limit_angle_eq_self hsv0 hsv1, hlr]
  constructor
  · rw [hHAeq]
    push_cast
    linarith only [hSvL, hraH, Real.pi_gt_d20, Real.pi_lt_d20]
  · rw [hHAeq]
    push_cast
    linarith only [hSvH, hraL, Real.pi_gt_d20, Real.pi_lt_d20]

/-- Hour-angle enclosure for refinement step 1 of the fallback (query-instant) transit search of the out-of-window example. -/
theorem c2_ha_t1 {u : ℝ} (huL : (2755521159113/250000000 : ℝ) ≤ u) (huH : u ≤ (11022084637263/1000000000 : ℝ)) :
    (-90167121/500000000 : ℝ) ≤ Lunar._hour_angle u (-6/25 : ℝ) ∧ Lunar._hour_angle u (-6/25 : ℝ) ≤ (-7212943/40000000 : ℝ) := by
  obtain ⟨hpuL, hpuH⟩ := NumBounds.mul_mem (17313450060561/500000000 : ℝ) (34626900123671/1000000000 : ℝ)
    (by linarith only [Real.pi_gt_d20] : (157079632679489661923/50000000000000000000 : ℝ) ≤ Real.pi) (by linarith only [Real.pi_lt_d20] : Real.pi ≤ (314159265358979323847/100000000000000000000 : ℝ)) huL huH
    (by norm_num) (by norm_num) (by norm_num) (by norm_num)
    (by norm_num) (by norm_num) (by norm_num) (by norm_num)
  have hGeq : (280.1470 + 360.9856235 * u) * Lunar.RAD + (-6/25 : ℝ) =
      (280147/180000 : ℝ) * Real.pi + (721971247/360000000 : ℝ) * (Real.pi * u) + (-6/25 : ℝ) := by
    unfold Lunar.RAD
    ring
  have hS : Lunar.siderealLocal u (-6/25 : ℝ) =
      (280.1470 + 360.9856235 * u) * Lunar.RAD + (-6/25 : ℝ) -
        ((11053 : ℤ) : ℝ) * (2 * Real.pi) := by
    unfold Lunar.siderealLocal
    exact NumBounds.limit_angle_int 11053
      (by rw [hGeq]; push_cast; linarith only [Real.pi_gt_d20, Real.pi_lt_d20, hpuL, hpuH])
      (by rw [hGeq]; push_cast; linarith only [Real.pi_gt_d20, Real.pi_lt_d20, hpuL, hpuH])
  have hSvL : (8565591/1000000000 : ℝ) ≤ Lunar.siderealLocal u (-6/25 : ℝ) := by
    rw [hS, hGeq]
    push_cast
    linarith only [Real.pi_gt_d20, Real.pi_lt_d20, hpuL, hpuH]
  have hSvH : Lunar.siderealLocal u (-6/25 : ℝ) ≤ (1714141/200000000 : ℝ) := by
    rw [hS, hGeq]
    push_cast
    linarith only [Real.pi_gt_d20, Real.pi_lt_d20, hpuL, hpuH]
  have hFeq : Lunar._mean_distance u = (11659/22500 : ℝ) * Real.pi + (264587/3600000 : ℝ) * (Real.pi * u) := by
    unfold Lunar._mean_distance Lunar.F0 Lunar.F1 Lunar.RAD
    ring
  have hUeqsF : Lunar._mean_distance u - ((405 : ℤ) : ℝ) * (2 * Real.pi) - Real.pi / 2 = (-18224591/22500 : ℝ) * Real.pi + (264587/3600000 : ℝ) * (Real.pi * u) := by
    rw [hFeq]
    push_cast
    ring
  have hUsF : (319175083/1000000000 : ℝ) ≤ Lunar._mean_distance u - ((405 : ℤ) : ℝ) * (2 * Real.pi) - Real.pi / 2 ∧ Lunar._mean_distance u - ((405 : ℤ) : ℝ) * (2 * Real.pi) - Real.pi / 2 ≤ (39896909/125000000 : ℝ) := by
    rw [hUeqsF]
    constructor <;> linarith only [Real.pi_gt_d20, Real.pi_lt_d20, hpuL, hpuH]
  obtain ⟨hpsFL, hpsFH⟩ := NumBounds.cos_poly_mem (59343387/62500000 : ℝ) (949494921/1000000000 : ℝ) (319175083/1000000000 : ℝ) (39896909/125000000 : ℝ)
    hUsF.1 hUsF.2 (by norm_num) (by norm_num) (by norm_num)
    (Or.inl (by norm_num)) (by norm_num) (by norm_num) (by norm_num) (by norm_num)
  have hidsF : Real.sin (Lunar._mean_distance u) = Real.cos (Lunar._mean_distance u - ((405 : ℤ) : ℝ) * (2 * Real.pi) - Real.pi / 2) := by
    rw [NumBounds.sin_reduce (Lunar._mean_distance u) 405]
    rw [NumBounds.sin_shift1 (Lunar._mean_distance u - ((405 : ℤ) : ℝ) * (2 * Real.pi))]
  have sFL : (59343387/62500000 : ℝ) ≤ Real.sin (Lunar._mean_distance u) := by
    rw [hidsF]
    linarith only [hpsFL, hpsFH]
  have sFH : Real.sin (Lunar._mean_distance u) ≤ (949494921/1000000000 : ℝ) := by
    rw [hidsF]
    linarith only [hpsFL, hpsFH]
  have hBeq : Lunar._latitude u = (641/22500 : ℝ) * Real.pi * Real.sin (Lunar._mean_distance u) := by
    unfold Lunar._latitude Lunar.L1 Lunar.RAD
    ring
  obtain ⟨hBpL, hBpH⟩ := NumBounds.mul_mem (84980189/1000000000 : ℝ) (2655633/31250000 : ℝ)
    (by linarith only [Real.pi_gt_d20] : (100688044547552873292643/1125000000000000000000000 : ℝ) ≤ (641/22500 : ℝ) * Real.pi)
    (by linarith only [Real.pi_lt_d20] : (641/22500 : ℝ) * Real.pi ≤ (201376089095105746585927/2250000000000000000000000 : ℝ))
    sFL sFH
    (by norm_num) (by norm_num) (by norm_num) (by norm_num)
    (by norm_num) (by norm_num) (by norm_num) (by norm_num)
  have hBL : (84980189/1000000000 : ℝ) ≤ Lunar._latitude u := by
    rw [hBeq]
    exact hBpL
  have hBH : Lunar._latitude u ≤ (2655633/31250000 : ℝ) := by
    rw [hBeq]
    exact hBpH
  obtain ⟨sBL, sBH⟩ := NumBounds.sin_poly_mem (84877609/1000000000 : ℝ) (10609793/125000000 : ℝ)
    hBL hBH (by norm_num) (by norm_num) (by norm_num) (by norm_num)
  obtain ⟨cBL, cBH⟩ := NumBounds.cos_poly_mem (996391017/1000000000 : ℝ) (99639169/100000000 : ℝ) (84980189/1000000000 : ℝ) (2655633/31250000 : ℝ)
    hBL hBH (by norm_num) (by norm_num) (by norm_num)
    (Or.inl (by norm_num)) (by norm_num) (by norm_num) (by norm_num) (by norm_num)
  obtain ⟨hTqL, hTqH⟩ := NumBounds.div_mem (42592491/500000000 : ℝ) (85185779/1000000000 : ℝ) sBL sBH cBL cBH
    (by norm_num)
    (by norm_num) (by norm_num) (by norm_num) (by norm_num)
    (by norm_num) (by norm_num) (by norm_num) (by norm_num)
  have hTbL : (42592491/500000000 : ℝ) ≤ Real.tan (Lunar._latitude u) := by
    rw [Real.tan_eq_sin_div_cos]
    exact hTqL
  have hTbH : Real.tan (Lunar._latitude u) ≤ (85185779/1000000000 : ℝ) := by
    rw [Real.tan_eq_sin_div_cos]
    exact hTqH
  have hEeq : Lunar._obliquity u = (7813/60000 : ℝ) * Real.pi + (-1/500000000 : ℝ) * (Real.pi * u) := by
    unfold Lunar._obliquity Lunar.E0 Lunar.E1 Lunar.RAD
    ring
  have hUsE : (409018469/1000000000 : ℝ) ≤ Lunar._obliquity u ∧ Lunar._obliquity u ≤ (40901847/100000000 : ℝ) := by
    rw [hEeq]
    constructor <;> linarith only [Real.pi_gt_d20, Real.pi_lt_d20, hpuL, hpuH]
  obtain ⟨hpsEL, hpsEH⟩ := NumBounds.sin_poly_mem (19885431/50000000 : ℝ) (49713661/125000000 : ℝ)
    hUsE.1 hUsE.2 (by norm_num) (by norm_num) (by norm_num) (by norm_num)
  have sEL : (19885431/50000000 : ℝ) ≤ Real.sin (Lunar._obliquity u) := hpsEL
  have sEH : Real.sin (Lunar._obliquity u) ≤ (49713661/125000000 : ℝ) := hpsEH
  have hUcE : (409018469/1000000000 : ℝ) ≤ Lunar._obliquity u ∧ Lunar._obliquity u ≤ (40901847/100000000 : ℝ) := by
    rw [hEeq]
    constructor <;> linarith only [Real.pi_gt_d20, Real.pi_lt_d20, hpuL, hpuH]
  obtain ⟨hpcEL, hpcEH⟩ := NumBounds.cos_poly_mem (458755647/500000000 : ℝ) (458755981/500000000 : ℝ) (409018469/1000000000 : ℝ) (40901847/100000000 : ℝ)
    hUcE.1 hUcE.2 (by norm_num) (by norm_num) (by norm_num)
    (Or.inl (by norm_num)) (by norm_num) (by norm_num) (by norm_num) (by norm_num)
  have cEL : (458755647/500000000 : ℝ) ≤ Real.cos (Lunar._obliquity u) := hpcEL
  have cEH : Real.cos (Lunar._obliquity u) ≤ (458755981/500000000 : ℝ) := hpcEH
  have hMeq : Lunar._mean_anomaly u = (134963/180000 : ℝ) * Real.pi + (13064993/180000000 : ℝ) * (Real.pi * u) := by
    unfold Lunar._mean_anomaly Lunar.M0 Lunar.M1 Lunar.RAD
    ring
  have hUeqsM : Lunar._mean_anomaly u - ((400 : ℤ) : ℝ) * (2 * Real.pi) - Real.pi = (-144045037/180000 : ℝ) * Real.pi + (13064993/180000000 : ℝ) * (Real.pi * u) := by
    rw [hMeq]
    push_cast
    ring
  have hUsM : (-362839809/500000000 : ℝ) ≤ Lunar._mean_anomaly u - ((400 : ℤ) : ℝ) * (2 * Real.pi) - Real.pi ∧ Lunar._mean_anomaly u - ((400 : ℤ) : ℝ) * (2 * Real.pi) - Real.pi ≤ (-725679431/1000000000 : ℝ) := by
    rw [hUeqsM]
    constructor <;> linarith only [Real.pi_gt_d20, Real.pi_lt_d20, hpuL, hpuH]
  obtain ⟨hpsML, hpsMH⟩ := NumBounds.sin_poly_mem (-663644367/1000000000 : ℝ) (-663643461/1000000000 : ℝ)
    hUsM.1 hUsM.2 (by norm_num) (by norm_num) (by norm_num) (by norm_num)
  have hidsM : Real.sin (Lunar._mean_anomaly u) = -Real.sin (Lunar._mean_anomaly u - ((400 : ℤ) : ℝ) * (2 * Real.pi) - Real.pi) := by
    rw [NumBounds.sin_reduce (Lunar._mean_anomaly u) 400]
    rw [NumBounds.sin_shift2 (Lunar._mean_anomaly u - ((400 : ℤ) : ℝ) * (2 * Real.pi))]
  have sML : (663643461/1000000000 : ℝ) ≤ Real.sin (Lunar._mean_anomaly u) := by
    rw [hidsM]
    linarith only [hpsML, hpsMH]
  have sMH : Real.sin (Lunar._mean_anomaly u) ≤ (663644367/1000000000 : ℝ) := by
    rw [hidsM]
    linarith only [hpsML, hpsMH]
  obtain ⟨hpsL, hpsH⟩ := NumBounds.mul_mem (2084897421/1000000000 : ℝ) (521225067/250000000 : ℝ)
    (by linarith only [Real.pi_gt_d20] : (157079632679489661923/50000000000000000000 : ℝ) ≤ Real.pi) (by linarith only [Real.pi_lt_d20] : Real.pi ≤ (314159265358979323847/100000000000000000000 : ℝ)) sML sMH
    (by norm_num) (by norm_num) (by norm_num) (by norm_num)
    (by norm_num) (by norm_num) (by norm_num) (by norm_num)
  have hLeq : Lunar._longitude u = (18193/15000 : ℝ) * Real.pi + (366011/5000000 : ℝ) * (Real.pi * u) +
      (6289/180000 : ℝ) * (Real.pi * Real.sin (Lunar._mean_anomaly u)) := by
    unfold Lunar._longitude Lunar._ecliptic_equinox_longitude Lunar.Q0 Lunar.Q1 Lunar.L0 Lunar.RAD
    ring
  have hUeqsLam : Lunar._longitude u - ((404 : ℤ) : ℝ) * (2 * Real.pi) = (-12101807/15000 : ℝ) * Real.pi + (366011/5000000 : ℝ) * (Real.pi * u) + (6289/180000 : ℝ) * (Real.pi * Real.sin (Lunar._mean_anomaly u)) := by
    rw [hLeq]
    push_cast
    ring
  have hUsLam : (120790477/500000000 : ℝ) ≤ Lunar._longitude u - ((404 : ℤ) : ℝ) * (2 * Real.pi) ∧ Lunar._longitude u - ((404 : ℤ) : ℝ) * (2 * Real.pi) ≤ (120790621/500000000 : ℝ) := by
    rw [hUeqsLam]
    constructor <;> linarith only [Real.pi_gt_d20, Real.pi_lt_d20, hpuL, hpuH, hpsL, hpsH]
  obtain ⟨hpsLamL, hpsLamH⟩ := NumBounds.sin_poly_mem (239237627/1000000000 : ℝ) (239238591/1000000000 : ℝ)
    hUsLam.1 hUsLam.2 (by norm_num) (by norm_num) (by norm_num) (by norm_num)
  have hidsLam : Real.sin (Lunar._longitude u) = Real.sin (Lunar._longitude u - ((404 : ℤ) : ℝ) * (2 * Real.pi)) := by
    rw [NumBounds.sin_reduce (Lunar._longitude u) 404]
  have sLamL : (239237627/1000000000 : ℝ) ≤ Real.sin (Lunar._longitude u) := by
    rw [hidsLam]
    linarith only [hpsLamL, hpsLamH]
  have sLamH : Real.sin (Lunar._longitude u) ≤ (239238591/1000000000 : ℝ) := by
    rw [hidsLam]
    linarith only [hpsLamL, hpsLamH]
  have hUeqcLam : Lunar._longitude u - ((404 : ℤ) : ℝ) * (2 * Real.pi) = (-12101807/15000 : ℝ) * Real.pi + (366011/5000000 : ℝ) * (Real.pi * u) + (6289/180000 : ℝ) * (Real.pi * Real.sin (Lunar._mean_anomaly u)) := by
    rw [hLeq]
    push_cast
    ring
  have hUcLam : (120790477/500000000 : ℝ) ≤ Lunar._longitude u - ((404 : ℤ) : ℝ) * (2 * Real.pi) ∧ Lunar._longitude u - ((404 : ℤ) : ℝ) * (2 * Real.pi) ≤ (120790621/500000000 : ℝ) := by
    rw [hUeqcLam]
    constructor <;> linarith only [Real.pi_gt_d20, Real.pi_lt_d20, hpuL, hpuH, hpsL, hpsH]
  obtain ⟨hpcLamL, hpcLamH⟩ := NumBounds.cos_poly_mem (970960561/1000000000 : ℝ) (970961299/1000000000 : ℝ) (120790477/500000000 : ℝ) (120790621/500000000 : ℝ)
    hUcLam.1 hUcLam.2 (by norm_num) (by norm_num) (by norm_num)
    (Or.inl (by norm_num)) (by norm_num) (by norm_num) (by norm_num) (by norm_num)
  have hidcLam : Real.cos (Lunar._longitude u) = Real.cos (Lunar._longitude u - ((404 : ℤ) : ℝ) * (2 * Real.pi)) := by
    rw [NumBounds.cos_reduce (Lunar._longitude u) 404]
  have cLamL : (970960561/1000000000 : ℝ) ≤ Real.cos (Lunar._longitude u) := by
    rw [hidcLam]
    linarith only [hpcLamL, hpcLamH]
  have cLamH : Real.cos (Lunar._longitude u) ≤ (970961299/1000000000 : ℝ) := by
    rw [hidcLam]
    linarith only [hpcLamL, hpcLamH]
  obtain ⟨hpAL, hpAH⟩ := NumBounds.mul_mem (27437903/125000000 : ℝ) (21950427/100000000 : ℝ)
    sLamL sLamH cEL cEH
    (by norm_num) (by norm_num) (by norm_num) (by norm_num)
    (by norm_num) (by norm_num) (by norm_num) (by norm_num)
  obtain ⟨hpBL, hpBH⟩ := NumBounds.mul_mem (33878801/1000000000 : ℝ) (4234897/125000000 : ℝ)
    hTbL hTbH sEL sEH
    (by norm_num) (by norm_num) (by norm_num) (by norm_num)
    (by norm_num) (by norm_num) (by norm_num) (by norm_num)
  have hyL : (11601503/62500000 : ℝ) ≤ Real.sin (Lunar._longitude u) * Real.cos (Lunar._obliquity u) - Real.tan (Lunar._latitude u) * Real.sin (Lunar._obliquity u) := by
    linarith only [hpAL, hpBH]
  have hyH : Real.sin (Lunar._longitude u) * Real.cos (Lunar._obliquity u) - Real.tan (Lunar._latitude u) * Real.sin (Lunar._obliquity u) ≤ (185625469/1000000000 : ℝ) := by
    linarith only [hpAH, hpBL]
  have hxpos : 0 < Real.cos (Lunar._longitude u) := by
    linarith only [cLamL]
  have hRA : Lunar._right_ascension u = Real.arctan ((Real.sin (Lunar._longitude u) * Real.cos (Lunar._obliquity u) - Real.tan (Lunar._latitude u) * Real.sin (Lunar._obliquity u)) / Real.cos (Lunar._longitude u)) := by
    unfold Lunar._right_ascension Lunar._right_ascension_direct Lunar.atan2
    rw [if_pos hxpos]
  obtain ⟨salL, salH⟩ := NumBounds.sin_poly_mem (11735789/62500000 : ℝ) (46943323/250000000 : ℝ)
    (le_refl (4722357/25000000 : ℝ)) (le_refl (4722357/25000000 : ℝ)) (by norm_num) (by norm_num) (by norm_num) (by norm_num)
  obtain ⟨calL, calH⟩ := NumBounds.cos_poly_mem (491106063/500000000 : ℝ) (491106397/500000000 : ℝ) (4722357/25000000 : ℝ) (4722357/25000000 : ℝ)
    (le_refl (4722357/25000000 : ℝ)) (le_refl (4722357/25000000 : ℝ)) (by norm_num) (by norm_num) (by norm_num)
    (Or.inl (by norm_num)) (by norm_num) (by norm_num) (by norm_num) (by norm_num)
  obtain ⟨sauL, sauH⟩ := NumBounds.sin_poly_mem (93889039/500000000 : ℝ) (93889373/500000000 : ℝ)
    (le_refl (188899833/1000000000 : ℝ)) (le_refl (188899833/1000000000 : ℝ)) (by norm_num) (by norm_num) (by norm_num) (by norm_num)
  obtain ⟨cauL, cauH⟩ := NumBounds.cos_poly_mem (982211083/1000000000 : ℝ) (982211751/1000000000 : ℝ) (188899833/1000000000 : ℝ) (188899833/1000000000 : ℝ)
    (le_refl (188899833/1000000000 : ℝ)) (le_refl (188899833/1000000000 : ℝ)) (by norm_num) (by norm_num) (by norm_num)
    (Or.inl (by norm_num)) (by norm_num) (by norm_num) (by norm_num) (by norm_num)
  obtain ⟨hm1L, hm1H⟩ := NumBounds.mul_mem (45579953/250000000 : ℝ) (911603/5000000 : ℝ)
    salL salH cLamL cLamH
    (by norm_num) (by norm_num) (by norm_num) (by norm_num)
    (by norm_num) (by norm_num) (by norm_num) (by norm_num)
  obtain ⟨hm2L, hm2H⟩ := NumBounds.mul_mem (18232219/100000000 : ℝ) (182323711/1000000000 : ℝ)
    calL calH hyL hyH
    (by norm_num) (by norm_num) (by norm_num) (by norm_num)
    (by norm_num) (by norm_num) (by norm_num) (by norm_num)
  have hraL : (4722357/25000000 : ℝ) < Lunar._right_ascension u := by
    rw [hRA]
    exact NumBounds.arctan_gt_of (4722357/25000000 : ℝ) hxpos (by linarith only [calL])
      (by linarith only [Real.pi_gt_three]) (by linarith only [Real.pi_gt_three])
      (by linarith only [hm1H, hm2L])
  obtain ⟨hm3L, hm3H⟩ := NumBounds.mul_mem (182321997/1000000000 : ℝ) (182323517/1000000000 : ℝ)
    cauL cauH hyL hyH
    (by norm_num) (by norm_num) (by norm_num) (by norm_num)
    (by norm_num) (by norm_num) (by norm_num) (by norm_num)
  obtain ⟨hm4L, hm4H⟩ := NumBounds.mul_mem (182325107/1000000000 : ℝ) (22790737/125000000 : ℝ)
    sauL sauH cLamL cLamH
    (by norm_num) (by norm_num) (by norm_num) (by norm_num)
    (by norm_num) (by norm_num) (by norm_num) (by norm_num)
  have hraH : Lunar._right_ascension u < (188899833/1000000000 : ℝ) := by
    rw [hRA]
    exact NumBounds.arctan_lt_of (188899833/1000000000 : ℝ) hxpos (by linarith only [cauL])
      (by linarith only [Real.pi_gt_three]) (by linarith only [Real.pi_gt_three])
      (by linarith only [hm3H, hm4L])
  have hlr : Lunar.limit_angle (Lunar._right_ascension u) =
      Lunar._right_ascension u - ((0 : ℤ) : ℝ) * (2 * Real.pi) :=
    NumBounds.limit_angle_int 0
      (by push_cast; linarith only [hraL, Real.pi_gt_d20, Real.pi_lt_d20])
      (by push_cast; linarith only [hraH, Real.pi_gt_d20, Real.pi_lt_d20])
  have hsv0 : 0 ≤ Lunar.siderealLocal u (-6/25 : ℝ) := by
    linarith only [hSvL]
  have hsv1 : Lunar.siderealLocal u (-6/25 : ℝ) < 2 * Real.pi := by
    linarith only [hSvH, Real.pi_gt_d20]
  have hHAeq : Lunar._hour_angle u (-6/25 : ℝ) =
      Lunar.siderealLocal u (-6/25 : ℝ) -
        (Lunar._right_ascension u - ((0 : ℤ) : ℝ) * (2 * Real.pi)) := by
    unfold Lunar._hour_angle Lunar._hour_angle_direct
    rw [Lunar.limit_angle_eq_self hsv0 hsv1, hlr]
  constructor
  · rw [hHAeq]
    push_cast
    linarith only [hSvL, hraH, Real.pi_gt_d20, Real.pi_lt_d20]
  · rw [hHAeq]
    push_cast
    linarith only [hSvH, hraL, Real.pi_gt_d20, Real.pi_lt_d20]

/-- Hour-angle enclosure for refinement step 2 of the fallback (query-instant) transit search of the out-of-window example. -/
theorem c2_ha_t2 {u : ℝ} (huL : (68888208349/6250000 : ℝ) ≤ u) (huH : u ≤ (11022113338349/1000000000 : ℝ)) :
    (-5234387/1000000000 : ℝ) ≤ Lunar._hour_angle u (-6/25 : ℝ) ∧ Lunar._hour_angle u (-6/25 : ℝ) ≤ (-5212573/1000000000 : ℝ) := by
  obtain ⟨hpuL, hpuH⟩ := NumBounds.mul_mem (34626990282909/1000000000 : ℝ) (4328373786349/125000000 : ℝ)
    (by linarith only [Real.pi_gt_d20] : (157079632679489661923/50000000000000000000 : ℝ) ≤ Real.pi) (by linarith only [Real.pi_lt_d20] : Real.pi ≤ (314159265358979323847/100000000000000000000 : ℝ)) huL huH
    (by norm_num) (by norm_num) (by norm_num) (by norm_num)
    (by norm_num) (by norm_num) (by norm_num) (by norm_num)
  have hGeq : (280.1470 + 360.9856235 * u) * Lunar.RAD + (-6/25 : ℝ) =
      (280147/180000 : ℝ) * Real.pi + (721971247/360000000 : ℝ) * (Real.pi * u) + (-6/25 : ℝ) := by
    unfold Lunar.RAD
    ring
  have hS : Lunar.siderealLocal u (-6/25 : ℝ) =
      (280.1470 + 360.9856235 * u) * Lunar.RAD + (-6/25 : ℝ) -
        ((11053 : ℤ) : ℝ) * (2 * Real.pi) := by
    unfold Lunar.siderealLocal
    exact NumBounds.limit_angle_int 11053
      (by rw [hGeq]; push_cast; linarith only [Real.pi_gt_d20, Real.pi_lt_d20, hpuL, hpuH])
      (by rw [hGeq]; push_cast; linarith only [Real.pi_gt_d20, Real.pi_lt_d20, hpuL, hpuH])
  have hSvL : (189382863/1000000000 : ℝ) ≤ Lunar.siderealLocal u (-6/25 : ℝ) := by
    rw [hS, hGeq]
    push_cast
    linarith only [Real.pi_gt_d20, Real.pi_lt_d20, hpuL, hpuH]
  have hSvH : Lunar.siderealLocal u (-6/25 : ℝ) ≤ (94699337/500000000 : ℝ) := by
    rw [hS, hGeq]
    push_cast
    linarith only [Real.pi_gt_d20, Real.pi_lt_d20, hpuL, hpuH]
  have hFeq : Lunar._mean_distance u = (11659/22500 : ℝ) * Real.pi + (264587/3600000 : ℝ) * (Real.pi * u) := by
    unfold Lunar._mean_distance Lunar.F0 Lunar.F1 Lunar.RAD
    ring
  have hUeqsF : Lunar._mean_distance u - ((405 : ℤ) : ℝ) * (2 * Real.pi) - Real.pi / 2 = (-18224591/22500 : ℝ) * Real.pi + (264587/3600000 : ℝ) * (Real.pi * u) := by
    rw [hFeq]
    push_cast
    ring
  have hUsF : (325801649/1000000000 : ℝ) ≤ Lunar._mean_distance u - ((405 : ℤ) : ℝ) * (2 * Real.pi) - Real.pi / 2 ∧ Lunar._mean_distance u - ((405 : ℤ) : ℝ) * (2 * Real.pi) - Real.pi / 2 ≤ (32580223/100000000 : ℝ) := by
    rw [hUeqsF]
    constructor <;> linarith only [Real.pi_gt_d20, Real.pi_lt_d20, hpuL, hpuH]
  obtain ⟨hpsFL, hpsFH⟩ := NumBounds.cos_poly_mem (37895757/40000000 : ℝ) (473697393/500000000 : ℝ) (325801649/1000000000 : ℝ) (32580223/100000000 : ℝ)
    hUsF.1 hUsF.2 (by norm_num) (by norm_num) (by norm_num)
    (Or.inl (by norm_num)) (by norm_num) (by norm_num) (by norm_num) (by norm_num)
  have hidsF : Real.sin (Lunar._mean_distance u) = Real.cos (Lunar._mean_distance u - ((405 : ℤ) : ℝ) * (2 * Real.pi) - Real.pi / 2) := by
    rw [NumBounds.sin_reduce (Lunar._mean_distance u) 405]
    rw [NumBounds.sin_shift1 (Lunar._mean_distance u - ((405 : ℤ) : ℝ) * (2 * Real.pi))]
  have sFL : (37895757/40000000 : ℝ) ≤ Real.sin (Lunar._mean_distance u) := by
    rw [hidsF]
    linarith only [hpsFL, hpsFH]
  have sFH : Real.sin (Lunar._mean_distance u) ≤ (473697393/500000000 : ℝ) := by
    rw [hidsF]
    linarith only [hpsFL, hpsFH]
  have hBeq : Lunar._latitude u = (641/22500 : ℝ) * Real.pi * Real.sin (Lunar._mean_distance u) := by
    unfold Lunar._latitude Lunar.L1 Lunar.RAD
    ring
  obtain ⟨hBpL, hBpH⟩ := NumBounds.mul_mem (42396107/500000000 : ℝ) (21198073/250000000 : ℝ)
    (by linarith only [Real.pi_gt_d20] : (100688044547552873292643/1125000000000000000000000 : ℝ) ≤ (641/22500 : ℝ) * Real.pi)
    (by linarith only [Real.pi_lt_d20] : (641/22500 : ℝ) * Real.pi ≤ (201376089095105746585927/2250000000000000000000000 : ℝ))
    sFL sFH
    (by norm_num) (by norm_num) (by norm_num) (by norm_num)
    (by norm_num) (by norm_num) (by norm_num) (by norm_num)
  have hBL : (42396107/500000000 : ℝ) ≤ Lunar._latitude u := by
    rw [hBeq]
    exact hBpL
  have hBH : Lunar._latitude u ≤ (21198073/250000000 : ℝ) := by
    rw [hBeq]
    exact hBpH
  obtain ⟨sBL, sBH⟩ := NumBounds.sin_poly_mem (84690311/1000000000 : ℝ) (84691057/1000000000 : ℝ)
    hBL hBH (by norm_num) (by norm_num) (by norm_num) (by norm_num)
  obtain ⟨cBL, cBH⟩ := NumBounds.cos_poly_mem (996406953/1000000000 : ℝ) (996407627/1000000000 : ℝ) (42396107/500000000 : ℝ) (21198073/250000000 : ℝ)
    hBL hBH (by norm_num) (by norm_num) (by norm_num)
    (Or.inl (by norm_num)) (by norm_num) (by norm_num) (by norm_num) (by norm_num)
  obtain ⟨hTqL, hTqH⟩ := NumBounds.div_mem (84995647/1000000000 : ℝ) (42498227/500000000 : ℝ) sBL sBH cBL cBH
    (by norm_num)
    (by norm_num) (by norm_num) (by norm_num) (by norm_num)
    (by norm_num) (by norm_num) (by norm_num) (by norm_num)
  have hTbL : (84995647/1000000000 : ℝ) ≤ Real.tan (Lunar._latitude u) := by
    rw [Real.tan_eq_sin_div_cos]
    exact hTqL
  have hTbH : Real.tan (Lunar._latitude u) ≤ (42498227/500000000 : ℝ) := by
    rw [Real.tan_eq_sin_div_cos]
    exact hTqH
  have hEeq : Lunar._obliquity u = (7813/60000 : ℝ) * Real.pi + (-1/500000000 : ℝ) * (Real.pi * u) := by
    unfold Lunar._obliquity Lunar.E0 Lunar.E1 Lunar.RAD
    ring
  have hUsE : (409018469/1000000000 : ℝ) ≤ Lunar._obliquity u ∧ Lunar._obliquity u ≤ (40901847/100000000 : ℝ) := by
    rw [hEeq]
    constructor <;> linarith only [Real.pi_gt_d20, Real.pi_lt_d20, hpuL, hpuH]
  obtain ⟨hpsEL, hpsEH⟩ := NumBounds.sin_poly_mem (19885431/50000000 : ℝ) (49713661/125000000 : ℝ)
    hUsE.1 hUsE.2 (by norm_num) (by norm_num) (by norm_num) (by norm_num)
  have sEL : (19885431/50000000 : ℝ) ≤ Real.sin (Lunar._obliquity u) := hpsEL
  have sEH : Real.sin (Lunar._obliquity u) ≤ (49713661/125000000 : ℝ) := hpsEH
  have hUcE : (409018469/1000000000 : ℝ) ≤ Lunar._obliquity u ∧ Lunar._obliquity u ≤ (40901847/100000000 : ℝ) := by
    rw [hEeq]
    constructor <;> linarith only [Real.pi_gt_d20, Real.pi_lt_d20, hpuL, hpuH]
  obtain ⟨hpcEL, hpcEH⟩ := NumBounds.cos_poly_mem (458755647/500000000 : ℝ) (458755981/500000000 : ℝ) (409018469/1000000000 : ℝ) (40901847/100000000 : ℝ)
    hUcE.1 hUcE.2 (by norm_num) (by norm_num) (by norm_num)
    (Or.inl (by norm_num)) (by norm_num) (by norm_num) (by norm_num) (by norm_num)
  have cEL : (458755647/500000000 : ℝ) ≤ Real.cos (Lunar._obliquity u) := hpcEL
  have cEH : Real.cos (Lunar._obliquity u) ≤ (458755981/500000000 : ℝ) := hpcEH
  have hMeq : Lunar._mean_anomaly u = (134963/180000 : ℝ) * Real.pi + (13064993/180000000 : ℝ) * (Real.pi * u) := by
    unfold Lunar._mean_anomaly Lunar.M0 Lunar.M1 Lunar.RAD
    ring
  have hUeqsM : Lunar._mean_anomaly u - ((400 : ℤ) : ℝ) * (2 * Real.pi) - Real.pi = (-144045037/180000 : ℝ) * Real.pi + (13064993/180000000 : ℝ) * (Real.pi * u) := by
    rw [hMeq]
    push_cast
    ring
  have hUsM : (-719135379/1000000000 : ℝ) ≤ Lunar._mean_anomaly u - ((400 : ℤ) : ℝ) * (2 * Real.pi) - Real.pi ∧ Lunar._mean_anomaly u - ((400 : ℤ) : ℝ) * (2 * Real.pi) - Real.pi ≤ (-143826961/200000000 : ℝ) := by
    rw [hUeqsM]
    constructor <;> linarith only [Real.pi_gt_d20, Real.pi_lt_d20, hpuL, hpuH]
  obtain ⟨hpsML, hpsMH⟩ := NumBounds.sin_poly_mem (-329367441/500000000 : ℝ) (-131746697/200000000 : ℝ)
    hUsM.1 hUsM.2 (by norm_num) (by norm_num) (by norm_num) (by norm_num)
  have hidsM : Real.sin (Lunar._mean_anomaly u) = -Real.sin (Lunar._mean_anomaly u - ((400 : ℤ) : ℝ) * (2 * Real.pi) - Real.pi) := by
    rw [NumBounds.sin_reduce (Lunar._mean_anomaly u) 400]
    rw [NumBounds.sin_shift2 (Lunar._mean_anomaly u - ((400 : ℤ) : ℝ) * (2 * Real.pi))]
  have sML : (131746697/200000000 : ℝ) ≤ Real.sin (Lunar._mean_anomaly u) := by
    rw [hidsM]
    linarith only [hpsML, hpsMH]
  have sMH : Real.sin (Lunar._mean_anomaly u) ≤ (329367441/500000000 : ℝ) := by
    rw [hidsM]
    linarith only [hpsML, hpsMH]
  obtain ⟨hpsL, hpsH⟩ := NumBounds.mul_mem (2069472277/1000000000 : ℝ) (1034738333/500000000 : ℝ)
    (by linarith only [Real.pi_gt_d20] : (157079632679489661923/50000000000000000000 : ℝ) ≤ Real.pi) (by linarith only [Real.pi_lt_d20] : Real.pi ≤ (314159265358979323847/100000000000000000000 : ℝ)) sML sMH
    (by norm_num) (by norm_num) (by norm_num) (by norm_num)
    (by norm_num) (by norm_num) (by norm_num) (by norm_num)
  have hLeq : Lunar._longitude u = (18193/15000 : ℝ) * Real.pi + (366011/5000000 : ℝ) * (Real.pi * u) +
      (6289/180000 : ℝ) * (Real.pi * Real.sin (Lunar._mean_anomaly u)) := by
    unfold Lunar._longitude Lunar._ecliptic_equinox_longitude Lunar.Q0 Lunar.Q1 Lunar.L0 Lunar.RAD
    ring
  have hUeqsLam : Lunar._longitude u - ((404 : ℤ) : ℝ) * (2 * Real.pi) = (-12101807/15000 : ℝ) * Real.pi + (366011/5000000 : ℝ) * (Real.pi * u) + (6289/180000 : ℝ) * (Real.pi * Real.sin (Lunar._mean_anomaly u)) := by
    rw [hLeq]
    push_cast
    ring
  have hUsLam : (123821029/500000000 : ℝ) ≤ Lunar._longitude u - ((404 : ℤ) : ℝ) * (2 * Real.pi) ∧ Lunar._longitude u - ((404 : ℤ) : ℝ) * (2 * Real.pi) ≤ (24764279/100000000 : ℝ) := by
    rw [hUeqsLam]
    constructor <;> linarith only [Real.pi_gt_d20, Real.pi_lt_d20, hpuL, hpuH, hpsL, hpsH]
  obtain ⟨hpsLamL, hpsLamH⟩ := NumBounds.sin_poly_mem (122559139/500000000 : ℝ) (2451197/10000000 : ℝ)
    hUsLam.1 hUsLam.2 (by norm_num) (by norm_num) (by norm_num) (by norm_num)
  have hidsLam : Real.sin (Lunar._longitude u) = Real.sin (Lunar._longitude u - ((404 : ℤ) : ℝ) * (2 * Real.pi)) := by
    rw [NumBounds.sin_reduce (Lunar._longitude u) 404]
  have sLamL : (122559139/500000000 : ℝ) ≤ Real.sin (Lunar._longitude u) := by
    rw [hidsLam]
    linarith only [hpsLamL, hpsLamH]
  have sLamH : Real.sin (Lunar._longitude u) ≤ (2451197/10000000 : ℝ) := by
    rw [hidsLam]
    linarith only [hpsLamL, hpsLamH]
  have hUeqcLam : Lunar._longitude u - ((404 : ℤ) : ℝ) * (2 * Real.pi) = (-12101807/15000 : ℝ) * Real.pi + (366011/5000000 : ℝ) * (Real.pi * u) + (6289/180000 : ℝ) * (Real.pi * Real.sin (Lunar._mean_anomaly u)) := by
    rw [hLeq]
    push_cast
    ring
  have hUcLam : (123821029/500000000 : ℝ) ≤ Lunar._longitude u - ((404 : ℤ) : ℝ) * (2 * Real.pi) ∧ Lunar._longitude u - ((404 : ℤ) : ℝ) * (2 * Real.pi) ≤ (24764279/100000000 : ℝ) := by
    rw [hUeqcLam]
    constructor <;> linarith only [Real.pi_gt_d20, Real.pi_lt_d20, hpuL, hpuH, hpsL, hpsH]
  obtain ⟨hpcLamL, hpcLamH⟩ := NumBounds.cos_poly_mem (969492577/1000000000 : ℝ) (242373357/250000000 : ℝ) (123821029/500000000 : ℝ) (24764279/100000000 : ℝ)
    hUcLam.1 hUcLam.2 (by norm_num) (by norm_num) (by norm_num)
    (Or.inl (by norm_num)) (by norm_num) (by norm_num) (by norm_num) (by norm_num)
  have hidcLam : Real.cos (Lunar._longitude u) = Real.cos (Lunar._longitude u - ((404 : ℤ) : ℝ) * (2 * Real.pi)) := by
    rw [NumBounds.cos_reduce (Lunar._longitude u) 404]
  have cLamL : (969492577/1000000000 : ℝ) ≤ Real.cos (Lunar._longitude u) := by
    rw [hidcLam]
    linarith only [hpcLamL, hpcLamH]
  have cLamH : Real.cos (Lunar._longitude u) ≤ (242373357/250000000 : ℝ) := by
    rw [hidcLam]
    linarith only [hpcLamL, hpcLamH]
  obtain ⟨hpAL, hpAH⟩ := NumBounds.mul_mem (56224697/250000000 : ℝ) (224900257/1000000000 : ℝ)
    sLamL sLamH cEL cEH
    (by norm_num) (by norm_num) (by norm_num) (by norm_num)
    (by norm_num) (by norm_num) (by norm_num) (by norm_num)
  obtain ⟨hpBL, hpBH⟩ := NumBounds.mul_mem (33803501/1000000000 : ℝ) (845097/25000000 : ℝ)
    hTbL hTbH sEL sEH
    (by norm_num) (by norm_num) (by norm_num) (by norm_num)
    (by norm_num) (by norm_num) (by norm_num) (by norm_num)
  have hyL : (47773727/250000000 : ℝ) ≤ Real.sin (Lunar._longitude u) * Real.cos (Lunar._obliquity u) - Real.tan (Lunar._latitude u) * Real.sin (Lunar._obliquity u) := by
    linarith only [hpAL, hpBH]
  have hyH : Real.sin (Lunar._longitude u) * Real.cos (Lunar._obliquity u) - Real.tan (Lunar._latitude u) * Real.sin (Lunar._obliquity u) ≤ (47774189/250000000 : ℝ) := by
    linarith only [hpAH, hpBL]
  have hxpos : 0 < Real.cos (Lunar._longitude u) := by
    linarith only [cLamL]
  have hRA : Lunar._right_ascension u = Real.arctan ((Real.sin (Lunar._longitude u) * Real.cos (Lunar._obliquity u) - Real.tan (Lunar._latitude u) * Real.sin (Lunar._obliquity u)) / Real.cos (Lunar._longitude u)) := by
    unfold Lunar._right_ascension Lunar._right_ascension_direct Lunar.atan2
    rw [if_pos hxpos]
  obtain ⟨salL, salH⟩ := NumBounds.sin_poly_mem (193384801/1000000000 : ℝ) (193385469/1000000000 : ℝ)
    (le_refl (194611247/1000000000 : ℝ)) (le_refl (194611247/1000000000 : ℝ)) (by norm_num) (by norm_num) (by norm_num) (by norm_num)
  obtain ⟨calL, calH⟩ := NumBounds.cos_poly_mem (981122589/1000000000 : ℝ) (981123257/1000000000 : ℝ) (194611247/1000000000 : ℝ) (194611247/1000000000 : ℝ)
    (le_refl (194611247/1000000000 : ℝ)) (le_refl (194611247/1000000000 : ℝ)) (by norm_num) (by norm_num) (by norm_num)
    (Or.inl (by norm_num)) (by norm_num) (by norm_num) (by norm_num) (by norm_num)
  obtain ⟨sauL, sauH⟩ := NumBounds.sin_poly_mem (193390691/1000000000 : ℝ) (193391359/1000000000 : ℝ)
    (le_refl (778469/4000000 : ℝ)) (le_refl (778469/4000000 : ℝ)) (by norm_num) (by norm_num) (by norm_num) (by norm_num)
  obtain ⟨cauL, cauH⟩ := NumBounds.cos_poly_mem (245280357/250000000 : ℝ) (61320131/62500000 : ℝ) (778469/4000000 : ℝ) (778469/4000000 : ℝ)
    (le_refl (778469/4000000 : ℝ)) (le_refl (778469/4000000 : ℝ)) (by norm_num) (by norm_num) (by norm_num)
    (Or.inl (by norm_num)) (by norm_num) (by norm_num) (by norm_num) (by norm_num)
  obtain ⟨hm1L, hm1H⟩ := NumBounds.mul_mem (187485129/1000000000 : ℝ) (93742971/500000000 : ℝ)
    salL salH cLamL cLamH
    (by norm_num) (by norm_num) (by norm_num) (by norm_num)
    (by norm_num) (by norm_num) (by norm_num) (by norm_num)
  obtain ⟨hm2L, hm2H⟩ := NumBounds.mul_mem (18748753/100000000 : ℝ) (2929523/15625000 : ℝ)
    calL calH hyL hyH
    (by norm_num) (by norm_num) (by norm_num) (by norm_num)
    (by norm_num) (by norm_num) (by norm_num) (by norm_num)
  have hraL : (194611247/1000000000 : ℝ) < Lunar._right_ascension u := by
    rw [hRA]
    exact NumBounds.arctan_gt_of (194611247/1000000000 : ℝ) hxpos (by linarith only [calL])
      (by linarith only [Real.pi_gt_three]) (by linarith only [Real.pi_gt_three])
      (by linarith only [hm1H, hm2L])
  obtain ⟨hm3L, hm3H⟩ := NumBounds.mul_mem (187487309/1000000000 : ℝ) (749957/4000000 : ℝ)
    cauL cauH hyL hyH
    (by norm_num) (by norm_num) (by norm_num) (by norm_num)
    (by norm_num) (by norm_num) (by norm_num) (by norm_num)
  obtain ⟨hm4L, hm4H⟩ := NumBounds.mul_mem (187490839/1000000000 : ℝ) (46872913/250000000 : ℝ)
    sauL sauH cLamL cLamH
    (by norm_num) (by norm_num) (by norm_num) (by norm_num)
    (by norm_num) (by norm_num) (by norm_num) (by norm_num)
  have hraH : Lunar._right_ascension u < (778469/4000000 : ℝ) := by
    rw [hRA]
    exact NumBounds.arctan_lt_of (778469/4000000 : ℝ) hxpos (by linarith only [cauL])
      (by linarith only [Real.pi_gt_three]) (by linarith only [Real.pi_gt_three])
      (by linarith only [hm3H, hm4L])
  have hlr : Lunar.limit_angle (Lunar._right_ascension u) =
      Lunar._right_ascension u - ((0 : ℤ) : ℝ) * (2 * Real.pi) :=
    NumBounds.limit_angle_int 0
      (by push_cast; linarith only [hraL, Real.pi_gt_d20, Real.pi_lt_d20])
      (by push_cast; linarith only [hraH, Real.pi_gt_d20, Real.pi_lt_d20])
  have hsv0 : 0 ≤ Lunar.siderealLocal u (-6/25 : ℝ) := by
    linarith only [hSvL]
  have hsv1 : Lunar.siderealLocal u (-6/25 : ℝ) < 2 * Real.pi := by
    linarith only [hSvH, Real.pi_gt_d20]
  have hHAeq : Lunar._hour_angle u (-6/25 : ℝ) =
      Lunar.siderealLocal u (-6/25 : ℝ) -
        (Lunar._right_ascension u - ((0 : ℤ) : ℝ) * (2 * Real.pi)) := by
    unfold Lunar._hour_angle Lunar._hour_angle_direct
    rw [Lunar.limit_angle_eq_self hsv0 hsv1, hlr]
  constructor
  · rw [hHAeq]
    push_cast
    linarith only [hSvL, hraH, Real.pi_gt_d20, Real.pi_lt_d20]
  · rw [hHAeq]
    push_cast
    linarith only [hSvH, hraL, Real.pi_gt_d20, Real.pi_lt_d20]

/-- Hour-angle enclosure for refinement step 3 of the fallback (query-instant) transit search of the out-of-window example. -/
theorem c2_ha_t3 {u : ℝ} (huL : (11022114165447/1000000000 : ℝ) ≤ u) (huH : u ≤ (11022114171427/1000000000 : ℝ)) :
    (-173633/1000000000 : ℝ) ≤ Lunar._hour_angle u (-6/25 : ℝ) ∧ Lunar._hour_angle u (-6/25 : ℝ) ≤ (-129041/1000000000 : ℝ) := by
  obtain ⟨hpuL, hpuH⟩ := NumBounds.mul_mem (8656748222299/250000000 : ℝ) (2164187056749/62500000 : ℝ)
    (by linarith only [Real.pi_gt_d20] : (157079632679489661923/50000000000000000000 : ℝ) ≤ Real.pi) (by linarith only [Real.pi_lt_d20] : Real.pi ≤ (314159265358979323847/100000000000000000000 : ℝ)) huL huH
    (by norm_num) (by norm_num) (by norm_num) (by norm_num)
    (by norm_num) (by norm_num) (by norm_num) (by norm_num)
  have hGeq : (280.1470 + 360.9856235 * u) * Lunar.RAD + (-6/25 : ℝ) =
      (280147/180000 : ℝ) * Real.pi + (721971247/360000000 : ℝ) * (Real.pi * u) + (-6/25 : ℝ) := by
    unfold Lunar.RAD
    ring
  have hS : Lunar.siderealLocal u (-6/25 : ℝ) =
      (280.1470 + 360.9856235 * u) * Lunar.RAD + (-6/25 : ℝ) -
        ((11053 : ℤ) : ℝ) * (2 * Real.pi) := by
    unfold Lunar.siderealLocal
    exact NumBounds.limit_angle_int 11053
      (by rw [hGeq]; push_cast; linarith only [Real.pi_gt_d20, Real.pi_lt_d20, hpuL, hpuH])
      (by rw [hGeq]; push_cast; linarith only [Real.pi_gt_d20, Real.pi_lt_d20, hpuL, hpuH])
  have hSvL : (48652427/250000000 : ℝ) ≤ Lunar.siderealLocal u (-6/25 : ℝ) := by
    rw [hS, hGeq]
    push_cast
    linarith only [Real.pi_gt_d20, Real.pi_lt_d20, hpuL, hpuH]
  have hSvH : Lunar.siderealLocal u (-6/25 : ℝ) ≤ (194647389/1000000000 : ℝ) := by
    rw [hS, hGeq]
    push_cast
    linarith only [Real.pi_gt_d20, Real.pi_lt_d20, hpuL, hpuH]
  have hFeq : Lunar._mean_distance u = (11659/22500 : ℝ) * Real.pi + (264587/3600000 : ℝ) * (Real.pi * u) := by
    unfold Lunar._mean_distance Lunar.F0 Lunar.F1 Lunar.RAD
    ring
  have hUeqsF : Lunar._mean_distance u - ((405 : ℤ) : ℝ) * (2 * Real.pi) - Real.pi / 2 = (-18224591/22500 : ℝ) * Real.pi + (264587/3600000 : ℝ) * (Real.pi * u) := by
    rw [hFeq]
    push_cast
    ring
  have hUsF : (162996601/500000000 : ℝ) ≤ Lunar._mean_distance u - ((405 : ℤ) : ℝ) * (2 * Real.pi) - Real.pi / 2 ∧ Lunar._mean_distance u - ((405 : ℤ) : ℝ) * (2 * Real.pi) - Real.pi / 2 ≤ (40749323/125000000 : ℝ) := by
    rw [hUeqsF]
    constructor <;> linarith only [Real.pi_gt_d20, Real.pi_lt_d20, hpuL, hpuH]
  obtain ⟨hpsFL, hpsFH⟩ := NumBounds.cos_poly_mem (947332337/1000000000 : ℝ) (947333463/1000000000 : ℝ) (162996601/500000000 : ℝ) (40749323/125000000 : ℝ)
    hUsF.1 hUsF.2 (by norm_num) (by norm_num) (by norm_num)
    (Or.inl (by norm_num)) (by norm_num) (by norm_num) (by norm_num) (by norm_num)
  have hidsF : Real.sin (Lunar._mean_distance u) = Real.cos (Lunar._mean_distance u - ((405 : ℤ) : ℝ) * (2 * Real.pi) - Real.pi / 2) := by
    rw [NumBounds.sin_reduce (Lunar._mean_distance u) 405]
    rw [NumBounds.sin_shift1 (Lunar._mean_distance u - ((405 : ℤ) : ℝ) * (2 * Real.pi))]
  have sFL : (947332337/1000000000 : ℝ) ≤ Real.sin (Lunar._mean_distance u) := by
    rw [hidsF]
    linarith only [hpsFL, hpsFH]
  have sFH : Real.sin (Lunar._mean_distance u) ≤ (947333463/1000000000 : ℝ) := by
    rw [hidsF]
    linarith only [hpsFL, hpsFH]
  have hBeq : Lunar._latitude u = (641/22500 : ℝ) * Real.pi * Real.sin (Lunar._mean_distance u) := by
    unfold Lunar._latitude Lunar.L1 Lunar.RAD
    ring
  obtain ⟨hBpL, hBpH⟩ := NumBounds.mul_mem (42393351/500000000 : ℝ) (21196701/250000000 : ℝ)
    (by linarith only [Real.pi_gt_d20] : (100688044547552873292643/1125000000000000000000000 : ℝ) ≤ (641/22500 : ℝ) * Real.pi)
    (by linarith only [Real.pi_lt_d20] : (641/22500 : ℝ) * Real.pi ≤ (201376089095105746585927/2250000000000000000000000 : ℝ))
    sFL sFH
    (by norm_num) (by norm_num) (by norm_num) (by norm_num)
    (by norm_num) (by norm_num) (by norm_num) (by norm_num)
  have hBL : (42393351/500000000 : ℝ) ≤ Lunar._latitude u := by
    rw [hBeq]
    exact hBpL
  have hBH : Lunar._latitude u ≤ (21196701/250000000 : ℝ) := by
    rw [hBeq]
    exact hBpH
  obtain ⟨sBL, sBH⟩ := NumBounds.sin_poly_mem (84684819/1000000000 : ℝ) (84685589/1000000000 : ℝ)
    hBL hBH (by norm_num) (by norm_num) (by norm_num) (by norm_num)
  obtain ⟨cBL, cBH⟩ := NumBounds.cos_poly_mem (498203709/500000000 : ℝ) (498204047/500000000 : ℝ) (42393351/500000000 : ℝ) (21196701/250000000 : ℝ)
    hBL hBH (by norm_num) (by norm_num) (by norm_num)
    (Or.inl (by norm_num)) (by norm_num) (by norm_num) (by norm_num) (by norm_num)
  obtain ⟨hTqL, hTqH⟩ := NumBounds.div_mem (16998019/200000000 : ℝ) (42495463/500000000 : ℝ) sBL sBH cBL cBH
    (by norm_num)
    (by norm_num) (by norm_num) (by norm_num) (by norm_num)
    (by norm_num) (by norm_num) (by norm_num) (by norm_num)
  have hTbL : (16998019/200000000 : ℝ) ≤ Real.tan (Lunar._latitude u) := by
    rw [Real.tan_eq_sin_div_cos]
    exact hTqL
  have hTbH : Real.tan (Lunar._latitude u) ≤ (42495463/500000000 : ℝ) := by
    rw [Real.tan_eq_sin_div_cos]
    exact hTqH
  have hEeq : Lunar._obliquity u = (7813/60000 : ℝ) * Real.pi + (-1/500000000 : ℝ) * (Real.pi * u) := by
    unfold Lunar._obliquity Lunar.E0 Lunar.E1 Lunar.RAD
    ring
  have hUsE : (409018469/1000000000 : ℝ) ≤ Lunar._obliquity u ∧ Lunar._obliquity u ≤ (40901847/100000000 : ℝ) := by
    rw [hEeq]
    constructor <;> linarith only [Real.pi_gt_d20, Real.pi_lt_d20, hpuL, hpuH]
  obtain ⟨hpsEL, hpsEH⟩ := NumBounds.sin_poly_mem (19885431/50000000 : ℝ) (49713661/125000000 : ℝ)
    hUsE.1 hUsE.2 (by norm_num) (by norm_num) (by norm_num) (by norm_num)
  have sEL : (19885431/50000000 : ℝ) ≤ Real.sin (Lunar._obliquity u) := hpsEL
  have sEH : Real.sin (Lunar._obliquity u) ≤ (49713661/125000000 : ℝ) := hpsEH
  have hUcE : (409018469/1000000000 : ℝ) ≤ Lunar._obliquity u ∧ Lunar._obliquity u ≤ (40901847/100000000 : ℝ) := by
    rw [hEeq]
    constructor <;> linarith only [Real.pi_gt_d20, Real.pi_lt_d20, hpuL, hpuH]
  obtain ⟨hpcEL, hpcEH⟩ := NumBounds.cos_poly_mem (458755647/500000000 : ℝ) (458755981/500000000 : ℝ) (409018469/1000000000 : ℝ) (40901847/100000000 : ℝ)
    hUcE.1 hUcE.2 (by norm_num) (by norm_num) (by norm_num)
    (Or.inl (by norm_num)) (by norm_num) (by norm_num) (by norm_num) (by norm_num)
  have cEL : (458755647/500000000 : ℝ) ≤ Real.cos (Lunar._obliquity u) := hpcEL
  have cEH : Real.cos (Lunar._obliquity u) ≤ (458755981/500000000 : ℝ) := hpcEH
  have hMeq : Lunar._mean_anomaly u = (134963/180000 : ℝ) * Real.pi + (13064993/180000000 : ℝ) * (Real.pi * u) := by
    unfold Lunar._mean_anomaly Lunar.M0 Lunar.M1 Lunar.RAD
    ring
  have hUeqsM : Lunar._mean_anomaly u - ((400 : ℤ) : ℝ) * (2 * Real.pi) - Real.pi = (-144045037/180000 : ℝ) * Real.pi + (13064993/180000000 : ℝ) * (Real.pi * u) := by
    rw [hMeq]
    push_cast
    ring
  have hUsM : (-359473103/500000000 : ℝ) ≤ Lunar._mean_anomaly u - ((400 : ℤ) : ℝ) * (2 * Real.pi) - Real.pi ∧ Lunar._mean_anomaly u - ((400 : ℤ) : ℝ) * (2 * Real.pi) - Real.pi ≤ (-17973621/25000000 : ℝ) := by
    rw [hUeqsM]
    constructor <;> linarith only [Real.pi_gt_d20, Real.pi_lt_d20, hpuL, hpuH]
  obtain ⟨hpsML, hpsMH⟩ := NumBounds.sin_poly_mem (-131718549/200000000 : ℝ) (-658590343/1000000000 : ℝ)
    hUsM.1 hUsM.2 (by norm_num) (by norm_num) (by norm_num) (by norm_num)
  have hidsM : Real.sin (Lunar._mean_anomaly u) = -Real.sin (Lunar._mean_anomaly u - ((400 : ℤ) : ℝ) * (2 * Real.pi) - Real.pi) := by
    rw [NumBounds.sin_reduce (Lunar._mean_anomaly u) 400]
    rw [NumBounds.sin_shift2 (Lunar._mean_anomaly u - ((400 : ℤ) : ℝ) * (2 * Real.pi))]
  have sML : (658590343/1000000000 : ℝ) ≤ Real.sin (Lunar._mean_anomaly u) := by
    rw [hidsM]
    linarith only [hpsML, hpsMH]
  have sMH : Real.sin (Lunar._mean_anomaly u) ≤ (131718549/200000000 : ℝ) := by
    rw [hidsM]
    linarith only [hpsML, hpsMH]
  obtain ⟨hpsL, hpsH⟩ := NumBounds.mul_mem (2069022583/1000000000 : ℝ) (206903013/100000000 : ℝ)
    (by linarith only [Real.pi_gt_d20] : (157079632679489661923/50000000000000000000 : ℝ) ≤ Real.pi) (by linarith only [Real.pi_lt_d20] : Real.pi ≤ (314159265358979323847/100000000000000000000 : ℝ)) sML sMH
    (by norm_num) (by norm_num) (by norm_num) (by norm_num)
    (by norm_num) (by norm_num) (by norm_num) (by norm_num)
  have hLeq : Lunar._longitude u = (18193/15000 : ℝ) * Real.pi + (366011/5000000 : ℝ) * (Real.pi * u) +
      (6289/180000 : ℝ) * (Real.pi * Real.sin (Lunar._mean_anomaly u)) := by
    unfold Lunar._longitude Lunar._ecliptic_equinox_longitude Lunar.Q0 Lunar.Q1 Lunar.L0 Lunar.RAD
    ring
  have hUeqsLam : Lunar._longitude u - ((404 : ℤ) : ℝ) * (2 * Real.pi) = (-12101807/15000 : ℝ) * Real.pi + (366011/5000000 : ℝ) * (Real.pi * u) + (6289/180000 : ℝ) * (Real.pi * Real.sin (Lunar._mean_anomaly u)) := by
    rw [hLeq]
    push_cast
    ring
  have hUsLam : (61954283/250000000 : ℝ) ≤ Lunar._longitude u - ((404 : ℤ) : ℝ) * (2 * Real.pi) ∧ Lunar._longitude u - ((404 : ℤ) : ℝ) * (2 * Real.pi) ≤ (247818773/1000000000 : ℝ) := by
    rw [hUeqsLam]
    constructor <;> linarith only [Real.pi_gt_d20, Real.pi_lt_d20, hpuL, hpuH, hpsL, hpsH]
  obtain ⟨hpsLamL, hpsLamH⟩ := NumBounds.sin_poly_mem (245287979/1000000000 : ℝ) (245290339/1000000000 : ℝ)
    hUsLam.1 hUsLam.2 (by norm_num) (by norm_num) (by norm_num) (by norm_num)
  have hidsLam : Real.sin (Lunar._longitude u) = Real.sin (Lunar._longitude u - ((404 : ℤ) : ℝ) * (2 * Real.pi)) := by
    rw [NumBounds.sin_reduce (Lunar._longitude u) 404]
  have sLamL : (245287979/1000000000 : ℝ) ≤ Real.sin (Lunar._longitude u) := by
    rw [hidsLam]
    linarith only [hpsLamL, hpsLamH]
  have sLamH : Real.sin (Lunar._longitude u) ≤ (245290339/1000000000 : ℝ) := by
    rw [hidsLam]
    linarith only [hpsLamL, hpsLamH]
  have hUeqcLam : Lunar._longitude u - ((404 : ℤ) : ℝ) * (2 * Real.pi) = (-12101807/15000 : ℝ) * Real.pi + (366011/5000000 : ℝ) * (Real.pi * u) + (6289/180000 : ℝ) * (Real.pi * Real.sin (Lunar._mean_anomaly u)) := by
    rw [hLeq]
    push_cast
    ring
  have hUcLam : (61954283/250000000 : ℝ) ≤ Lunar._longitude u - ((404 : ℤ) : ℝ) * (2 * Real.pi) ∧ Lunar._longitude u - ((404 : ℤ) : ℝ) * (2 * Real.pi) ≤ (247818773/1000000000 : ℝ) := by
    rw [hUeqcLam]
    constructor <;> linarith only [Real.pi_gt_d20, Real.pi_lt_d20, hpuL, hpuH, hpsL, hpsH]
  obtain ⟨hpcLamL, hpcLamH⟩ := NumBounds.cos_poly_mem (969449423/1000000000 : ℝ) (969450501/1000000000 : ℝ) (61954283/250000000 : ℝ) (247818773/1000000000 : ℝ)
    hUcLam.1 hUcLam.2 (by norm_num) (by norm_num) (by norm_num)
    (Or.inl (by norm_num)) (by norm_num) (by norm_num) (by norm_num) (by norm_num)
  have hidcLam : Real.cos (Lunar._longitude u) = Real.cos (Lunar._longitude u - ((404 : ℤ) : ℝ) * (2 * Real.pi)) := by
    rw [NumBounds.cos_reduce (Lunar._longitude u) 404]
  have cLamL : (969449423/1000000000 : ℝ) ≤ Real.cos (Lunar._longitude u) := by
    rw [hidcLam]
    linarith only [hpcLamL, hpcLamH]
  have cLamH : Real.cos (Lunar._longitude u) ≤ (969450501/1000000000 : ℝ) := by
    rw [hidcLam]
    linarith only [hpcLamL, hpcLamH]
  obtain ⟨hpAL, hpAH⟩ := NumBounds.mul_mem (225054491/1000000000 : ℝ) (225056821/1000000000 : ℝ)
    sLamL sLamH cEL cEH
    (by norm_num) (by norm_num) (by norm_num) (by norm_num)
    (by norm_num) (by norm_num) (by norm_num) (by norm_num)
  obtain ⟨hpBL, hpBH⟩ := NumBounds.mul_mem (33801293/1000000000 : ℝ) (33801681/1000000000 : ℝ)
    hTbL hTbH sEL sEH
    (by norm_num) (by norm_num) (by norm_num) (by norm_num)
    (by norm_num) (by norm_num) (by norm_num) (by norm_num)
  have hyL : (19125281/100000000 : ℝ) ≤ Real.sin (Lunar._longitude u) * Real.cos (Lunar._obliquity u) - Real.tan (Lunar._latitude u) * Real.sin (Lunar._obliquity u) := by
    linarith only [hpAL, hpBH]
  have hyH : Real.sin (Lunar._longitude u) * Real.cos (Lunar._obliquity u) - Real.tan (Lunar._latitude u) * Real.sin (Lunar._obliquity u) ≤ (23906941/125000000 : ℝ) := by
    linarith only [hpAH, hpBL]
  have hxpos : 0 < Real.cos (Lunar._longitude u) := by
    linarith only [cLamL]
  have hRA : Lunar._right_ascension u = Real.arctan ((Real.sin (Lunar._longitude u) * Real.cos (Lunar._obliquity u) - Real.tan (Lunar._latitude u) * Real.sin (Lunar._obliquity u)) / Real.cos (Lunar._longitude u)) := by
    unfold Lunar._right_ascension Lunar._right_ascension_direct Lunar.atan2
    rw [if_pos hxpos]
  obtain ⟨salL, salH⟩ := NumBounds.sin_poly_mem (193546863/1000000000 : ℝ) (193547531/1000000000 : ℝ)
    (le_refl (19477643/100000000 : ℝ)) (le_refl (19477643/100000000 : ℝ)) (by norm_num) (by norm_num) (by norm_num) (by norm_num)
  obtain ⟨calL, calH⟩ := NumBounds.cos_poly_mem (122636329/125000000 : ℝ) (981091299/1000000000 : ℝ) (19477643/100000000 : ℝ) (19477643/100000000 : ℝ)
    (le_refl (19477643/100000000 : ℝ)) (le_refl (19477643/100000000 : ℝ)) (by norm_num) (by norm_num) (by norm_num)
    (Or.inl (by norm_num)) (by norm_num) (by norm_num) (by norm_num) (by norm_num)
  obtain ⟨sauL, sauH⟩ := NumBounds.sin_poly_mem (48388411/250000000 : ℝ) (193554311/1000000000 : ℝ)
    (le_refl (194783341/1000000000 : ℝ)) (le_refl (194783341/1000000000 : ℝ)) (by norm_num) (by norm_num) (by norm_num) (by norm_num)
  obtain ⟨cauL, cauH⟩ := NumBounds.cos_poly_mem (490544647/500000000 : ℝ) (490544981/500000000 : ℝ) (194783341/1000000000 : ℝ) (194783341/1000000000 : ℝ)
    (le_refl (194783341/1000000000 : ℝ)) (le_refl (194783341/1000000000 : ℝ)) (by norm_num) (by norm_num) (by norm_num)
    (Or.inl (by norm_num)) (by norm_num) (by norm_num) (by norm_num) (by norm_num)
  obtain ⟨hm1L, hm1H⟩ := NumBounds.mul_mem (93816947/500000000 : ℝ) (187634751/1000000000 : ℝ)
    salL salH cLamL cLamH
    (by norm_num) (by norm_num) (by norm_num) (by norm_num)
    (by norm_num) (by norm_num) (by norm_num) (by norm_num)
  obtain ⟨hm2L, hm2H⟩ := NumBounds.mul_mem (9381817/50000000 : ℝ) (37527827/200000000 : ℝ)
    calL calH hyL hyH
    (by norm_num) (by norm_num) (by norm_num) (by norm_num)
    (by norm_num) (by norm_num) (by norm_num) (by norm_num)
  have hraL : (19477643/100000000 : ℝ) < Lunar._right_ascension u := by
    rw [hRA]
    exact NumBounds.arctan_gt_of (19477643/100000000 : ℝ) hxpos (by linarith only [calL])
      (by linarith only [Real.pi_gt_three]) (by linarith only [Real.pi_gt_three])
      (by linarith only [hm1H, hm2L])
  obtain ⟨hm3L, hm3H⟩ := NumBounds.mul_mem (46909021/250000000 : ℝ) (187638879/1000000000 : ℝ)
    cauL cauH hyL hyH
    (by norm_num) (by norm_num) (by norm_num) (by norm_num)
    (by norm_num) (by norm_num) (by norm_num) (by norm_num)
  obtain ⟨hm4L, hm4H⟩ := NumBounds.mul_mem (46910117/250000000 : ℝ) (46910331/250000000 : ℝ)
    sauL sauH cLamL cLamH
    (by norm_num) (by norm_num) (by norm_num) (by norm_num)
    (by norm_num) (by norm_num) (by norm_num) (by norm_num)
  have hraH : Lunar._right_ascension u < (194783341/1000000000 : ℝ) := by
    rw [hRA]
    exact NumBounds.arctan_lt_of (194783341/1000000000 : ℝ) hxpos (by linarith only [cauL])
      (by linarith only [Real.pi_gt_three]) (by linarith only [Real.pi_gt_three])
      (by linarith only [hm3H, hm4L])
  have hlr : Lunar.limit_angle (Lunar._right_ascension u) =
      Lunar._right_ascension u - ((0 : ℤ) : ℝ) * (2 * Real.pi) :=
    NumBounds.limit_angle_int 0
      (by push_cast; linarith only [hraL, Real.pi_gt_d20, Real.pi_lt_d20])
      (by push_cast; linarith only [hraH, Real.pi_gt_d20, Real.pi_lt_d20])
  have hsv0 : 0 ≤ Lunar.siderealLocal u (-6/25 : ℝ) := by
    linarith only [hSvL]
  have hsv1 : Lunar.siderealLocal u (-6/25 : ℝ) < 2 * Real.pi := by
    linarith only [hSvH, Real.pi_gt_d20]
  have hHAeq : Lunar._hour_angle u (-6/25 : ℝ) =
      Lunar.siderealLocal u (-6/25 : ℝ) -
        (Lunar._right_ascension u - ((0 : ℤ) : ℝ) * (2 * Real.pi)) := by
    unfold Lunar._hour_angle Lunar._hour_angle_direct
    rw [Lunar.limit_angle_eq_self hsv0 hsv1, hlr]
  constructor
  · rw [hHAeq]
    push_cast
    linarith only [hSvL, hraH, Real.pi_gt_d20, Real.pi_lt_d20]
  · rw [hHAeq]
    push_cast
    linarith only [hSvH, hraL, Real.pi_gt_d20, Real.pi_lt_d20]

/-- Hour-angle enclosure for refinement step 4 of the fallback (query-instant) transit search of the out-of-window example. -/
theorem c2_ha_t4 {u : ℝ} (huL : (43055133539/3906250 : ℝ) ≤ u) (huH : u ≤ (5511057099531/500000000 : ℝ)) :
    (-49967/1000000000 : ℝ) ≤ Lunar._hour_angle u (-6/25 : ℝ) ∧ Lunar._hour_angle u (-6/25 : ℝ) ≤ (20599/500000000 : ℝ) := by
  obtain ⟨hpuL, hpuH⟩ := NumBounds.mul_mem (6925398590743/200000000 : ℝ) (34626992994801/1000000000 : ℝ)
    (by linarith only [Real.pi_gt_d20] : (157079632679489661923/50000000000000000000 : ℝ) ≤ Real.pi) (by linarith only [Real.pi_lt_d20] : Real.pi ≤ (314159265358979323847/100000000000000000000 : ℝ)) huL huH
    (by norm_num) (by norm_num) (by norm_num) (by norm_num)
    (by norm_num) (by norm_num) (by norm_num) (by norm_num)
  have hGeq : (280.1470 + 360.9856235 * u) * Lunar.RAD + (-6/25 : ℝ) =
      (280147/180000 : ℝ) * Real.pi + (721971247/360000000 : ℝ) * (Real.pi * u) + (-6/25 : ℝ) := by
    unfold Lunar.RAD
    ring
  have hS : Lunar.siderealLocal u (-6/25 : ℝ) =
      (280.1470 + 360.9856235 * u) * Lunar.RAD + (-6/25 : ℝ) -
        ((11053 : ℤ) : ℝ) * (2 * Real.pi) := by
    unfold Lunar.siderealLocal
    exact NumBounds.limit_angle_int 11053
      (by rw [hGeq]; push_cast; linarith only [Real.pi_gt_d20, Real.pi_lt_d20, hpuL, hpuH])
      (by rw [hGeq]; push_cast; linarith only [Real.pi_gt_d20, Real.pi_lt_d20, hpuL, hpuH])
  have hSvL : (194739099/1000000000 : ℝ) ≤ Lunar.siderealLocal u (-6/25 : ℝ) := by
    rw [hS, hGeq]
    push_cast
    linarith only [Real.pi_gt_d20, Real.pi_lt_d20, hpuL, hpuH]
  have hSvH : Lunar.siderealLocal u (-6/25 : ℝ) ≤ (97410749/500000000 : ℝ) := by
    rw [hS, hGeq]
    push_cast
    linarith only [Real.pi_gt_d20, Real.pi_lt_d20, hpuL, hpuH]
  have hFeq : Lunar._mean_distance u = (11659/22500 : ℝ) * Real.pi + (264587/3600000 : ℝ) * (Real.pi * u) := by
    unfold Lunar._mean_distance Lunar.F0 Lunar.F1 Lunar.RAD
    ring
  have hUeqsF : Lunar._mean_distance u - ((405 : ℤ) : ℝ) * (2 * Real.pi) - Real.pi / 2 = (-18224591/22500 : ℝ) * Real.pi + (264587/3600000 : ℝ) * (Real.pi * u) := by
    rw [hFeq]
    push_cast
    ring
  have hUsF : (325997943/1000000000 : ℝ) ≤ Lunar._mean_distance u - ((405 : ℤ) : ℝ) * (2 * Real.pi) - Real.pi / 2 ∧ Lunar._mean_distance u - ((405 : ℤ) : ℝ) * (2 * Real.pi) - Real.pi / 2 ≤ (65200193/200000000 : ℝ) := by
    rw [hUeqsF]
    constructor <;> linarith only [Real.pi_gt_d20, Real.pi_lt_d20, hpuL, hpuH]
  obtain ⟨hpsFL, hpsFH⟩ := NumBounds.cos_poly_mem (236832571/250000000 : ℝ) (473665977/500000000 : ℝ) (325997943/1000000000 : ℝ) (65200193/200000000 : ℝ)
    hUsF.1 hUsF.2 (by norm_num) (by norm_num) (by norm_num)
    (Or.inl (by norm_num)) (by norm_num) (by norm_num) (by norm_num) (by norm_num)
  have hidsF : Real.sin (Lunar._mean_distance u) = Real.cos (Lunar._mean_distance u - ((405 : ℤ) : ℝ) * (2 * Real.pi) - Real.pi / 2) := by
    rw [NumBounds.sin_reduce (Lunar._mean_distance u) 405]
    rw [NumBounds.sin_shift1 (Lunar._mean_distance u - ((405 : ℤ) : ℝ) * (2 * Real.pi))]
  have sFL : (236832571/250000000 : ℝ) ≤ Real.sin (Lunar._mean_distance u) := by
    rw [hidsF]
    linarith only [hpsFL, hpsFH]
  have sFH : Real.sin (Lunar._mean_distance u) ≤ (473665977/500000000 : ℝ) := by
    rw [hidsF]
    linarith only [hpsFL, hpsFH]
  have hBeq : Lunar._latitude u = (641/22500 : ℝ) * Real.pi * Real.sin (Lunar._mean_distance u) := by
    unfold Lunar._latitude Lunar.L1 Lunar.RAD
    ring
  obtain ⟨hBpL, hBpH⟩ := NumBounds.mul_mem (42393259/500000000 : ℝ) (84786669/1000000000 : ℝ)
    (by linarith only [Real.pi_gt_d20] : (100688044547552873292643/1125000000000000000000000 : ℝ) ≤ (641/22500 : ℝ) * Real.pi)
    (by linarith only [Real.pi_lt_d20] : (641/22500 : ℝ) * Real.pi ≤ (201376089095105746585927/2250000000000000000000000 : ℝ))
    sFL sFH
    (by norm_num) (by norm_num) (by norm_num) (by norm_num)
    (by norm_num) (by norm_num) (by norm_num) (by norm_num)
  have hBL : (42393259/500000000 : ℝ) ≤ Lunar._latitude u := by
    rw [hBeq]
    exact hBpL
  have hBH : Lunar._latitude u ≤ (84786669/1000000000 : ℝ) := by
    rw [hBeq]
    exact hBpH
  obtain ⟨sBL, sBH⟩ := NumBounds.sin_poly_mem (16936927/200000000 : ℝ) (42342727/500000000 : ℝ)
    hBL hBH (by norm_num) (by norm_num) (by norm_num) (by norm_num)
  obtain ⟨cBL, cBH⟩ := NumBounds.cos_poly_mem (996407429/1000000000 : ℝ) (99640811/100000000 : ℝ) (42393259/500000000 : ℝ) (84786669/1000000000 : ℝ)
    hBL hBH (by norm_num) (by norm_num) (by norm_num)
    (Or.inl (by norm_num)) (by norm_num) (by norm_num) (by norm_num) (by norm_num)
  obtain ⟨hTqL, hTqH⟩ := NumBounds.div_mem (84989909/1000000000 : ℝ) (8499079/100000000 : ℝ) sBL sBH cBL cBH
    (by norm_num)
    (by norm_num) (by norm_num) (by norm_num) (by norm_num)
    (by norm_num) (by norm_num) (by norm_num) (by norm_num)
  have hTbL : (84989909/1000000000 : ℝ) ≤ Real.tan (Lunar._latitude u) := by
    rw [Real.tan_eq_sin_div_cos]
    exact hTqL
  have hTbH : Real.tan (Lunar._latitude u) ≤ (8499079/100000000 : ℝ) := by
    rw [Real.tan_eq_sin_div_cos]
    exact hTqH
  have hEeq : Lunar._obliquity u = (7813/60000 : ℝ) * Real.pi + (-1/500000000 : ℝ) * (Real.pi * u) := by
    unfold Lunar._obliquity Lunar.E0 Lunar.E1 Lunar.RAD
    ring
  have hUsE : (409018469/1000000000 : ℝ) ≤ Lunar._obliquity u ∧ Lunar._obliquity u ≤ (40901847/100000000 : ℝ) := by
    rw [hEeq]
    constructor <;> linarith only [Real.pi_gt_d20, Real.pi_lt_d20, hpuL, hpuH]
  obtain ⟨hpsEL, hpsEH⟩ := NumBounds.sin_poly_mem (19885431/50000000 : ℝ) (49713661/125000000 : ℝ)
    hUsE.1 hUsE.2 (by norm_num) (by norm_num) (by norm_num) (by norm_num)
  have sEL : (19885431/50000000 : ℝ) ≤ Real.sin (Lunar._obliquity u) := hpsEL
  have sEH : Real.sin (Lunar._obliquity u) ≤ (49713661/125000000 : ℝ) := hpsEH
  have hUcE : (409018469/1000000000 : ℝ) ≤ Lunar._obliquity u ∧ Lunar._obliquity u ≤ (40901847/100000000 : ℝ) := by
    rw [hEeq]
    constructor <;> linarith only [Real.pi_gt_d20, Real.pi_lt_d20, hpuL, hpuH]
  obtain ⟨hpcEL, hpcEH⟩ := NumBounds.cos_poly_mem (458755647/500000000 : ℝ) (458755981/500000000 : ℝ) (409018469/1000000000 : ℝ) (40901847/100000000 : ℝ)
    hUcE.1 hUcE.2 (by norm_num) (by norm_num) (by norm_num)
    (Or.inl (by norm_num)) (by norm_num) (by norm_num) (by norm_num) (by norm_num)
  have cEL : (458755647/500000000 : ℝ) ≤ Real.cos (Lunar._obliquity u) := hpcEL
  have cEH : Real.cos (Lunar._obliquity u) ≤ (458755981/500000000 : ℝ) := hpcEH
  have hMeq : Lunar._mean_anomaly u = (134963/180000 : ℝ) * Real.pi + (13064993/180000000 : ℝ) * (Real.pi * u) := by
    unfold Lunar._mean_anomaly Lunar.M0 Lunar.M1 Lunar.RAD
    ring
  have hUeqsM : Lunar._mean_anomaly u - ((400 : ℤ) : ℝ) * (2 * Real.pi) - Real.pi = (-144045037/180000 : ℝ) * Real.pi + (13064993/180000000 : ℝ) * (Real.pi * u) := by
    rw [hMeq]
    push_cast
    ring
  have hUsM : (-718941523/1000000000 : ℝ) ≤ Lunar._mean_anomaly u - ((400 : ℤ) : ℝ) * (2 * Real.pi) - Real.pi ∧ Lunar._mean_anomaly u - ((400 : ℤ) : ℝ) * (2 * Real.pi) - Real.pi ≤ (-718938539/1000000000 : ℝ) := by
    rw [hUeqsM]
    constructor <;> linarith only [Real.pi_gt_d20, Real.pi_lt_d20, hpuL, hpuH]
  obtain ⟨hpsML, hpsMH⟩ := NumBounds.sin_poly_mem (-16464741/25000000 : ℝ) (-658585183/1000000000 : ℝ)
    hUsM.1 hUsM.2 (by norm_num) (by norm_num) (by norm_num) (by norm_num)
  have hidsM : Real.sin (Lunar._mean_anomaly u) = -Real.sin (Lunar._mean_anomaly u - ((400 : ℤ) : ℝ) * (2 * Real.pi) - Real.pi) := by
    rw [NumBounds.sin_reduce (Lunar._mean_anomaly u) 400]
    rw [NumBounds.sin_shift2 (Lunar._mean_anomaly u - ((400 : ℤ) : ℝ) * (2 * Real.pi))]
  have sML : (658585183/1000000000 : ℝ) ≤ Real.sin (Lunar._mean_anomaly u) := by
    rw [hidsM]
    linarith only [hpsML, hpsMH]
  have sMH : Real.sin (Lunar._mean_anomaly u) ≤ (16464741/25000000 : ℝ) := by
    rw [hidsM]
    linarith only [hpsML, hpsMH]
  obtain ⟨hpsL, hpsH⟩ := NumBounds.mul_mem (517251593/250000000 : ℝ) (16552163/8000000 : ℝ)
    (by linarith only [Real.pi_gt_d20] : (157079632679489661923/50000000000000000000 : ℝ) ≤ Real.pi) (by linarith only [Real.pi_lt_d20] : Real.pi ≤ (314159265358979323847/100000000000000000000 : ℝ)) sML sMH
    (by norm_num) (by norm_num) (by norm_num) (by norm_num)
    (by norm_num) (by norm_num) (by norm_num) (by norm_num)
  have hLeq : Lunar._longitude u = (18193/15000 : ℝ) * Real.pi + (366011/5000000 : ℝ) * (Real.pi * u) +
      (6289/180000 : ℝ) * (Real.pi * Real.sin (Lunar._mean_anomaly u)) := by
    unfold Lunar._longitude Lunar._ecliptic_equinox_longitude Lunar.Q0 Lunar.Q1 Lunar.L0 Lunar.RAD
    ring
  have hUeqsLam : Lunar._longitude u - ((404 : ℤ) : ℝ) * (2 * Real.pi) = (-12101807/15000 : ℝ) * Real.pi + (366011/5000000 : ℝ) * (Real.pi * u) + (6289/180000 : ℝ) * (Real.pi * Real.sin (Lunar._mean_anomaly u)) := by
    rw [hLeq]
    push_cast
    ring
  have hUsLam : (30977661/125000000 : ℝ) ≤ Lunar._longitude u - ((404 : ℤ) : ℝ) * (2 * Real.pi) ∧ Lunar._longitude u - ((404 : ℤ) : ℝ) * (2 * Real.pi) ≤ (247824787/1000000000 : ℝ) := by
    rw [hUeqsLam]
    constructor <;> linarith only [Real.pi_gt_d20, Real.pi_lt_d20, hpuL, hpuH, hpsL, hpsH]
  obtain ⟨hpsLamL, hpsLamH⟩ := NumBounds.sin_poly_mem (245291951/1000000000 : ℝ) (122648113/500000000 : ℝ)
    hUsLam.1 hUsLam.2 (by norm_num) (by norm_num) (by norm_num) (by norm_num)
  have hidsLam : Real.sin (Lunar._longitude u) = Real.sin (Lunar._longitude u - ((404 : ℤ) : ℝ) * (2 * Real.pi)) := by
    rw [NumBounds.sin_reduce (Lunar._longitude u) 404]
  have sLamL : (245291951/1000000000 : ℝ) ≤ Real.sin (Lunar._longitude u) := by
    rw [hidsLam]
    linarith only [hpsLamL, hpsLamH]
  have sLamH : Real.sin (Lunar._longitude u) ≤ (122648113/500000000 : ℝ) := by
    rw [hidsLam]
    linarith only [hpsLamL, hpsLamH]
  have hUeqcLam : Lunar._longitude u - ((404 : ℤ) : ℝ) * (2 * Real.pi) = (-12101807/15000 : ℝ) * Real.pi + (366011/5000000 : ℝ) * (Real.pi * u) + (6289/180000 : ℝ) * (Real.pi * Real.sin (Lunar._mean_anomaly u)) := by
    rw [hLeq]
    push_cast
    ring
  have hUcLam : (30977661/125000000 : ℝ) ≤ Lunar._longitude u - ((404 : ℤ) : ℝ) * (2 * Real.pi) ∧ Lunar._longitude u - ((404 : ℤ) : ℝ) * (2 * Real.pi) ≤ (247824787/1000000000 : ℝ) := by
    rw [hUeqcLam]
    constructor <;> linarith only [Real.pi_gt_d20, Real.pi_lt_d20, hpuL, hpuH, hpsL, hpsH]
  obtain ⟨hpcLamL, hpcLamH⟩ := NumBounds.cos_poly_mem (969447943/1000000000 : ℝ) (484724743/500000000 : ℝ) (30977661/125000000 : ℝ) (247824787/1000000000 : ℝ)
    hUcLam.1 hUcLam.2 (by norm_num) (by norm_num) (by norm_num)
    (Or.inl (by norm_num)) (by norm_num) (by norm_num) (by norm_num) (by norm_num)
  have hidcLam : Real.cos (Lunar._longitude u) = Real.cos (Lunar._longitude u - ((404 : ℤ) : ℝ) * (2 * Real.pi)) := by
    rw [NumBounds.cos_reduce (Lunar._longitude u) 404]
  have cLamL : (969447943/1000000000 : ℝ) ≤ Real.cos (Lunar._longitude u) := by
    rw [hidcLam]
    linarith only [hpcLamL, hpcLamH]
  have cLamH : Real.cos (Lunar._longitude u) ≤ (484724743/500000000 : ℝ) := by
    rw [hidcLam]
    linarith only [hpcLamL, hpcLamH]
  obtain ⟨hpAL, hpAH⟩ := NumBounds.mul_mem (45011627/200000000 : ℝ) (112531111/500000000 : ℝ)
    sLamL sLamH cEL cEH
    (by norm_num) (by norm_num) (by norm_num) (by norm_num)
    (by norm_num) (by norm_num) (by norm_num) (by norm_num)
  obtain ⟨hpBL, hpBH⟩ := NumBounds.mul_mem (33801219/1000000000 : ℝ) (33801627/1000000000 : ℝ)
    hTbL hTbH sEL sEH
    (by norm_num) (by norm_num) (by norm_num) (by norm_num)
    (by norm_num) (by norm_num) (by norm_num) (by norm_num)
  have hyL : (47814127/250000000 : ℝ) ≤ Real.sin (Lunar._longitude u) * Real.cos (Lunar._obliquity u) - Real.tan (Lunar._latitude u) * Real.sin (Lunar._obliquity u) := by
    linarith only [hpAL, hpBH]
  have hyH : Real.sin (Lunar._longitude u) * Real.cos (Lunar._obliquity u) - Real.tan (Lunar._latitude u) * Real.sin (Lunar._obliquity u) ≤ (191261003/1000000000 : ℝ) := by
    linarith only [hpAH, hpBL]
  have hxpos : 0 < Real.cos (Lunar._longitude u) := by
    linarith only [cLamL]
  have hRA : Lunar._right_ascension u = Real.arctan ((Real.sin (Lunar._longitude u) * Real.cos (Lunar._obliquity u) - Real.tan (Lunar._latitude u) * Real.sin (Lunar._obliquity u)) / Real.cos (Lunar._longitude u)) := by
    unfold Lunar._right_ascension Lunar._right_ascension_direct Lunar.atan2
    rw [if_pos hxpos]
  obtain ⟨salL, salH⟩ := NumBounds.sin_poly_mem (9677533/50000000 : ℝ) (6048479/31250000 : ℝ)
    (le_refl (1947803/10000000 : ℝ)) (le_refl (1947803/10000000 : ℝ)) (by norm_num) (by norm_num) (by norm_num) (by norm_num)
  obtain ⟨calL, calH⟩ := NumBounds.cos_poly_mem (981089883/1000000000 : ℝ) (19621811/20000000 : ℝ) (1947803/10000000 : ℝ) (1947803/10000000 : ℝ)
    (le_refl (1947803/10000000 : ℝ)) (le_refl (1947803/10000000 : ℝ)) (by norm_num) (by norm_num) (by norm_num)
    (Or.inl (by norm_num)) (by norm_num) (by norm_num) (by norm_num) (by norm_num)
  obtain ⟨sauL, sauH⟩ := NumBounds.sin_poly_mem (193559261/1000000000 : ℝ) (24194991/125000000 : ℝ)
    (le_refl (97394533/500000000 : ℝ)) (le_refl (97394533/500000000 : ℝ)) (by norm_num) (by norm_num) (by norm_num) (by norm_num)
  obtain ⟨cauL, cauH⟩ := NumBounds.cos_poly_mem (490544093/500000000 : ℝ) (490544427/500000000 : ℝ) (97394533/500000000 : ℝ) (97394533/500000000 : ℝ)
    (le_refl (97394533/500000000 : ℝ)) (le_refl (97394533/500000000 : ℝ)) (by norm_num) (by norm_num) (by norm_num)
    (Or.inl (by norm_num)) (by norm_num) (by norm_num) (by norm_num) (by norm_num)
  obtain ⟨hm1L, hm1H⟩ := NumBounds.mul_mem (187637289/1000000000 : ℝ) (46909559/250000000 : ℝ)
    salL salH cLamL cLamH
    (by norm_num) (by norm_num) (by norm_num) (by norm_num)
    (by norm_num) (by norm_num) (by norm_num) (by norm_num)
  obtain ⟨hm2L, hm2H⟩ := NumBounds.mul_mem (7505593/40000000 : ℝ) (187644363/1000000000 : ℝ)
    calL calH hyL hyH
    (by norm_num) (by norm_num) (by norm_num) (by norm_num)
    (by norm_num) (by norm_num) (by norm_num) (by norm_num)
  have hraL : (1947803/10000000 : ℝ) < Lunar._right_ascension u := by
    rw [hRA]
    exact NumBounds.arctan_gt_of (1947803/10000000 : ℝ) hxpos (by linarith only [calL])
      (by linarith only [Real.pi_gt_three]) (by linarith only [Real.pi_gt_three])
      (by linarith only [hm1H, hm2L])
  obtain ⟨hm3L, hm3H⟩ := NumBounds.mul_mem (375279/2000000 : ℝ) (187644039/1000000000 : ℝ)
    cauL cauH hyL hyH
    (by norm_num) (by norm_num) (by norm_num) (by norm_num)
    (by norm_num) (by norm_num) (by norm_num) (by norm_num)
  obtain ⟨hm4L, hm4H⟩ := NumBounds.mul_mem (187645627/1000000000 : ℝ) (187646573/1000000000 : ℝ)
    sauL sauH cLamL cLamH
    (by norm_num) (by norm_num) (by norm_num) (by norm_num)
    (by norm_num) (by norm_num) (by norm_num) (by norm_num)
  have hraH : Lunar._right_ascension u < (97394533/500000000 : ℝ) := by
    rw [hRA]
    exact NumBounds.arctan_lt_of (97394533/500000000 : ℝ) hxpos (by linarith only [cauL])
      (by linarith only [Real.pi_gt_three]) (by linarith only [Real.pi_gt_three])
      (by linarith only [hm3H, hm4L])
  have hlr : Lunar.limit_angle (Lunar._right_ascension u) =
      Lunar._right_ascension u - ((0 : ℤ) : ℝ) * (2 * Real.pi) :=
    NumBounds.limit_angle_int 0
      (by push_cast; linarith only [hraL, Real.pi_gt_d20, Real.pi_lt_d20])
      (by push_cast; linarith only [hraH, Real.pi_gt_d20, Real.pi_lt_d20])
  have hsv0 : 0 ≤ Lunar.siderealLocal u (-6/25 : ℝ) := by
    linarith only [hSvL]
  have hsv1 : Lunar.siderealLocal u (-6/25 : ℝ) < 2 * Real.pi := by
    linarith only [hSvH, Real.pi_gt_d20]
  have hHAeq : Lunar._hour_angle u (-6/25 : ℝ) =
      Lunar.siderealLocal u (-6/25 : ℝ) -
        (Lunar._right_ascension u - ((0 : ℤ) : ℝ) * (2 * Real.pi)) := by
    unfold Lunar._hour_angle Lunar._hour_angle_direct
    rw [Lunar.limit_angle_eq_self hsv0 hsv1, hlr]
  constructor
  · rw [hHAeq]
    push_cast
    linarith only [hSvL, hraH, Real.pi_gt_d20, Real.pi_lt_d20]
  · rw [hHAeq]
    push_cast
    linarith only [hSvH, hraL, Real.pi_gt_d20, Real.pi_lt_d20]

/-- The refined hour angle of the backward transit search at the out-of-window example is negative, so that search overshoots `t + 24h` and is rejected. -/
theorem c2_s_branch :
    Lunar._hour_angle_refined (1102209/100 : ℝ) (-6/25 : ℝ) < 0 := by
  have hfin : Lunar._hour_angle_refined (1102209/100 : ℝ) (-6/25 : ℝ) =
      Lunar._hour_angle (Lunar._transit_direct (1102209/100 : ℝ) (Lunar._hour_angle (Lunar._transit_direct (1102209/100 : ℝ) (Lunar._hour_angle (Lunar._transit_direct (1102209/100 : ℝ) (Lunar._hour_angle (Lunar._transit_direct (1102209/100 : ℝ) (Lunar._hour_angle (1102209/100 : ℝ) (-6/25 : ℝ))) (-6/25 : ℝ) + (Lunar._hour_angle (1102209/100 : ℝ) (-6/25 : ℝ)))) (-6/25 : ℝ) + (Lunar._hour_angle (Lunar._transit_direct (1102209/100 : ℝ) (Lunar._hour_angle (1102209/100 : ℝ) (-6/25 : ℝ))) (-6/25 : ℝ) + (Lunar._hour_angle (1102209/100 : ℝ) (-6/25 : ℝ))))) (-6/25 : ℝ) + (Lunar._hour_angle (Lunar._transit_direct (1102209/100 : ℝ) (Lunar._hour_angle (Lunar._transit_direct (1102209/100 : ℝ) (Lunar._hour_angle (1102209/100 : ℝ) (-6/25 : ℝ))) (-6/25 : ℝ) + (Lunar._hour_angle (1102209/100 : ℝ) (-6/25 : ℝ)))) (-6/25 : ℝ) + (Lunar._hour_angle (Lunar._transit_direct (1102209/100 : ℝ) (Lunar._hour_angle (1102209/100 : ℝ) (-6/25 : ℝ))) (-6/25 : ℝ) + (Lunar._hour_angle (1102209/100 : ℝ) (-6/25 : ℝ)))))) (-6/25 : ℝ) + (Lunar._hour_angle (Lunar._transit_direct (1102209/100 : ℝ) (Lunar._hour_angle (Lunar._transit_direct (1102209/100 : ℝ) (Lunar._hour_angle (Lunar._transit_direct (1102209/100 : ℝ) (Lunar._hour_angle (1102209/100 : ℝ) (-6/25 : ℝ))) (-6/25 : ℝ) + (Lunar._hour_angle (1102209/100 : ℝ) (-6/25 : ℝ)))) (-6/25 : ℝ) + (Lunar._hour_angle (Lunar._transit_direct (1102209/100 : ℝ) (Lunar._hour_angle (1102209/100 : ℝ) (-6/25 : ℝ))) (-6/25 : ℝ) + (Lunar._hour_angle (1102209/100 : ℝ) (-6/25 : ℝ))))) (-6/25 : ℝ) + (Lunar._hour_angle (Lunar._transit_direct (1102209/100 : ℝ) (Lunar._hour_angle (Lunar._transit_direct (1102209/100 : ℝ) (Lunar._hour_angle (1102209/100 : ℝ) (-6/25 : ℝ))) (-6/25 : ℝ) + (Lunar._hour_angle (1102209/100 : ℝ) (-6/25 : ℝ)))) (-6/25 : ℝ) + (Lunar._hour_angle (Lunar._transit_direct (1102209/100 : ℝ) (Lunar._hour_angle (1102209/100 : ℝ) (-6/25 : ℝ))) (-6/25 : ℝ) + (Lunar._hour_angle (1102209/100 : ℝ) (-6/25 : ℝ))))) := rfl
  set a0 : ℝ := Lunar._hour_angle (1102209/100 : ℝ) (-6/25 : ℝ) with ha0d
  set u1 : ℝ := Lunar._transit_direct (1102209/100 : ℝ) a0 with hu1d
  set a1 : ℝ := Lunar._hour_angle u1 (-6/25 : ℝ) + a0 with ha1d
  set u2 : ℝ := Lunar._transit_direct (1102209/100 : ℝ) a1 with hu2d
  set a2 : ℝ := Lunar._hour_angle u2 (-6/25 : ℝ) + a1 with ha2d
  set u3 : ℝ := Lunar._transit_direct (1102209/100 : ℝ) a2 with hu3d
  set a3 : ℝ := Lunar._hour_angle u3 (-6/25 : ℝ) + a2 with ha3d
  set u4 : ℝ := Lunar._transit_direct (1102209/100 : ℝ) a3 with hu4d
  set a4 : ℝ := Lunar._hour_angle u4 (-6/25 : ℝ) + a3 with ha4d
  obtain ⟨hH0L, hH0H⟩ := c2_ha_s0 (le_refl (1102209/100 : ℝ)) (le_refl (1102209/100 : ℝ))
  have hA0L : (-147609913/1000000000 : ℝ) ≤ a0 := by
    rw [ha0d]
    linarith only [hH0L]
  have hA0H : a0 ≤ (-18450571/125000000 : ℝ) := by
    rw [ha0d]
    linarith only [hH0H]
  obtain ⟨hPr1L, hPr1H⟩ := NumBounds.mul_mem (-1468303/62500000 : ℝ) (-5872999/250000000 : ℝ)
    hA0L hA0H NumBounds.proj_lo NumBounds.proj_hi
    (by norm_num) (by norm_num) (by norm_num) (by norm_num)
    (by norm_num) (by norm_num) (by norm_num) (by norm_num)
  have hu1L : (2755528372999/250000000 : ℝ) ≤ u1 := by
    rw [hu1d]
    unfold Lunar._transit_direct
    linarith only [hPr1H]
  have hu1H : u1 ≤ (688882093303/62500000 : ℝ) := by
    rw [hu1d]
    unfold Lunar._transit_direct
    linarith only [hPr1L]
  obtain ⟨hH1L, hH1H⟩ := c2_ha_s1 hu1L hu1H
  have hA1L : (-151891189/1000000000 : ℝ) ≤ a1 := by
    rw [ha1d]
    linarith only [hH1L, hA0L]
  have hA1H : a1 ≤ (-151874901/1000000000 : ℝ) := by
    rw [ha1d]
    linarith only [hH1H, hA0H]
  obtain ⟨hPr2L, hPr2H⟩ := NumBounds.mul_mem (-12087117/500000000 : ℝ) (-24171641/1000000000 : ℝ)
    hA1L hA1H NumBounds.proj_lo NumBounds.proj_hi
    (by norm_num) (by norm_num) (by norm_num) (by norm_num)
    (by norm_num) (by norm_num) (by norm_num) (by norm_num)
  have hu2L : (11022114171641/1000000000 : ℝ) ≤ u2 := by
    rw [hu2d]
    unfold Lunar._transit_direct
    linarith only [hPr2H]
  have hu2H : u2 ≤ (5511057087117/500000000 : ℝ) := by
    rw [hu2d]
    unfold Lunar._transit_direct
    linarith only [hPr2L]
  obtain ⟨hH2L, hH2H⟩ := c2_ha_s2 hu2L hu2H
  have hA2L : (-121621/800000 : ℝ) ≤ a2 := by
    rw [ha2d]
    linarith only [hH2L, hA1L]
  have hA2H : a2 ≤ (-37996899/250000000 : ℝ) := by
    rw [ha2d]
    linarith only [hH2H, hA1H]
  obtain ⟨hPr3L, hPr3H⟩ := NumBounds.mul_mem (-2419573/100000000 : ℝ) (-24189577/1000000000 : ℝ)
    hA2L hA2H NumBounds.proj_lo NumBounds.proj_hi
    (by norm_num) (by norm_num) (by norm_num) (by norm_num)
    (by norm_num) (by norm_num) (by norm_num) (by norm_num)
  have hu3L : (11022114189577/1000000000 : ℝ) ≤ u3 := by
    rw [hu3d]
    unfold Lunar._transit_direct
    linarith only [hPr3H]
  have hu3H : u3 ≤ (1102211419573/100000000 : ℝ) := by
    rw [hu3d]
    unfold Lunar._transit_direct
    linarith only [hPr3L]
  obtain ⟨hH3L, hH3H⟩ := c2_ha_s3 hu3L hu3H
  have hA3L : (-152052703/1000000000 : ℝ) ≤ a3 := by
    rw [ha3d]
    linarith only [hH3L, hA2L]
  have hA3H : a3 ≤ (-151968321/1000000000 : ℝ) := by
    rw [ha3d]
    linarith only [hH3H, hA2H]
  obtain ⟨hPr4L, hPr4H⟩ := NumBounds.mul_mem (-1209997/50000000 : ℝ) (-24186509/1000000000 : ℝ)
    hA3L hA3H NumBounds.proj_lo NumBounds.proj_hi
    (by norm_num) (by norm_num) (by norm_num) (by norm_num)
    (by norm_num) (by norm_num) (by norm_num) (by norm_num)
  have hu4L : (11022114186509/1000000000 : ℝ) ≤ u4 := by
    rw [hu4d]
    unfold Lunar._transit_direct
    linarith only [hPr4H]
  have hu4H : u4 ≤ (551105709997/50000000 : ℝ) := by
    rw [hu4d]
    unfold Lunar._transit_direct
    linarith only [hPr4L]
  obtain ⟨hH4L, hH4H⟩ := c2_ha_s4 hu4L hu4H
  have hA4L : (-3041991/20000000 : ℝ) ≤ a4 := by
    rw [ha4d]
    linarith only [hH4L, hA3L]
  have hA4H : a4 ≤ (-37980421/250000000 : ℝ) := by
    rw [ha4d]
    linarith only [hH4H, hA3H]
  rw [hfin]
  exact lt_of_le_of_lt hA4H (by norm_num)

/-- The refined hour angle of the fallback transit search at the out-of-window example lies below `-2π`, so the accepted fallback result lands more than a full day after the query instant. -/
theorem c2_t_branch :
    Lunar._hour_angle_refined (1102109/100 : ℝ) (-6/25 : ℝ) < -(2 * Real.pi) := by
  have hfin : Lunar._hour_angle_refined (1102109/100 : ℝ) (-6/25 : ℝ) =
      Lunar._hour_angle (Lunar._transit_direct (1102109/100 : ℝ) (Lunar._hour_angle (Lunar._transit_direct (1102109/100 : ℝ) (Lunar._hour_angle (Lunar._transit_direct (1102109/100 : ℝ) (Lunar._hour_angle (Lunar._transit_direct (1102109/100 : ℝ) (Lunar._hour_angle (1102109/100 : ℝ) (-6/25 : ℝ))) (-6/25 : ℝ) + (Lunar._hour_angle (1102109/100 : ℝ) (-6/25 : ℝ)))) (-6/25 : ℝ) + (Lunar._hour_angle (Lunar._transit_direct (1102109/100 : ℝ) (Lunar._hour_angle (1102109/100 : ℝ) (-6/25 : ℝ))) (-6/25 : ℝ) + (Lunar._hour_angle (1102109/100 : ℝ) (-6/25 : ℝ))))) (-6/25 : ℝ) + (Lunar._hour_angle (Lunar._transit_direct (1102109/100 : ℝ) (Lunar._hour_angle (Lunar._transit_direct (1102109/100 : ℝ) (Lunar._hour_angle (1102109/100 : ℝ) (-6/25 : ℝ))) (-6/25 : ℝ) + (Lunar._hour_angle (1102109/100 : ℝ) (-6/25 : ℝ)))) (-6/25 : ℝ) + (Lunar._hour_angle (Lunar._transit_direct (1102109/100 : ℝ) (Lunar._hour_angle (1102109/100 : ℝ) (-6/25 : ℝ))) (-6/25 : ℝ) + (Lunar._hour_angle (1102109/100 : ℝ) (-6/25 : ℝ)))))) (-6/25 : ℝ) + (Lunar._hour_angle (Lunar._transit_direct (1102109/100 : ℝ) (Lunar._hour_angle (Lunar._transit_direct (1102109/100 : ℝ) (Lunar._hour_angle (Lunar._transit_direct (1102109/100 : ℝ) (Lunar._hour_angle (1102109/100 : ℝ) (-6/25 : ℝ))) (-6/25 : ℝ) + (Lunar._hour_angle (1102109/100 : ℝ) (-6/25 : ℝ)))) (-6/25 : ℝ) + (Lunar._hour_angle (Lunar._transit_direct (1102109/100 : ℝ) (Lunar._hour_angle (1102109/100 : ℝ) (-6/25 : ℝ))) (-6/25 : ℝ) + (Lunar._hour_angle (1102109/100 : ℝ) (-6/25 : ℝ))))) (-6/25 : ℝ) + (Lunar._hour_angle (Lunar._transit_direct (1102109/100 : ℝ) (Lunar._hour_angle (Lunar._transit_direct (1102109/100 : ℝ) (Lunar._hour_angle (1102109/100 : ℝ) (-6/25 : ℝ))) (-6/25 : ℝ) + (Lunar._hour_angle (1102109/100 : ℝ) (-6/25 : ℝ)))) (-6/25 : ℝ) + (Lunar._hour_angle (Lunar._transit_direct (1102109/100 : ℝ) (Lunar._hour_angle (1102109/100 : ℝ) (-6/25 : ℝ))) (-6/25 : ℝ) + (Lunar._hour_angle (1102109/100 : ℝ) (-6/25 : ℝ))))) := rfl
  set a0 : ℝ := Lunar._hour_angle (1102109/100 : ℝ) (-6/25 : ℝ) with ha0d
  set u1 : ℝ := Lunar._transit_direct (1102109/100 : ℝ) a0 with hu1d
  set a1 : ℝ := Lunar._hour_angle u1 (-6/25 : ℝ) + a0 with ha1d
  set u2 : ℝ := Lunar._transit_direct (1102109/100 : ℝ) a1 with hu2d
  set a2 : ℝ := Lunar._hour_angle u2 (-6/25 : ℝ) + a1 with ha2d
  set u3 : ℝ := Lunar._transit_direct (1102109/100 : ℝ) a2 with hu3d
  set a3 : ℝ := Lunar._hour_angle u3 (-6/25 : ℝ) + a2 with ha3d
  set u4 : ℝ := Lunar._transit_direct (1102109/100 : ℝ) a3 with hu4d
  set a4 : ℝ := Lunar._hour_angle u4 (-6/25 : ℝ) + a3 with ha4d
  obtain ⟨hH0L, hH0H⟩ := c2_ha_t0 (le_refl (1102109/100 : ℝ)) (le_refl (1102109/100 : ℝ))
  have hA0L : (-6249490233/1000000000 : ℝ) ≤ a0 := by
    rw [ha0d]
    linarith only [hH0L]
  have hA0H : a0 ≤ (-3124742571/500000000 : ℝ) := by
    rw [ha0d]
    linarith only [hH0H]
  obtain ⟨hPr1L, hPr1H⟩ := NumBounds.mul_mem (-994637263/1000000000 : ℝ) (-248659113/250000000 : ℝ)
    hA0L hA0H NumBounds.proj_lo NumBounds.proj_hi
    (by norm_num) (by norm_num) (by norm_num) (by norm_num)
    (by norm_num) (by norm_num) (by norm_num) (by norm_num)
  have hu1L : (2755521159113/250000000 : ℝ) ≤ u1 := by
    rw [hu1d]
    unfold Lunar._transit_direct
    linarith only [hPr1H]
  have hu1H : u1 ≤ (11022084637263/1000000000 : ℝ) := by
    rw [hu1d]
    unfold Lunar._transit_direct
    linarith only [hPr1L]
  obtain ⟨hH1L, hH1H⟩ := c2_ha_t1 hu1L hu1H
  have hA1L : (-257192979/40000000 : ℝ) ≤ a1 := by
    rw [ha1d]
    linarith only [hH1L, hA0L]
  have hA1H : a1 ≤ (-6429808717/1000000000 : ℝ) := by
    rw [ha1d]
    linarith only [hH1H, hA0H]
  obtain ⟨hPr2L, hPr2H⟩ := NumBounds.mul_mem (-1023338349/1000000000 : ℝ) (-6395849/6250000 : ℝ)
    hA1L hA1H NumBounds.proj_lo NumBounds.proj_hi
    (by norm_num) (by norm_num) (by norm_num) (by norm_num)
    (by norm_num) (by norm_num) (by norm_num) (by norm_num)
  have hu2L : (68888208349/6250000 : ℝ) ≤ u2 := by
    rw [hu2d]
    unfold Lunar._transit_direct
    linarith only [hPr2H]
  have hu2H : u2 ≤ (11022113338349/1000000000 : ℝ) := by
    rw [hu2d]
    unfold Lunar._transit_direct
    linarith only [hPr2L]
  obtain ⟨hH2L, hH2H⟩ := c2_ha_t2 hu2L hu2H
  have hA2L : (-3217529431/500000000 : ℝ) ≤ a2 := by
    rw [ha2d]
    linarith only [hH2L, hA1L]
  have hA2H : a2 ≤ (-643502129/100000000 : ℝ) := by
    rw [ha2d]
    linarith only [hH2H, hA1H]
  obtain ⟨hPr3L, hPr3H⟩ := NumBounds.mul_mem (-1024171427/1000000000 : ℝ) (-1024165447/1000000000 : ℝ)
    hA2L hA2H NumBounds.proj_lo NumBounds.proj_hi
    (by norm_num) (by norm_num) (by norm_num) (by norm_num)
    (by norm_num) (by norm_num) (by norm_num) (by norm_num)
  have hu3L : (11022114165447/1000000000 : ℝ) ≤ u3 := by
    rw [hu3d]
    unfold Lunar._transit_direct
    linarith only [hPr3H]
  have hu3H : u3 ≤ (11022114171427/1000000000 : ℝ) := by
    rw [hu3d]
    unfold Lunar._transit_direct
    linarith only [hPr3L]
  obtain ⟨hH3L, hH3H⟩ := c2_ha_t3 hu3L hu3H
  have hA3L : (-1287046499/200000000 : ℝ) ≤ a3 := by
    rw [ha3d]
    linarith only [hH3L, hA2L]
  have hA3H : a3 ≤ (-6435150331/1000000000 : ℝ) := by
    rw [ha3d]
    linarith only [hH3H, hA2H]
  obtain ⟨hPr4L, hPr4H⟩ := NumBounds.mul_mem (-512099531/500000000 : ℝ) (-8001453/7812500 : ℝ)
    hA3L hA3H NumBounds.proj_lo NumBounds.proj_hi
    (by norm_num) (by norm_num) (by norm_num) (by norm_num)
    (by norm_num) (by norm_num) (by norm_num) (by norm_num)
  have hu4L : (43055133539/3906250 : ℝ) ≤ u4 := by
    rw [hu4d]
    unfold Lunar._transit_direct
    linarith only [hPr4H]
  have hu4H : u4 ≤ (5511057099531/500000000 : ℝ) := by
    rw [hu4d]
    unfold Lunar._transit_direct
    linarith only [hPr4L]
  obtain ⟨hH4L, hH4H⟩ := c2_ha_t4 hu4L hu4H
  have hA4L : (-3217641231/500000000 : ℝ) ≤ a4 := by
    rw [ha4d]
    linarith only [hH4L, hA3L]
  have hA4H : a4 ≤ (-6435109133/1000000000 : ℝ) := by
    rw [ha4d]
    linarith only [hH4H, hA3H]
  rw [hfin]
  exact lt_of_le_of_lt hA4H (by linarith only [Real.pi_lt_d20])

/-- At the out-of-window example query (`t = 1102109/100` days, longitude
`-6/25` rad) the backward search is rejected and the forward fallback is
accepted, so `_transit` returns the fallback result. -/
theorem c2_transit_some :
    Lunar._transit (1102109/100 : ℝ) 0 (-6/25 : ℝ) =
      some (Lunar._transit_direct (1102109/100 : ℝ)
        (Lunar._hour_angle_refined (1102109/100 : ℝ) (-6/25 : ℝ))) := by
  have hls : Lunar._hours_later (1102109/100 : ℝ) 24 = (1102209/100 : ℝ) := by
    unfold Lunar._hours_later
    norm_num
  have hs : Lunar._hour_angle_refined
      (Lunar._hours_later (1102109/100 : ℝ) 24) (-6/25 : ℝ) < 0 := by
    rw [hls]
    exact c2_s_branch
  exact (transit_fallback_beyond_window 0 hs c2_t_branch).1

/-- The accepted fallback result of the example lies strictly beyond
`t + 24h`. -/
theorem c2_transit_beyond :
    Lunar._hours_later (1102109/100 : ℝ) 24 <
      Lunar._transit_direct (1102109/100 : ℝ)
        (Lunar._hour_angle_refined (1102109/100 : ℝ) (-6/25 : ℝ)) := by
  have hls : Lunar._hours_later (1102109/100 : ℝ) 24 = (1102209/100 : ℝ) := by
    unfold Lunar._hours_later
    norm_num
  have hs : Lunar._hour_angle_refined
      (Lunar._hours_later (1102109/100 : ℝ) 24) (-6/25 : ℝ) < 0 := by
    rw [hls]
    exact c2_s_branch
  exact (transit_fallback_beyond_window 0 hs c2_t_branch).2

/-- Claim C2 (corrected): the transit solver's two acceptance tests are
one-sided.  The backward search from `t+24h` is accepted whenever its result
is `≤ t+24h` (no lower-window check), the forward fallback from `t` whenever
its result is `≥ t` (no upper-window check), and the NaN sentinel is
returned exactly when both one-sided tests fail.  Consequently a finite
returned instant need not lie in `[t, t+24h)`: at the concrete query
`t = 1102109/100` days (J2000 scale), latitude 0, longitude `-6/25` rad,
the accepted fallback transit lies strictly beyond `t + 24h`. -/
theorem transit_one_sided_acceptance (t lat lon : ℝ) :
    (Lunar._transit t lat lon = none ↔
      Lunar._hours_later t 24 <
          Lunar._transit_direct (Lunar._hours_later t 24)
            (Lunar._hour_angle_refined (Lunar._hours_later t 24) lon) ∧
        Lunar._transit_direct t (Lunar._hour_angle_refined t lon) < t) ∧
    (∀ r : ℝ, Lunar._transit t lat lon = some r →
      r ≤ Lunar._hours_later t 24 ∨ t ≤ r) ∧
    Lunar._hours_later (1102109/100 : ℝ) 24 <
      (Lunar._transit (1102109/100 : ℝ) 0 (-6/25 : ℝ)).getD 0 := by
  obtain ⟨hiff, honeside⟩ := transit_one_sided_gen t lat lon
  refine ⟨hiff, honeside, ?_⟩
  rw [c2_transit_some]
  simp only [Option.getD_some]
  exact c2_transit_beyond

/-- Claim C2 witness: the one-sided guarantee applied at the out-of-window
example, whose finite result satisfies the forward test `t ≤ result`. -/
theorem transit_one_sided_acceptance_witness :
    Lunar._transit_direct (1102109/100 : ℝ)
        (Lunar._hour_angle_refined (1102109/100 : ℝ) (-6/25 : ℝ)) ≤
      Lunar._hours_later (1102109/100 : ℝ) 24 ∨
    (1102109/100 : ℝ) ≤ Lunar._transit_direct (1102109/100 : ℝ)
        (Lunar._hour_angle_refined (1102109/100 : ℝ) (-6/25 : ℝ)) :=
  (transit_one_sided_acceptance (1102109/100 : ℝ) 0 (-6/25 : ℝ)).2.1
    (Lunar._transit_direct (1102109/100 : ℝ)
      (Lunar._hour_angle_refined (1102109/100 : ℝ) (-6/25 : ℝ)))
    c2_transit_some

/-- Claim C2 counterexample: the spec asserts that whenever transit returns
a finite instant it lies within `[t, t+24h)`; at query instant
`1102109/100` days (J2000 scale), latitude 0, longitude `-6/25` radians,
`_transit` returns a finite instant strictly later than `t + 24h`. -/
theorem transit_accepts_out_of_window :
    Lunar._transit (1102109/100 : ℝ) 0 (-6/25 : ℝ) ≠ none ∧
      Lunar._hours_later (1102109/100 : ℝ) 24 <
        (Lunar._transit (1102109/100 : ℝ) 0 (-6/25 : ℝ)).getD 0 := by
  constructor
  · rw [c2_transit_some]
    exact fun h => Option.noConfusion h
  · rw [c2_transit_some]
    simp only [Option.getD_some]
    exact c2_transit_beyond
